import Mathlib

/-!
FusionEKF: sensor-fusion orchestration of an extended Kalman filter.

A shallow embedding of `src/FusionEKF.cpp` (constructor `FusionEKF::FusionEKF`
and `FusionEKF::ProcessMeasurement`).

Conventions of the embedding.

* Numbers are elements of an ordered field `K`: `ℚ` for concrete runs, `ℝ`
  where `cos`/`sin` or positive-semidefiniteness matter.
* `FusionEKF.cpp` declares `ro`, `phi`, `px`, `py` (lines 83–87), `dt`
  (line 112) and `dt_2`, `dt_3`, `dt_4` (lines 122–124) as `float`. Every
  value stored in a `float` and every result of a `float` operation (lines
  122–130: `float` with `float`, or `float` with `int`) is rounded to IEEE
  binary32 by `toFloat`: round to nearest, ties to even, with gradual
  underflow (`float` expressions are evaluated in `float`, the
  `FLT_EVAL_METHOD` 0 of x86-64 and AArch64). The `double` operations of
  those lines (the conversion of the timestamp difference and its division on
  line 112, the products of lines 86–87) are rounded to binary64 by
  `toDouble`. A `float` is stored into a `double` matrix coefficient without
  change.
* Overflow to an infinity and NaN are outside the model (the exponent of a
  rounding is not bounded above). Timestamps are unbounded integers; their
  C++ type is declared in a header that is not among the sources.
* The `double` arithmetic of the collaborators that are not among the sources
  (`Predict`, `Update`, `UpdateEKF`, `CalculateJacobian`) is exact.
* The `<math.h>` functions and `M_PI` are collected in `Libm`; `fmod` is
  defined from truncation (C `fmod` is exact).
* `VectorXd`/`MatrixXd` objects that the constructor sizes as 4 or 4×4 are
  `Fin 4 → K` and `Matrix (Fin 4) (Fin 4) K`. The measurement-space objects of
  the Kalman filter (`H_`, `R_`) change size between lidar (2) and radar (3);
  the filter stores that size as `m`.
* `KalmanFilter` (`kalman_filter.h/.cpp`), `Tools` (`tools.h/.cpp`) and
  `MeasurementPackage` (`measurement_package.h`) are not among the sources;
  they are modelled from the specification and marked as such.
-/

set_option linter.unusedSectionVars false

namespace FusionEKFModel

open Matrix

variable {K : Type} [LinearOrderedField K] [FloorRing K]

/-! ## `<math.h>` -/

/-- The part of `<math.h>` that the filter uses, over the scalar type `K`. -/
structure Libm (K : Type) where
  M_PI : K
  cos : K → K
  sin : K → K
  sqrt : K → K
  atan2 : K → K → K

/-- Rounding toward zero, the integer quotient used by C `fmod`. -/
def trunc (q : K) : Int :=
  if 0 ≤ q then Int.floor q else Int.ceil q

/-- C `fmod(x, y)`: `x - n*y` with `n` the quotient `x/y` rounded toward
zero. -/
def fmod (x y : K) : K :=
  x - (trunc (x / y) : K) * y

/-! ## Floating point -/

/-- Rounding to the nearest integer, ties to the even one. -/
def roundEven (y : K) : Int :=
  if y - (Int.floor y : K) < 1 / 2 then Int.floor y
  else if 1 / 2 < y - (Int.floor y : K) then Int.floor y + 1
  else if Int.floor y % 2 = 0 then Int.floor y else Int.floor y + 1

/-- Rounding to the nearest number of the binary floating-point format with
`p` significand bits and least normal exponent `emin` (round to nearest, ties
to even): `x` is measured in units in the last place of its binade, the
binade of a subnormal `x` being that of `2 ^ emin`. -/
def roundBinary (p : Nat) (emin : Int) (x : K) : K :=
  if x = 0 then 0
  else
    let e : Int := max (Int.log 2 |x|) emin
    let ulp : K := (2 : K) ^ (e - ((p : Int) - 1))
    (roundEven (x / ulp) : K) * ulp

/-- The value a C `float` holds after `x` is stored in it, and the result of
a `float` operation whose exact result is `x` (IEEE binary32). -/
def toFloat (x : K) : K := roundBinary 24 (-126) x

/-- The result of a `double` operation whose exact result is `x` (IEEE
binary64). -/
def toDouble (x : K) : K := roundBinary 53 (-1022) x

/-! ## Collaborators modelled from the specification -/

/-- The two sensor tags of `MeasurementPackage::SensorType`. -/
inductive SensorType where
  | LASER
  | RADAR
  deriving DecidableEq, Repr

/-- Modelled from the spec: `MeasurementPackage` (measurement_package.h is not
among the sources). An observation carries a sensor tag, an integer
microsecond timestamp and the raw values (2 for lidar, 3 for radar) as a
dynamically sized vector. -/
structure MeasurementPackage (K : Type) where
  timestamp_ : Int
  sensor_type_ : SensorType
  raw_measurements_ : List K

/-- Element access `v[i]` of a dynamically sized `VectorXd` (reading outside
the vector, undefined in C++, yields `0`). -/
def coeff (v : List K) (i : Nat) : K :=
  v.getD i 0

/-- Modelled from the spec: the `KalmanFilter` object (KalmanCore;
kalman_filter.h/.cpp are not among the sources). It holds the state vector,
the state covariance, the state-transition and process-noise matrices and the
measurement-transform `H_` (`m`×4) and measurement-noise `R_` (`m`×`m`). -/
structure KalmanFilter (K : Type) where
  x_ : Fin 4 → K
  P_ : Matrix (Fin 4) (Fin 4) K
  F_ : Matrix (Fin 4) (Fin 4) K
  Q_ : Matrix (Fin 4) (Fin 4) K
  m : Nat
  H_ : Matrix (Fin m) (Fin 4) K
  R_ : Matrix (Fin m) (Fin m) K

/-- Coefficient assignment `M(i, j) = v` on a matrix. -/
def setCoeff {r c : Nat} (M : Matrix (Fin r) (Fin c) K) (i : Fin r) (j : Fin c) (v : K) :
    Matrix (Fin r) (Fin c) K :=
  Matrix.of fun a b => if a = i ∧ b = j then v else M a b

/-- Matrix inverse as `.inverse()` computes it for an invertible matrix:
adjugate over determinant. -/
def inverse {n : Nat} (S : Matrix (Fin n) (Fin n) K) : Matrix (Fin n) (Fin n) K :=
  (S.det)⁻¹ • S.adjugate

/-- Modelled from the spec: `KalmanFilter::Init(x, P, F, H, R, Q)`
(kalman_filter.cpp is not among the sources): "sets all six quantities". -/
def KalmanFilter.Init (_kf : KalmanFilter K) (x_in : Fin 4 → K)
    (P_in F_in : Matrix (Fin 4) (Fin 4) K) {m : Nat} (H_in : Matrix (Fin m) (Fin 4) K)
    (R_in : Matrix (Fin m) (Fin m) K) (Q_in : Matrix (Fin 4) (Fin 4) K) : KalmanFilter K :=
  { x_ := x_in, P_ := P_in, F_ := F_in, Q_ := Q_in, m := m, H_ := H_in, R_ := R_in }

/-- Modelled from the spec: `KalmanFilter::Predict()` (kalman_filter.cpp is
not among the sources): `x ← F·x`; `P ← F·P·Fᵀ + Q`. -/
def KalmanFilter.Predict (kf : KalmanFilter K) : KalmanFilter K :=
  { kf with
    x_ := kf.F_.mulVec kf.x_
    P_ := kf.F_ * kf.P_ * kf.F_.transpose + kf.Q_ }

/-- Modelled from the spec: the shared tail of both updates
(kalman_filter.cpp is not among the sources): from the innovation `y`,
`S = H·P·Hᵀ + R`, `K = P·Hᵀ·S⁻¹`, `x ← x + K·y`, `P ← (I − K·H)·P`. -/
def KalmanFilter.applyInnovation (kf : KalmanFilter K) (y : Fin kf.m → K) : KalmanFilter K :=
  let S := kf.H_ * kf.P_ * kf.H_.transpose + kf.R_
  let Kg := kf.P_ * kf.H_.transpose * inverse S
  { kf with
    x_ := kf.x_ + Kg.mulVec y
    P_ := (1 - Kg * kf.H_) * kf.P_ }

/-- Modelled from the spec: `KalmanFilter::Update(z)`, the linear update
(kalman_filter.cpp is not among the sources): innovation `y = z − H·x`, then
the standard Kalman recursion. -/
def KalmanFilter.Update (kf : KalmanFilter K) (z : List K) : KalmanFilter K :=
  let y : Fin kf.m → K := fun i => coeff z i.val - kf.H_.mulVec kf.x_ i
  kf.applyInnovation y

/-- Modelled from the spec: normalisation of an angle into `(−π, π]`. -/
def normalizeAngle (L : Libm K) (a : K) : K :=
  a - (Int.ceil ((a - L.M_PI) / (2 * L.M_PI)) : K) * (2 * L.M_PI)

/-- Modelled from the spec: the radar measurement function `h`: range,
bearing and range-rate of the Cartesian state. -/
def radarMeasurement (L : Libm K) (x : Fin 4 → K) : List K :=
  let rho := L.sqrt (x 0 * x 0 + x 1 * x 1)
  [rho, L.atan2 (x 1) (x 0), (x 0 * x 2 + x 1 * x 3) / rho]

/-- Modelled from the spec: `KalmanFilter::UpdateEKF(z)`, the nonlinear update
(kalman_filter.cpp is not among the sources): innovation `y = z − h(x)` with
its bearing component (index 1) normalised into `(−π, π]`, then the same
recursion as the linear update. -/
def KalmanFilter.UpdateEKF (L : Libm K) (kf : KalmanFilter K) (z : List K) : KalmanFilter K :=
  let hx := radarMeasurement L kf.x_
  let y : Fin kf.m → K := fun i =>
    if i.val = 1 then normalizeAngle L (coeff z i.val - coeff hx i.val)
    else coeff z i.val - coeff hx i.val
  kf.applyInnovation y

/-- Modelled from the spec: the `Tools` utility object (tools.h/.cpp are not
among the sources). The spec fixes neither the "small positive threshold"
under which the Jacobian is degenerate nor the matrix value that
`CalculateJacobian` hands back to signal that condition; both are fields. -/
structure Tools (K : Type) where
  threshold : K
  degenerate : Matrix (Fin 3) (Fin 4) K

/-- Modelled from the spec: `Tools::CalculateJacobian(x_state)` (tools.cpp is
not among the sources): the 3×4 matrix of partial derivatives of (range,
bearing, range-rate) at the state `(px, py, vx, vy)`; when `px² + py²` is below
the threshold the degenerate condition is signalled instead. -/
def Tools.CalculateJacobian (t : Tools K) (L : Libm K) (x : Fin 4 → K) :
    Matrix (Fin 3) (Fin 4) K :=
  let px := x 0
  let py := x 1
  let vx := x 2
  let vy := x 3
  let c1 := px * px + py * py
  let c2 := L.sqrt c1
  let c3 := c1 * c2
  if c1 < t.threshold then t.degenerate
  else
    !![px / c2, py / c2, 0, 0;
       -(py / c1), px / c1, 0, 0;
       py * (vx * py - vy * px) / c3, px * (px * vy - py * vx) / c3, px / c2, py / c2]

/-! ## `FusionEKF` (src/FusionEKF.cpp) -/

/-- The data members of `FusionEKF`. -/
structure FusionEKF (K : Type) where
  ekf_ : KalmanFilter K
  is_initialized_ : Bool
  previous_timestamp_ : Int
  tools : Tools K
  R_laser_ : Matrix (Fin 2) (Fin 2) K
  R_radar_ : Matrix (Fin 3) (Fin 3) K
  H_laser_ : Matrix (Fin 2) (Fin 4) K
  Hj_ : Matrix (Fin 3) (Fin 4) K
  F_ : Matrix (Fin 4) (Fin 4) K
  P_ : Matrix (Fin 4) (Fin 4) K
  Q_ : Matrix (Fin 4) (Fin 4) K

/-- The constructor `FusionEKF::FusionEKF()` (lines 20–65). The members it
does not assign are arguments: the default-constructed `ekf_` and `tools`, and
the contents of `Hj_`, which `MatrixXd(3, 4)` leaves unset. -/
def FusionEKF.new (ekf0 : KalmanFilter K) (tools0 : Tools K)
    (Hj0 : Matrix (Fin 3) (Fin 4) K) : FusionEKF K :=
  { ekf_ := ekf0
    tools := tools0
    is_initialized_ := false
    previous_timestamp_ := 0
    R_laser_ := !![0.0225, 0;
                   0, 0.0225]
    R_radar_ := !![0.09, 0, 0;
                   0, 0.0009, 0;
                   0, 0, 0.09]
    H_laser_ := !![1.0, 0.0, 0.0, 0.0;
                   0.0, 1.0, 0.0, 0.0]
    Hj_ := Hj0
    F_ := !![1.0, 0.0, 1.0, 0.0;
             0.0, 1.0, 0.0, 1.0;
             0.0, 0.0, 1.0, 0.0;
             0.0, 0.0, 0.0, 1.0]
    P_ := !![1.0, 0.0, 0.0, 0.0;
             0.0, 1.0, 0.0, 0.0;
             0.0, 0.0, 1.0, 0.0;
             0.0, 0.0, 0.0, 1.0]
    Q_ := !![0.0, 0.0, 0.0, 0.0;
             0.0, 0.0, 0.0, 0.0;
             0.0, 0.0, 0.0, 0.0;
             0.0, 0.0, 0.0, 0.0] }

/-- The "Initialization" section of `ProcessMeasurement` (lines 77–106), run
when `is_initialized_` is false. In the RADAR branch `ro`, `phi`, `px`, `py`
are `float` (lines 83–87); `ro * cos(phi)` is a `double` product narrowed to
`float` (when the `float` overload of `cos` is the one called, the product of
two `float`s is a `double` already and the inner rounding changes nothing). -/
def FusionEKF.initialization (L : Libm K) (s : FusionEKF K) (measurement_pack : MeasurementPackage K) :
    FusionEKF K :=
  match measurement_pack.sensor_type_ with
  | SensorType.RADAR =>
    let ro := toFloat (coeff measurement_pack.raw_measurements_ 0)
    let phi := toFloat (fmod (coeff measurement_pack.raw_measurements_ 1) (2 * L.M_PI))
    let _ro_dot := toFloat (coeff measurement_pack.raw_measurements_ 2)
    let px := toFloat (toDouble (ro * L.cos phi))
    let py := toFloat (toDouble (ro * L.sin phi))
    let x : Fin 4 → K := ![px, py, 0.0, 0.0]
    { s with
      ekf_ := s.ekf_.Init x s.P_ s.F_ s.Hj_ s.R_radar_ s.Q_
      previous_timestamp_ := measurement_pack.timestamp_
      is_initialized_ := true }
  | SensorType.LASER =>
    let x : Fin 4 → K :=
      ![coeff measurement_pack.raw_measurements_ 0, coeff measurement_pack.raw_measurements_ 1, 0.0, 0.0]
    { s with
      ekf_ := s.ekf_.Init x s.P_ s.F_ s.H_laser_ s.R_laser_ s.Q_
      previous_timestamp_ := measurement_pack.timestamp_
      is_initialized_ := true }

/-- The elapsed time of line 112,
`float dt = (timestamp_ - previous_timestamp_) / 1000000.0`: the integer
difference is converted to `double`, divided in `double`, and the quotient is
stored in a `float`. -/
def FusionEKF.elapsed (s : FusionEKF K) (measurement_pack : MeasurementPackage K) : K :=
  toFloat (toDouble
    (toDouble ((measurement_pack.timestamp_ - s.previous_timestamp_ : Int) : K) / 1000000.0))

/-- Lines 112–130 of `ProcessMeasurement`: the filter as it stands when
`ekf_.Predict()` is called, with the previous timestamp advanced, the two
time-dependent entries of `F_` overwritten and `Q_` recomputed. The powers of
`dt` are `float` variables, and each entry of `Q_` is a `float` expression
(`float / int` then `float * int`) evaluated in binary32 before it is stored
in the `double` matrix. -/
def FusionEKF.beforePredict (s : FusionEKF K) (measurement_pack : MeasurementPackage K) :
    FusionEKF K :=
  let dt : K := s.elapsed measurement_pack
  let noise_ax : K := 9
  let noise_ay : K := 9
  let F1 := setCoeff s.ekf_.F_ 0 2 dt
  let F2 := setCoeff F1 1 3 dt
  let dt_2 := toFloat (dt * dt)
  let dt_3 := toFloat (dt_2 * dt)
  let dt_4 := toFloat (dt_3 * dt)
  let Q : Matrix (Fin 4) (Fin 4) K :=
    !![toFloat (toFloat (dt_4 / 4) * noise_ax), 0, toFloat (toFloat (dt_3 / 2) * noise_ax), 0;
       0, toFloat (toFloat (dt_4 / 4) * noise_ay), 0, toFloat (toFloat (dt_3 / 2) * noise_ay);
       toFloat (toFloat (dt_3 / 2) * noise_ax), 0, toFloat (dt_2 * noise_ax), 0;
       0, toFloat (toFloat (dt_3 / 2) * noise_ay), 0, toFloat (dt_2 * noise_ay)]
  { s with
    previous_timestamp_ := measurement_pack.timestamp_
    ekf_ := { s.ekf_ with F_ := F2, Q_ := Q } }

/-- The "Prediction" section of `ProcessMeasurement` (lines 112–131). -/
def FusionEKF.prediction (s : FusionEKF K) (measurement_pack : MeasurementPackage K) :
    FusionEKF K :=
  let s1 := s.beforePredict measurement_pack
  { s1 with ekf_ := s1.ekf_.Predict }

/-- The "Update" section of `ProcessMeasurement` (lines 136–147). -/
def FusionEKF.update (L : Libm K) (s : FusionEKF K) (measurement_pack : MeasurementPackage K) :
    FusionEKF K :=
  if measurement_pack.sensor_type_ = SensorType.RADAR then
    let Hj := s.tools.CalculateJacobian L s.ekf_.x_
    let ekf1 : KalmanFilter K := { s.ekf_ with m := 3, H_ := Hj, R_ := s.R_radar_ }
    { s with Hj_ := Hj, ekf_ := ekf1.UpdateEKF L measurement_pack.raw_measurements_ }
  else
    let ekf1 : KalmanFilter K := { s.ekf_ with m := 2, H_ := s.H_laser_, R_ := s.R_laser_ }
    { s with ekf_ := ekf1.Update measurement_pack.raw_measurements_ }

/-- `FusionEKF::ProcessMeasurement` (lines 72–152). -/
def FusionEKF.ProcessMeasurement (L : Libm K) (s : FusionEKF K)
    (measurement_pack : MeasurementPackage K) : FusionEKF K :=
  if !s.is_initialized_ then
    s.initialization L measurement_pack
  else
    (s.prediction measurement_pack).update L measurement_pack

/-- A session: the observations are processed in order, one call each. -/
def FusionEKF.run (L : Libm K) (s : FusionEKF K) (ms : List (MeasurementPackage K)) :
    FusionEKF K :=
  ms.foldl (FusionEKF.ProcessMeasurement L) s

/-- A lidar observation. -/
def laser (t : Int) (x y : K) : MeasurementPackage K :=
  { timestamp_ := t, sensor_type_ := SensorType.LASER, raw_measurements_ := [x, y] }

/-- A radar observation. -/
def radar (t : Int) (ro phi ro_dot : K) : MeasurementPackage K :=
  { timestamp_ := t, sensor_type_ := SensorType.RADAR, raw_measurements_ := [ro, phi, ro_dot] }

/-! ## Invariants of a session -/

/-- The fourteen entries of a state-transition matrix that no RUNNING step
writes are those of the identity. -/
def TransitionShape (F : Matrix (Fin 4) (Fin 4) K) : Prop :=
  ∀ i j : Fin 4, ¬ ((i = 0 ∧ j = 2) ∨ (i = 1 ∧ j = 3)) → F i j = (1 : Matrix (Fin 4) (Fin 4) K) i j

/-- The invariant of a session: once RUNNING, the filter's `F_` has the
transition shape; the orchestrator's `F_` always has. -/
def SessionInv (s : FusionEKF K) : Prop :=
  TransitionShape s.F_ ∧ (s.is_initialized_ = true → TransitionShape s.ekf_.F_)

/-- No `float` operation of lines 122–130 rounds at the elapsed time `dt`:
the three powers of `dt` and the three kinds of entry of `Q_` are exactly
representable in binary32 at every intermediate step. -/
def ExactNoise (dt : K) : Prop :=
  toFloat (dt * dt) = dt * dt
  ∧ toFloat (dt * dt * dt) = dt * dt * dt
  ∧ toFloat (dt * dt * dt * dt) = dt * dt * dt * dt
  ∧ toFloat (dt * dt * dt * dt / 4) = dt * dt * dt * dt / 4
  ∧ toFloat (dt * dt * dt * dt / 4 * 9) = dt * dt * dt * dt / 4 * 9
  ∧ toFloat (dt * dt * dt / 2) = dt * dt * dt / 2
  ∧ toFloat (dt * dt * dt / 2 * 9) = dt * dt * dt / 2 * 9
  ∧ toFloat (dt * dt * 9) = dt * dt * 9

/-! ## Rounding -/

section Rounding

lemma roundEven_eq_of_abs_sub_lt (y : K) (n : Int) (h : |y - (n : K)| < 1 / 2) :
    roundEven y = n := by
  rw [abs_lt] at h
  obtain ⟨h1, h2⟩ := h
  unfold roundEven
  by_cases hn : (n : K) ≤ y
  · have hf : Int.floor y = n := by
      rw [Int.floor_eq_iff]
      constructor
      · exact hn
      · linarith
    rw [hf, if_pos h2]
  · push_neg at hn
    have hf : Int.floor y = n - 1 := by
      rw [Int.floor_eq_iff]
      push_cast
      constructor
      · linarith
      · linarith
    rw [hf]
    push_cast
    have h3 : ¬ (y - ((n : K) - 1) < 1 / 2) := by
      push_neg; linarith
    have h4 : (1 : K) / 2 < y - ((n : K) - 1) := by linarith
    rw [if_neg h3, if_pos h4]
    ring

/-- Rounding to nearest does not cross an integer from below. -/
lemma le_roundEven (y : K) (m : Int) (h : (m : K) ≤ y) : m ≤ roundEven y := by
  have hf : m ≤ Int.floor y := Int.le_floor.mpr h
  unfold roundEven
  split_ifs <;> omega

/-- Rounding to nearest does not cross an integer from above. -/
lemma roundEven_le (y : K) (m : Int) (h : y ≤ (m : K)) : roundEven y ≤ m := by
  unfold roundEven
  by_cases hy : y = (Int.floor y : K)
  · have h0 : y - (Int.floor y : K) < 1 / 2 := by
      rw [← hy, sub_self]; norm_num
    rw [if_pos h0]
    have : (Int.floor y : K) ≤ (m : K) := hy ▸ h
    exact_mod_cast this
  · have hlt : (Int.floor y : K) < y := lt_of_le_of_ne (Int.floor_le y) (Ne.symm hy)
    have hfm : Int.floor y < m := by
      have : (Int.floor y : K) < (m : K) := lt_of_lt_of_le hlt h
      exact_mod_cast this
    split_ifs <;> omega

lemma roundBinary_zero (p : Nat) (emin : Int) : roundBinary p emin (0 : K) = 0 := by
  simp [roundBinary]

/-- Rounding keeps the sign of a non-negative number. -/
lemma roundBinary_nonneg (p : Nat) (emin : Int) (x : K) (hx : 0 ≤ x) :
    0 ≤ roundBinary p emin x := by
  unfold roundBinary
  split_ifs with h0
  · exact le_rfl
  · have hu : (0 : K) < (2 : K) ^ (max (Int.log 2 |x|) emin - ((p : Int) - 1)) :=
      zpow_pos (by norm_num) _
    have hq : ((0 : Int) : K) ≤ x / (2 : K) ^ (max (Int.log 2 |x|) emin - ((p : Int) - 1)) := by
      rw [Int.cast_zero]; exact div_nonneg hx hu.le
    have hr : (0 : Int) ≤ roundEven (x / (2 : K) ^ (max (Int.log 2 |x|) emin - ((p : Int) - 1))) :=
      le_roundEven _ 0 hq
    have hr2 : (0 : K)
        ≤ (roundEven (x / (2 : K) ^ (max (Int.log 2 |x|) emin - ((p : Int) - 1))) : K) := by
      exact_mod_cast hr
    exact mul_nonneg hr2 hu.le

/-- Rounding keeps the sign of a non-positive number. -/
lemma roundBinary_nonpos (p : Nat) (emin : Int) (x : K) (hx : x ≤ 0) :
    roundBinary p emin x ≤ 0 := by
  unfold roundBinary
  split_ifs with h0
  · exact le_rfl
  · have hu : (0 : K) < (2 : K) ^ (max (Int.log 2 |x|) emin - ((p : Int) - 1)) :=
      zpow_pos (by norm_num) _
    have hq : x / (2 : K) ^ (max (Int.log 2 |x|) emin - ((p : Int) - 1)) ≤ ((0 : Int) : K) := by
      rw [Int.cast_zero]; exact div_nonpos_of_nonpos_of_nonneg hx hu.le
    have hr : roundEven (x / (2 : K) ^ (max (Int.log 2 |x|) emin - ((p : Int) - 1))) ≤ (0 : Int) :=
      roundEven_le _ 0 hq
    have hr2 : (roundEven (x / (2 : K) ^ (max (Int.log 2 |x|) emin - ((p : Int) - 1))) : K)
        ≤ 0 := by
      exact_mod_cast hr
    exact mul_nonpos_of_nonpos_of_nonneg hr2 hu.le

/-- The binary exponent of a positive number, from its bracketing powers. -/
lemma log_two_eq (r : K) (e : Int) (h1 : (2 : K) ^ e ≤ r) (h2 : r < (2 : K) ^ (e + 1)) :
    Int.log 2 r = e := by
  have hr : 0 < r := lt_of_lt_of_le (zpow_pos (by norm_num) _) h1
  have a : e ≤ Int.log 2 r := by
    rw [← Int.zpow_le_iff_le_log (by norm_num) hr]
    exact_mod_cast h1
  have b : Int.log 2 r < e + 1 := by
    rw [← Int.lt_zpow_iff_log_lt (by norm_num) hr]
    exact_mod_cast h2
  omega

/-- Evaluation of a rounding: `x` lies in the binade of `2 ^ e` and `n` is the
integer within one half of `x` measured in units in the last place. -/
lemma roundBinary_eq (p : Nat) (emin : Int) (x : K) (e n : Int)
    (h1 : (2 : K) ^ e ≤ |x|) (h2 : |x| < (2 : K) ^ (e + 1)) (hmin : emin ≤ e)
    (hn : |x / (2 : K) ^ (e - ((p : Int) - 1)) - (n : K)| < 1 / 2) :
    roundBinary p emin x = (n : K) * (2 : K) ^ (e - ((p : Int) - 1)) := by
  have hx : x ≠ 0 := by
    intro h0
    rw [h0, abs_zero] at h1
    exact absurd h1 (not_le.mpr (zpow_pos (by norm_num) _))
  unfold roundBinary
  rw [if_neg hx]
  simp only []
  rw [log_two_eq |x| e h1 h2, max_eq_left hmin, roundEven_eq_of_abs_sub_lt _ n hn]

/-- Evaluation of the rounding of a positive number. -/
lemma roundBinary_eq_pos (p : Nat) (emin : Int) (x : K) (e n : Int)
    (h1 : (2 : K) ^ e ≤ x) (h2 : x < (2 : K) ^ (e + 1)) (hmin : emin ≤ e)
    (hlo : (n : K) - 1 / 2 < x / (2 : K) ^ (e - ((p : Int) - 1)))
    (hhi : x / (2 : K) ^ (e - ((p : Int) - 1)) < (n : K) + 1 / 2) :
    roundBinary p emin x = (n : K) * (2 : K) ^ (e - ((p : Int) - 1)) := by
  have hx : 0 < x := lt_of_lt_of_le (zpow_pos (by norm_num) _) h1
  apply roundBinary_eq p emin x e n
  · rw [abs_of_pos hx]; exact h1
  · rw [abs_of_pos hx]; exact h2
  · exact hmin
  · rw [abs_lt]; constructor <;> linarith

/-- Evaluation of the rounding of a negative number. -/
lemma roundBinary_eq_neg (p : Nat) (emin : Int) (x : K) (e n : Int)
    (h1 : (2 : K) ^ e ≤ -x) (h2 : -x < (2 : K) ^ (e + 1)) (hmin : emin ≤ e)
    (hlo : (n : K) - 1 / 2 < x / (2 : K) ^ (e - ((p : Int) - 1)))
    (hhi : x / (2 : K) ^ (e - ((p : Int) - 1)) < (n : K) + 1 / 2) :
    roundBinary p emin x = (n : K) * (2 : K) ^ (e - ((p : Int) - 1)) := by
  have hx : x < 0 := by
    have : 0 < -x := lt_of_lt_of_le (zpow_pos (by norm_num) _) h1
    linarith
  apply roundBinary_eq p emin x e n
  · rw [abs_of_neg hx]; exact h1
  · rw [abs_of_neg hx]; exact h2
  · exact hmin
  · rw [abs_lt]; constructor <;> linarith

/-- Rounding does not cross a power of two of the format from below: a number
at most `-2 ^ k` rounds to a number at most `-2 ^ k`. -/
lemma roundBinary_le_neg_zpow (p : Nat) (hp : 1 ≤ p) (emin : Int) (x : K) (k : Int)
    (hk : emin ≤ k) (hx : x ≤ -((2 : K) ^ k)) :
    roundBinary p emin x ≤ -((2 : K) ^ k) := by
  have hk0 : (0 : K) < (2 : K) ^ k := zpow_pos (by norm_num) _
  have hx0 : x < 0 := by linarith
  have habs : |x| = -x := abs_of_neg hx0
  have hpos : 0 < |x| := by rw [habs]; linarith
  have hlogk : k ≤ Int.log 2 |x| := by
    rw [← Int.zpow_le_iff_le_log (by norm_num) hpos, habs]
    have : (2 : K) ^ k ≤ -x := by linarith
    exact_mod_cast this
  have hlog : ((2 : K) ^ (Int.log 2 |x|)) ≤ |x| := by
    have := Int.zpow_log_le_self (R := K) (b := 2) (by norm_num) hpos
    exact_mod_cast this
  unfold roundBinary
  rw [if_neg (ne_of_lt hx0)]
  simp only []
  rw [max_eq_left (le_trans hk hlogk)]
  have hu : (0 : K) < (2 : K) ^ (Int.log 2 |x| - ((p : Int) - 1)) := zpow_pos (by norm_num) _
  have hq : x / (2 : K) ^ (Int.log 2 |x| - ((p : Int) - 1))
      ≤ ((-(2 ^ (p - 1) : Int) : Int) : K) := by
    rw [div_le_iff₀ hu]
    push_cast
    have e1 : (2 : K) ^ (p - 1) * (2 : K) ^ (Int.log 2 |x| - ((p : Int) - 1))
        = (2 : K) ^ (Int.log 2 |x|) := by
      rw [← zpow_natCast, ← zpow_add₀ (by norm_num : (2 : K) ≠ 0)]
      congr 1
      have : ((p - 1 : Nat) : Int) = (p : Int) - 1 := by omega
      rw [this]; ring
    rw [neg_mul, e1]
    have hlog2 : (2 : K) ^ (Int.log 2 |x|) ≤ -x := le_of_le_of_eq hlog habs
    linarith
  have hr := roundEven_le _ _ hq
  have hr2 : (roundEven (x / (2 : K) ^ (Int.log 2 |x| - ((p : Int) - 1))) : K)
      ≤ -((2 : K) ^ (p - 1)) := by
    have : (roundEven (x / (2 : K) ^ (Int.log 2 |x| - ((p : Int) - 1))) : K)
        ≤ ((-(2 ^ (p - 1) : Int) : Int) : K) := by exact_mod_cast hr
    simpa using this
  have e2 : -((2 : K) ^ (p - 1)) * (2 : K) ^ (Int.log 2 |x| - ((p : Int) - 1))
      = -((2 : K) ^ (Int.log 2 |x|)) := by
    rw [neg_mul]
    congr 1
    rw [← zpow_natCast, ← zpow_add₀ (by norm_num : (2 : K) ≠ 0)]
    congr 1
    have : ((p - 1 : Nat) : Int) = (p : Int) - 1 := by omega
    rw [this]; ring
  calc (roundEven (x / (2 : K) ^ (Int.log 2 |x| - ((p : Int) - 1))) : K)
        * (2 : K) ^ (Int.log 2 |x| - ((p : Int) - 1))
      ≤ -((2 : K) ^ (p - 1)) * (2 : K) ^ (Int.log 2 |x| - ((p : Int) - 1)) :=
        mul_le_mul_of_nonneg_right hr2 hu.le
    _ = -((2 : K) ^ (Int.log 2 |x|)) := e2
    _ ≤ -((2 : K) ^ k) := by
        have : (2 : K) ^ k ≤ (2 : K) ^ (Int.log 2 |x|) :=
          zpow_le_zpow_right₀ (by norm_num) hlogk
        linarith

lemma toFloat_zero : toFloat (0 : K) = 0 := roundBinary_zero _ _

lemma toDouble_zero : toDouble (0 : K) = 0 := roundBinary_zero _ _

lemma toFloat_nonneg (x : K) (hx : 0 ≤ x) : 0 ≤ toFloat x := roundBinary_nonneg _ _ x hx

lemma toFloat_nonpos (x : K) (hx : x ≤ 0) : toFloat x ≤ 0 := roundBinary_nonpos _ _ x hx

/-- Evaluation of a binary32 rounding of a positive number. -/
lemma toFloat_eq_pos (x : K) (e n : Int) (h1 : (2 : K) ^ e ≤ x) (h2 : x < (2 : K) ^ (e + 1))
    (hmin : -126 ≤ e) (hlo : (n : K) - 1 / 2 < x / (2 : K) ^ (e - 23))
    (hhi : x / (2 : K) ^ (e - 23) < (n : K) + 1 / 2) :
    toFloat x = (n : K) * (2 : K) ^ (e - 23) :=
  roundBinary_eq_pos 24 (-126) x e n h1 h2 hmin hlo hhi

/-- Evaluation of a binary64 rounding of a positive number. -/
lemma toDouble_eq_pos (x : K) (e n : Int) (h1 : (2 : K) ^ e ≤ x) (h2 : x < (2 : K) ^ (e + 1))
    (hmin : -1022 ≤ e) (hlo : (n : K) - 1 / 2 < x / (2 : K) ^ (e - 52))
    (hhi : x / (2 : K) ^ (e - 52) < (n : K) + 1 / 2) :
    toDouble x = (n : K) * (2 : K) ^ (e - 52) :=
  roundBinary_eq_pos 53 (-1022) x e n h1 h2 hmin hlo hhi

lemma toFloat_one : toFloat (1 : K) = 1 := by
  rw [toFloat_eq_pos 1 0 8388608 (by norm_num) (by norm_num) (by norm_num) (by norm_num)
    (by norm_num)]
  norm_num

lemma toDouble_one : toDouble (1 : K) = 1 := by
  rw [toDouble_eq_pos 1 0 4503599627370496 (by norm_num) (by norm_num) (by norm_num)
    (by norm_num) (by norm_num)]
  norm_num

/-- The double nearest to `1000000` is `1000000`. -/
lemma toDouble_1000000 : toDouble (1000000 : K) = 1000000 := by
  rw [toDouble_eq_pos 1000000 19 8589934592000000 (by norm_num) (by norm_num) (by norm_num)
    (by norm_num) (by norm_num)]
  norm_num

lemma toFloat_five : toFloat (5 : K) = 5 := by
  rw [toFloat_eq_pos 5 2 10485760 (by norm_num) (by norm_num) (by norm_num) (by norm_num)
    (by norm_num)]
  norm_num

lemma toDouble_five : toDouble (5 : K) = 5 := by
  rw [toDouble_eq_pos 5 2 5629499534213120 (by norm_num) (by norm_num) (by norm_num)
    (by norm_num) (by norm_num)]
  norm_num

lemma toFloat_quarter : toFloat ((1 : K) / 4) = 1 / 4 := by
  rw [toFloat_eq_pos (1 / 4) (-2) 8388608 (by norm_num) (by norm_num) (by norm_num)
    (by norm_num) (by norm_num)]
  norm_num

lemma toFloat_nine_quarters : toFloat ((9 : K) / 4) = 9 / 4 := by
  rw [toFloat_eq_pos (9 / 4) 1 9437184 (by norm_num) (by norm_num) (by norm_num)
    (by norm_num) (by norm_num)]
  norm_num

lemma toFloat_half : toFloat ((1 : K) / 2) = 1 / 2 := by
  rw [toFloat_eq_pos (1 / 2) (-1) 8388608 (by norm_num) (by norm_num) (by norm_num)
    (by norm_num) (by norm_num)]
  norm_num

lemma toFloat_nine_halves : toFloat ((9 : K) / 2) = 9 / 2 := by
  rw [toFloat_eq_pos (9 / 2) 2 9437184 (by norm_num) (by norm_num) (by norm_num)
    (by norm_num) (by norm_num)]
  norm_num

lemma toFloat_nine : toFloat (9 : K) = 9 := by
  rw [toFloat_eq_pos 9 3 9437184 (by norm_num) (by norm_num) (by norm_num) (by norm_num)
    (by norm_num)]
  norm_num

/-- Evaluation of a binary32 rounding of a negative number. -/
lemma toFloat_eq_neg (x : K) (e n : Int) (h1 : (2 : K) ^ e ≤ -x) (h2 : -x < (2 : K) ^ (e + 1))
    (hmin : -126 ≤ e) (hlo : (n : K) - 1 / 2 < x / (2 : K) ^ (e - 23))
    (hhi : x / (2 : K) ^ (e - 23) < (n : K) + 1 / 2) :
    toFloat x = (n : K) * (2 : K) ^ (e - 23) :=
  roundBinary_eq_neg 24 (-126) x e n h1 h2 hmin hlo hhi

lemma toFloat_neg_one : toFloat (-1 : K) = -1 := by
  rw [toFloat_eq_neg (-1) 0 (-8388608) (by norm_num) (by norm_num) (by norm_num)
    (by norm_num) (by norm_num)]
  norm_num

lemma toFloat_neg_half : toFloat (-((1 : K) / 2)) = -(1 / 2) := by
  rw [toFloat_eq_neg (-(1 / 2)) (-1) (-8388608) (by norm_num) (by norm_num) (by norm_num)
    (by norm_num) (by norm_num)]
  norm_num

lemma toFloat_neg_nine_halves : toFloat (-((9 : K) / 2)) = -(9 / 2) := by
  rw [toFloat_eq_neg (-(9 / 2)) 2 (-9437184) (by norm_num) (by norm_num) (by norm_num)
    (by norm_num) (by norm_num)]
  norm_num

/-- Evaluation of a binary64 rounding of a negative number. -/
lemma toDouble_eq_neg (x : K) (e n : Int) (h1 : (2 : K) ^ e ≤ -x) (h2 : -x < (2 : K) ^ (e + 1))
    (hmin : -1022 ≤ e) (hlo : (n : K) - 1 / 2 < x / (2 : K) ^ (e - 52))
    (hhi : x / (2 : K) ^ (e - 52) < (n : K) + 1 / 2) :
    toDouble x = (n : K) * (2 : K) ^ (e - 52) :=
  roundBinary_eq_neg 53 (-1022) x e n h1 h2 hmin hlo hhi

/-- A tie between two integers goes to the even one: up from an odd one. -/
lemma roundEven_add_half_of_odd (n : Int) (h : n % 2 = 1) :
    roundEven ((n : K) + 1 / 2) = n + 1 := by
  have hf : Int.floor ((n : K) + 1 / 2) = n := by
    rw [Int.floor_eq_iff]
    constructor
    · linarith
    · linarith
  unfold roundEven
  rw [hf]
  have e : (n : K) + 1 / 2 - (n : K) = 1 / 2 := by ring
  rw [e, if_neg (lt_irrefl _), if_neg (lt_irrefl _), if_neg (by omega)]

/-- Evaluation of a binary32 rounding at a tie above an odd significand. -/
lemma toFloat_eq_tie_odd (x : K) (e n : Int) (h1 : (2 : K) ^ e ≤ x) (h2 : x < (2 : K) ^ (e + 1))
    (hmin : -126 ≤ e) (hx : x / (2 : K) ^ (e - 23) = (n : K) + 1 / 2) (hodd : n % 2 = 1) :
    toFloat x = ((n + 1 : Int) : K) * (2 : K) ^ (e - 23) := by
  have hpos : 0 < x := lt_of_lt_of_le (zpow_pos (by norm_num) _) h1
  unfold toFloat roundBinary
  rw [if_neg (ne_of_gt hpos)]
  simp only []
  rw [abs_of_pos hpos, log_two_eq x e h1 h2, max_eq_left hmin]
  have e24 : e - (((24 : Nat) : Int) - 1) = e - 23 := by norm_num
  rw [e24, hx, roundEven_add_half_of_odd n hodd]

/-- At `dt = 0` no operation of lines 122–130 rounds. -/
lemma exactNoise_zero : ExactNoise (0 : K) := by
  unfold ExactNoise
  norm_num [toFloat_zero]

/-- At `dt = 1` no operation of lines 122–130 rounds. -/
lemma exactNoise_one : ExactNoise (1 : K) := by
  unfold ExactNoise
  norm_num [toFloat_one, toFloat_quarter, toFloat_nine_quarters, toFloat_half,
    toFloat_nine_halves, toFloat_nine]

/-- At `dt = -1` no operation of lines 122–130 rounds. -/
lemma exactNoise_neg_one : ExactNoise (-1 : K) := by
  unfold ExactNoise
  norm_num [toFloat_one, toFloat_quarter, toFloat_nine_quarters, toFloat_neg_one,
    toFloat_neg_half, toFloat_neg_nine_halves, toFloat_nine]

/-- At `dt = 1/8` no operation of lines 122–130 rounds. -/
lemma exactNoise_eighth : ExactNoise ((1 : K) / 8) := by
  have h2 : toFloat ((1 : K) / 64) = 1 / 64 := by
    rw [toFloat_eq_pos (1 / 64) (-6) 8388608
      (by norm_num) (by norm_num) (by norm_num)
      (by norm_num) (by norm_num)]
    norm_num
  have h3 : toFloat ((1 : K) / 512) = 1 / 512 := by
    rw [toFloat_eq_pos (1 / 512) (-9) 8388608
      (by norm_num) (by norm_num) (by norm_num)
      (by norm_num) (by norm_num)]
    norm_num
  have h4 : toFloat ((1 : K) / 4096) = 1 / 4096 := by
    rw [toFloat_eq_pos (1 / 4096) (-12) 8388608
      (by norm_num) (by norm_num) (by norm_num)
      (by norm_num) (by norm_num)]
    norm_num
  have h5 : toFloat ((1 : K) / 16384) = 1 / 16384 := by
    rw [toFloat_eq_pos (1 / 16384) (-14) 8388608
      (by norm_num) (by norm_num) (by norm_num)
      (by norm_num) (by norm_num)]
    norm_num
  have h6 : toFloat ((9 : K) / 16384) = 9 / 16384 := by
    rw [toFloat_eq_pos (9 / 16384) (-11) 9437184
      (by norm_num) (by norm_num) (by norm_num)
      (by norm_num) (by norm_num)]
    norm_num
  have h7 : toFloat ((1 : K) / 1024) = 1 / 1024 := by
    rw [toFloat_eq_pos (1 / 1024) (-10) 8388608
      (by norm_num) (by norm_num) (by norm_num)
      (by norm_num) (by norm_num)]
    norm_num
  have h8 : toFloat ((9 : K) / 1024) = 9 / 1024 := by
    rw [toFloat_eq_pos (9 / 1024) (-7) 9437184
      (by norm_num) (by norm_num) (by norm_num)
      (by norm_num) (by norm_num)]
    norm_num
  have h9 : toFloat ((9 : K) / 64) = 9 / 64 := by
    rw [toFloat_eq_pos (9 / 64) (-3) 9437184
      (by norm_num) (by norm_num) (by norm_num)
      (by norm_num) (by norm_num)]
    norm_num
  unfold ExactNoise
  have e2 : (1 : K) / 8 * (1 / 8) = 1 / 64 := by norm_num
  have e3 : (1 : K) / 64 * (1 / 8) = 1 / 512 := by norm_num
  have e4 : (1 : K) / 512 * (1 / 8) = 1 / 4096 := by norm_num
  have e5 : (1 : K) / 4096 / 4 = 1 / 16384 := by norm_num
  have e6 : (1 : K) / 16384 * 9 = 9 / 16384 := by norm_num
  have e7 : (1 : K) / 512 / 2 = 1 / 1024 := by norm_num
  have e8 : (1 : K) / 1024 * 9 = 9 / 1024 := by norm_num
  have e9 : (1 : K) / 64 * 9 = 9 / 64 := by norm_num
  rw [e2, e3, e4, e5, e6, e7, e8, e9]
  exact ⟨h2, h3, h4, h5, h6, h7, h8, h9⟩

end Rounding

/-! ## Basic facts about the embedding -/

section Basic

variable (L : Libm K) (s : FusionEKF K) (mp : MeasurementPackage K)

lemma new_not_initialized (ekf0 : KalmanFilter K) (tools0 : Tools K)
    (Hj0 : Matrix (Fin 3) (Fin 4) K) :
    (FusionEKF.new ekf0 tools0 Hj0).is_initialized_ = false := rfl

lemma processMeasurement_of_not_initialized (h : s.is_initialized_ = false) :
    s.ProcessMeasurement L mp = s.initialization L mp := by
  simp [FusionEKF.ProcessMeasurement, h]

lemma processMeasurement_of_initialized (h : s.is_initialized_ = true) :
    s.ProcessMeasurement L mp = (s.prediction mp).update L mp := by
  simp [FusionEKF.ProcessMeasurement, h]

lemma processMeasurement_new (ekf0 : KalmanFilter K) (tools0 : Tools K)
    (Hj0 : Matrix (Fin 3) (Fin 4) K) :
    (FusionEKF.new ekf0 tools0 Hj0).ProcessMeasurement L mp
      = (FusionEKF.new ekf0 tools0 Hj0).initialization L mp :=
  processMeasurement_of_not_initialized L _ mp rfl

end Basic

/-! ## Initialization from the first observation -/

/-- C1: a first LASER observation with raw values `(x, y)`, processed by a
freshly constructed filter, leaves the state vector equal to `(x, y, 0, 0)`;
in particular `(5.0, 3.0)` gives `(5.0, 3.0, 0.0, 0.0)`. -/
theorem C1_laser_first_observation_state (L : Libm K) (ekf0 : KalmanFilter K)
    (tools0 : Tools K) (Hj0 : Matrix (Fin 3) (Fin 4) K) (t : Int) (x y : K) :
    ((FusionEKF.new ekf0 tools0 Hj0).ProcessMeasurement L (laser t x y)).ekf_.x_ = ![x, y, 0, 0]
    ∧ ((FusionEKF.new ekf0 tools0 Hj0).ProcessMeasurement L (laser t 5.0 3.0)).ekf_.x_
        = ![5.0, 3.0, 0.0, 0.0] := by
  constructor <;>
    norm_num [processMeasurement_new, FusionEKF.initialization, laser, KalmanFilter.Init, coeff]

/-- The reduction `fmod(φ, y)` leaves a `φ` of magnitude below `y` unchanged. -/
lemma fmod_of_abs_lt (phi y : K) (h : |phi| < y) : fmod phi y = phi := by
  have hy : 0 < y := lt_of_le_of_lt (abs_nonneg phi) h
  have hq : |phi / y| < 1 := by
    rw [abs_div, abs_of_pos hy, div_lt_one hy]; exact h
  rw [abs_lt] at hq
  have ht : trunc (phi / y) = 0 := by
    unfold trunc
    split_ifs with h0
    · rw [Int.floor_eq_iff]
      constructor
      · simpa using h0
      · simpa using hq.2
    · rw [Int.ceil_eq_iff]
      push_neg at h0
      constructor
      · simpa using hq.1
      · simpa using h0.le
  unfold fmod
  rw [ht]; simp

/-- The reduction of the bearing `0`. -/
lemma fmod_zero (y : K) : fmod 0 y = 0 := by
  simp [fmod, trunc]

/-- C2 (amended): a first RADAR observation `(range, bearing, range-rate)`
processed by a freshly constructed filter leaves the state equal to
`(px, py, 0, 0)`, where `px` and `py` are `r·cos(φ)` and `r·sin(φ)` rounded to
`float`, `r` being the range rounded to `float` and `φ` the `float` nearest to
`fmod(bearing, 2·M_PI)`; for a bearing of magnitude below `2·M_PI` the
reduction leaves the bearing as it is; the range-rate does not influence the
state; with `cos 0 = 1` and `sin 0 = 0`, `(5.0, 0.0, 0.0)` gives
`(5.0, 0.0, 0.0, 0.0)`. -/
theorem C2_radar_first_observation_state (L : Libm K) (ekf0 : KalmanFilter K)
    (tools0 : Tools K) (Hj0 : Matrix (Fin 3) (Fin 4) K) (t : Int) (ro phi ro_dot : K) :
    ((FusionEKF.new ekf0 tools0 Hj0).ProcessMeasurement L (radar t ro phi ro_dot)).ekf_.x_
      = ![toFloat (toDouble (toFloat ro * L.cos (toFloat (fmod phi (2 * L.M_PI))))),
          toFloat (toDouble (toFloat ro * L.sin (toFloat (fmod phi (2 * L.M_PI))))), 0, 0]
    ∧ (|phi| < 2 * L.M_PI →
        ((FusionEKF.new ekf0 tools0 Hj0).ProcessMeasurement L (radar t ro phi ro_dot)).ekf_.x_
          = ![toFloat (toDouble (toFloat ro * L.cos (toFloat phi))),
              toFloat (toDouble (toFloat ro * L.sin (toFloat phi))), 0, 0])
    ∧ (∀ ro_dot2 : K,
        ((FusionEKF.new ekf0 tools0 Hj0).ProcessMeasurement L (radar t ro phi ro_dot2)).ekf_.x_
        = ((FusionEKF.new ekf0 tools0 Hj0).ProcessMeasurement L (radar t ro phi ro_dot)).ekf_.x_)
    ∧ (L.cos 0 = 1 → L.sin 0 = 0 →
        ((FusionEKF.new ekf0 tools0 Hj0).ProcessMeasurement L (radar t 5.0 0.0 0.0)).ekf_.x_
          = ![5.0, 0.0, 0.0, 0.0]) := by
  have key : ∀ r p d : K,
      ((FusionEKF.new ekf0 tools0 Hj0).ProcessMeasurement L (radar t r p d)).ekf_.x_
      = ![toFloat (toDouble (toFloat r * L.cos (toFloat (fmod p (2 * L.M_PI))))),
          toFloat (toDouble (toFloat r * L.sin (toFloat (fmod p (2 * L.M_PI))))), 0, 0] := by
    intro r p d
    norm_num [processMeasurement_new, FusionEKF.initialization, radar, KalmanFilter.Init, coeff]
  refine ⟨key _ _ _, ?_, ?_, ?_⟩
  · intro hphi
    rw [key, fmod_of_abs_lt phi _ hphi]
  · intro d2; rw [key, key]
  · intro hcos hsin
    rw [key]
    have h0 : (0.0 : K) = 0 := by norm_num
    have h5 : (5.0 : K) = 5 := by norm_num
    rw [h0, h5, fmod_zero, toFloat_zero, hcos, hsin, toFloat_five, mul_one, mul_zero,
      toDouble_five, toDouble_zero, toFloat_five, toFloat_zero]

/-- The reduction of a bearing of exactly one period. -/
lemma fmod_self (y : K) (hy : y ≠ 0) : fmod y y = 0 := by
  simp [fmod, trunc, div_self hy]

/-- The sine of a non-zero rational number is not zero. -/
lemma sin_ratCast_ne_zero (r : ℚ) (hr : r ≠ 0) : Real.sin (r : ℝ) ≠ 0 := by
  intro h
  obtain ⟨n, hn⟩ := Real.sin_eq_zero_iff.mp h
  have hn0 : n ≠ 0 := by
    rintro rfl
    have : (r : ℝ) = 0 := by rw [← hn]; simp
    exact hr (by exact_mod_cast this)
  exact (irrational_pi.int_mul hn0).ne_rat r hn

/-- C2 as stated fails. For the range `0.1` (the `double` nearest to one tenth,
`3602879701896397 / 2^55`), bearing `0` and range-rate `0`, the filter's first
state component is the `float` `13421773 / 2^27 = 0.100000001490116…`, which is
not `range·cos(bearing)`. For the range `5` and the bearing `2·M_PI` (the
`double` constant), the reduction gives the angle `0` and the state
`(5, 0, 0, 0)`, although `range·sin(bearing)` is not `0`. -/
theorem C2_radar_first_observation_counterexample :
    ((FusionEKF.new (⟨0, 0, 0, 0, 0, 0, 0⟩ : KalmanFilter ℝ) ⟨1 / 10000, 0⟩ 0).ProcessMeasurement
        ⟨884279719003555 / 281474976710656, Real.cos, Real.sin, Real.sqrt,
          fun y x => (Complex.mk x y).arg⟩
        (radar 0 (3602879701896397 / 36028797018963968) 0 0)).ekf_.x_
      = ![13421773 / 134217728, 0, 0, 0]
    ∧ ((FusionEKF.new (⟨0, 0, 0, 0, 0, 0, 0⟩ : KalmanFilter ℝ) ⟨1 / 10000, 0⟩ 0).ProcessMeasurement
        ⟨884279719003555 / 281474976710656, Real.cos, Real.sin, Real.sqrt,
          fun y x => (Complex.mk x y).arg⟩
        (radar 0 (3602879701896397 / 36028797018963968) 0 0)).ekf_.x_
      ≠ ![3602879701896397 / 36028797018963968 * Real.cos 0,
          3602879701896397 / 36028797018963968 * Real.sin 0, 0, 0]
    ∧ ((FusionEKF.new (⟨0, 0, 0, 0, 0, 0, 0⟩ : KalmanFilter ℝ) ⟨1 / 10000, 0⟩ 0).ProcessMeasurement
        ⟨884279719003555 / 281474976710656, Real.cos, Real.sin, Real.sqrt,
          fun y x => (Complex.mk x y).arg⟩
        (radar 0 5 (2 * (884279719003555 / 281474976710656)) 0)).ekf_.x_
      = ![5, 0, 0, 0]
    ∧ ((FusionEKF.new (⟨0, 0, 0, 0, 0, 0, 0⟩ : KalmanFilter ℝ) ⟨1 / 10000, 0⟩ 0).ProcessMeasurement
        ⟨884279719003555 / 281474976710656, Real.cos, Real.sin, Real.sqrt,
          fun y x => (Complex.mk x y).arg⟩
        (radar 0 5 (2 * (884279719003555 / 281474976710656)) 0)).ekf_.x_
      ≠ ![5 * Real.cos (2 * (884279719003555 / 281474976710656)),
          5 * Real.sin (2 * (884279719003555 / 281474976710656)), 0, 0] := by
  have hx : ((FusionEKF.new (⟨0, 0, 0, 0, 0, 0, 0⟩ : KalmanFilter ℝ) ⟨1 / 10000, 0⟩ 0).ProcessMeasurement
        ⟨884279719003555 / 281474976710656, Real.cos, Real.sin, Real.sqrt,
          fun y x => (Complex.mk x y).arg⟩
        (radar 0 (3602879701896397 / 36028797018963968) 0 0)).ekf_.x_
      = ![13421773 / 134217728, 0, 0, 0] := by
    have hro : toFloat ((3602879701896397 : ℝ) / 36028797018963968) = 13421773 / 134217728 := by
      rw [toFloat_eq_pos (3602879701896397 / 36028797018963968) (-4) 13421773 (by norm_num)
        (by norm_num) (by norm_num) (by norm_num) (by norm_num)]
      norm_num
    have hd : toDouble ((13421773 : ℝ) / 134217728) = 13421773 / 134217728 := by
      rw [toDouble_eq_pos (13421773 / 134217728) (-4) 7205759511166976 (by norm_num)
        (by norm_num) (by norm_num) (by norm_num) (by norm_num)]
      norm_num
    have hf : toFloat ((13421773 : ℝ) / 134217728) = 13421773 / 134217728 := by
      rw [toFloat_eq_pos (13421773 / 134217728) (-4) 13421773 (by norm_num)
        (by norm_num) (by norm_num) (by norm_num) (by norm_num)]
      norm_num
    rw [processMeasurement_new]
    simp only [FusionEKF.initialization, radar, KalmanFilter.Init, coeff, List.getD_cons_zero,
      List.getD_cons_succ, fmod_zero, toFloat_zero, hro, Real.cos_zero, Real.sin_zero, mul_one,
      mul_zero, hd, hf, toDouble_zero]
    norm_num
  have hy : ((FusionEKF.new (⟨0, 0, 0, 0, 0, 0, 0⟩ : KalmanFilter ℝ) ⟨1 / 10000, 0⟩ 0).ProcessMeasurement
        ⟨884279719003555 / 281474976710656, Real.cos, Real.sin, Real.sqrt,
          fun y x => (Complex.mk x y).arg⟩
        (radar 0 5 (2 * (884279719003555 / 281474976710656)) 0)).ekf_.x_
      = ![5, 0, 0, 0] := by
    rw [processMeasurement_new]
    simp only [FusionEKF.initialization, radar, KalmanFilter.Init, coeff, List.getD_cons_zero,
      List.getD_cons_succ, fmod_self _ (by norm_num : (2 : ℝ) * (884279719003555 / 281474976710656) ≠ 0),
      toFloat_zero, toFloat_five, Real.cos_zero, Real.sin_zero, mul_one,
      mul_zero, toDouble_five, toDouble_zero]
    norm_num
  refine ⟨hx, ?_, hy, ?_⟩
  · rw [hx]
    intro h
    have h0 := congrFun h 0
    simp only [Matrix.cons_val_zero, Real.cos_zero, mul_one] at h0
    norm_num at h0
  · rw [hy]
    intro h
    have h1 := congrFun h 1
    simp only [Matrix.cons_val_one, Matrix.head_cons] at h1
    have hs := sin_ratCast_ne_zero (2 * (884279719003555 / 281474976710656)) (by norm_num)
    have e : (((2 * (884279719003555 / 281474976710656) : ℚ)) : ℝ)
        = 2 * (884279719003555 / 281474976710656) := by push_cast; ring
    rw [e] at hs
    rcases mul_eq_zero.mp h1.symm with h5 | h5
    · norm_num at h5
    · exact hs h5

/-- The 4×4 identity, entry by entry. -/
lemma one_fin_four :
    (1 : Matrix (Fin 4) (Fin 4) K) = !![1, 0, 0, 0; 0, 1, 0, 0; 0, 0, 1, 0; 0, 0, 0, 1] := by
  ext i j; fin_cases i <;> fin_cases j <;> rfl

/-- The constructor's state covariance is the identity. -/
lemma new_P (ekf0 : KalmanFilter K) (tools0 : Tools K) (Hj0 : Matrix (Fin 3) (Fin 4) K) :
    (FusionEKF.new ekf0 tools0 Hj0).P_ = 1 := by
  rw [one_fin_four]
  ext i j; fin_cases i <;> fin_cases j <;> norm_num [FusionEKF.new]

/-- The constructor's process covariance is zero. -/
lemma new_Q (ekf0 : KalmanFilter K) (tools0 : Tools K) (Hj0 : Matrix (Fin 3) (Fin 4) K) :
    (FusionEKF.new ekf0 tools0 Hj0).Q_ = 0 := by
  ext i j; fin_cases i <;> fin_cases j <;> norm_num [FusionEKF.new]

/-- The constructor's state-transition matrix. -/
lemma new_F (ekf0 : KalmanFilter K) (tools0 : Tools K) (Hj0 : Matrix (Fin 3) (Fin 4) K) :
    (FusionEKF.new ekf0 tools0 Hj0).F_ = !![1, 0, 1, 0; 0, 1, 0, 1; 0, 0, 1, 0; 0, 0, 0, 1] := by
  ext i j; fin_cases i <;> fin_cases j <;> norm_num [FusionEKF.new]

/-- The initialization section hands the orchestrator's `P_`, `F_`, `Q_` to
the filter, sets both velocities to zero and records the timestamp. -/
lemma initialization_fields (L : Libm K) (s : FusionEKF K) (mp : MeasurementPackage K) :
    (s.initialization L mp).ekf_.x_ 2 = 0 ∧ (s.initialization L mp).ekf_.x_ 3 = 0
    ∧ (s.initialization L mp).ekf_.P_ = s.P_ ∧ (s.initialization L mp).ekf_.F_ = s.F_
    ∧ (s.initialization L mp).ekf_.Q_ = s.Q_
    ∧ (s.initialization L mp).previous_timestamp_ = mp.timestamp_
    ∧ (s.initialization L mp).is_initialized_ = true := by
  unfold FusionEKF.initialization
  cases mp.sensor_type_ <;> norm_num [KalmanFilter.Init]

/-- C3: for every first observation (LASER or RADAR, any raw values), after
`ProcessMeasurement` returns on a freshly constructed filter the two velocity
components of the state are exactly 0, and the filter holds the fixed initial
covariance (the 4×4 identity: no prediction or update was applied), the
constructor's state-transition matrix and a zero process-noise matrix. -/
theorem C3_first_observation_velocity_and_covariance (L : Libm K) (ekf0 : KalmanFilter K)
    (tools0 : Tools K) (Hj0 : Matrix (Fin 3) (Fin 4) K) (mp : MeasurementPackage K) :
    ((FusionEKF.new ekf0 tools0 Hj0).ProcessMeasurement L mp).ekf_.x_ 2 = 0
    ∧ ((FusionEKF.new ekf0 tools0 Hj0).ProcessMeasurement L mp).ekf_.x_ 3 = 0
    ∧ ((FusionEKF.new ekf0 tools0 Hj0).ProcessMeasurement L mp).ekf_.P_ = 1
    ∧ ((FusionEKF.new ekf0 tools0 Hj0).ProcessMeasurement L mp).ekf_.F_
        = !![1, 0, 1, 0; 0, 1, 0, 1; 0, 0, 1, 0; 0, 0, 0, 1]
    ∧ ((FusionEKF.new ekf0 tools0 Hj0).ProcessMeasurement L mp).ekf_.Q_ = 0 := by
  rw [processMeasurement_new]
  obtain ⟨h2, h3, hP, hF, hQ, -, -⟩ :=
    initialization_fields L (FusionEKF.new ekf0 tools0 Hj0) mp
  exact ⟨h2, h3, by rw [hP, new_P], by rw [hF, new_F], by rw [hQ, new_Q]⟩

/-! ## Frame lemmas of the RUNNING step -/

section Frame

variable (L : Libm K) (s : FusionEKF K) (mp : MeasurementPackage K)

lemma update_F : (s.update L mp).ekf_.F_ = s.ekf_.F_ := by
  unfold FusionEKF.update; split <;> rfl

lemma update_Q : (s.update L mp).ekf_.Q_ = s.ekf_.Q_ := by
  unfold FusionEKF.update; split <;> rfl

lemma update_previous_timestamp :
    (s.update L mp).previous_timestamp_ = s.previous_timestamp_ := by
  unfold FusionEKF.update; split <;> rfl

lemma update_is_initialized : (s.update L mp).is_initialized_ = s.is_initialized_ := by
  unfold FusionEKF.update; split <;> rfl

lemma prediction_F : (s.prediction mp).ekf_.F_ = (s.beforePredict mp).ekf_.F_ := rfl

lemma prediction_Q : (s.prediction mp).ekf_.Q_ = (s.beforePredict mp).ekf_.Q_ := rfl

lemma prediction_previous_timestamp :
    (s.prediction mp).previous_timestamp_ = mp.timestamp_ := rfl

lemma prediction_is_initialized : (s.prediction mp).is_initialized_ = s.is_initialized_ := rfl

/-- Every call records the observation's timestamp. -/
lemma processMeasurement_previous_timestamp :
    (s.ProcessMeasurement L mp).previous_timestamp_ = mp.timestamp_ := by
  cases h : s.is_initialized_
  · rw [processMeasurement_of_not_initialized L s mp h]
    exact (initialization_fields L s mp).2.2.2.2.2.1
  · rw [processMeasurement_of_initialized L s mp h, update_previous_timestamp]
    rfl

/-- Every call leaves the filter RUNNING. -/
lemma processMeasurement_is_initialized :
    (s.ProcessMeasurement L mp).is_initialized_ = true := by
  cases h : s.is_initialized_
  · rw [processMeasurement_of_not_initialized L s mp h]
    exact (initialization_fields L s mp).2.2.2.2.2.2
  · rw [processMeasurement_of_initialized L s mp h, update_is_initialized]
    exact h

/-- The two entries of `F_` that the RUNNING step overwrites. -/
lemma beforePredict_F_apply (i j : Fin 4) :
    (s.beforePredict mp).ekf_.F_ i j
      = if (i = 0 ∧ j = 2) ∨ (i = 1 ∧ j = 3) then s.elapsed mp else s.ekf_.F_ i j := by
  fin_cases i <;> fin_cases j <;> simp [FusionEKF.beforePredict, setCoeff]

/-- The process noise that the RUNNING step recomputes: the binary32
evaluation of lines 122–130 at the step's `dt`. -/
lemma beforePredict_Q :
    (s.beforePredict mp).ekf_.Q_
      = !![toFloat (toFloat (toFloat (toFloat (toFloat (s.elapsed mp * s.elapsed mp)
              * s.elapsed mp) * s.elapsed mp) / 4) * 9), 0,
           toFloat (toFloat (toFloat (toFloat (s.elapsed mp * s.elapsed mp)
              * s.elapsed mp) / 2) * 9), 0;
           0, toFloat (toFloat (toFloat (toFloat (toFloat (s.elapsed mp * s.elapsed mp)
              * s.elapsed mp) * s.elapsed mp) / 4) * 9), 0,
           toFloat (toFloat (toFloat (toFloat (s.elapsed mp * s.elapsed mp)
              * s.elapsed mp) / 2) * 9);
           toFloat (toFloat (toFloat (toFloat (s.elapsed mp * s.elapsed mp)
              * s.elapsed mp) / 2) * 9), 0,
           toFloat (toFloat (s.elapsed mp * s.elapsed mp) * 9), 0;
           0, toFloat (toFloat (toFloat (toFloat (s.elapsed mp * s.elapsed mp)
              * s.elapsed mp) / 2) * 9), 0,
           toFloat (toFloat (s.elapsed mp * s.elapsed mp) * 9)] := rfl

/-- Where no operation of lines 122–130 rounds, the process noise is the
constant-acceleration matrix of the step's `dt`. -/
lemma beforePredict_Q_of_exact (h : ExactNoise (s.elapsed mp)) :
    (s.beforePredict mp).ekf_.Q_
      = !![9 * s.elapsed mp ^ 4 / 4, 0, 9 * s.elapsed mp ^ 3 / 2, 0;
           0, 9 * s.elapsed mp ^ 4 / 4, 0, 9 * s.elapsed mp ^ 3 / 2;
           9 * s.elapsed mp ^ 3 / 2, 0, 9 * s.elapsed mp ^ 2, 0;
           0, 9 * s.elapsed mp ^ 3 / 2, 0, 9 * s.elapsed mp ^ 2] := by
  obtain ⟨h2, h3, h4, h5, h6, h7, h8, h9⟩ := h
  rw [beforePredict_Q]
  simp only [h2, h3, h4, h5, h6, h7, h8, h9]
  ext i j
  fin_cases i <;> fin_cases j <;> simp <;> ring

/-- The elapsed time in terms of the two timestamps. -/
lemma elapsed_eq :
    s.elapsed mp
      = toFloat (toDouble
          (toDouble ((mp.timestamp_ - s.previous_timestamp_ : Int) : K) / 1000000)) := by
  norm_num [FusionEKF.elapsed]

/-- One million microseconds are one second, exactly. -/
lemma elapsed_of_sub_eq_1000000 (h : mp.timestamp_ - s.previous_timestamp_ = 1000000) :
    s.elapsed mp = 1 := by
  rw [elapsed_eq, h]
  norm_num [toDouble_1000000, toDouble_one, toFloat_one]

/-- A repeated timestamp gives the elapsed time `0`, exactly. -/
lemma elapsed_of_sub_eq_zero (h : mp.timestamp_ - s.previous_timestamp_ = 0) :
    s.elapsed mp = 0 := by
  rw [elapsed_eq, h]
  norm_num [toDouble_zero, toFloat_zero]

/-- One hundred milliseconds: the `float` nearest to the `double` nearest to
one tenth. -/
lemma elapsed_of_sub_eq_100000 (h : mp.timestamp_ - s.previous_timestamp_ = 100000) :
    s.elapsed mp = 13421773 / 134217728 := by
  have h1 : toDouble (100000 : K) = 100000 := by
    rw [toDouble_eq_pos 100000 16 6871947673600000 (by norm_num) (by norm_num) (by norm_num)
      (by norm_num) (by norm_num)]
    norm_num
  have h2 : toDouble ((1 / 10 : K)) = 3602879701896397 / 36028797018963968 := by
    rw [toDouble_eq_pos (1 / 10) (-4) 7205759403792794 (by norm_num) (by norm_num)
      (by norm_num) (by norm_num) (by norm_num)]
    norm_num
  have h3 : toFloat ((3602879701896397 / 36028797018963968 : K)) = 13421773 / 134217728 := by
    rw [toFloat_eq_pos (3602879701896397 / 36028797018963968) (-4) 13421773 (by norm_num)
      (by norm_num) (by norm_num) (by norm_num) (by norm_num)]
    norm_num
  have e : ((((100000 : Int)) : K)) = 100000 := by norm_num
  have e2 : (100000 : K) / 1000000 = 1 / 10 := by norm_num
  rw [elapsed_eq, h, e, h1, e2, h2, h3]

/-- Fifty milliseconds: the `float` nearest to the `double` nearest to one
twentieth. -/
lemma elapsed_of_sub_eq_50000 (h : mp.timestamp_ - s.previous_timestamp_ = 50000) :
    s.elapsed mp = 13421773 / 268435456 := by
  have h1 : toDouble (50000 : K) = 50000 := by
    rw [toDouble_eq_pos 50000 15 6871947673600000 (by norm_num) (by norm_num) (by norm_num)
      (by norm_num) (by norm_num)]
    norm_num
  have h2 : toDouble ((1 / 20 : K)) = 3602879701896397 / 72057594037927936 := by
    rw [toDouble_eq_pos (1 / 20) (-5) 7205759403792794 (by norm_num) (by norm_num)
      (by norm_num) (by norm_num) (by norm_num)]
    norm_num
  have h3 : toFloat ((3602879701896397 / 72057594037927936 : K)) = 13421773 / 268435456 := by
    rw [toFloat_eq_pos (3602879701896397 / 72057594037927936) (-5) 13421773 (by norm_num)
      (by norm_num) (by norm_num) (by norm_num) (by norm_num)]
    norm_num
  have e : ((((50000 : Int)) : K)) = 50000 := by norm_num
  have e2 : (50000 : K) / 1000000 = 1 / 20 := by norm_num
  rw [elapsed_eq, h, e, h1, e2, h2, h3]

/-- The elapsed time of 33,333 microseconds. -/
lemma elapsed_of_sub_eq_33333 (h : mp.timestamp_ - s.previous_timestamp_ = 33333) :
    s.elapsed mp = 8947759 / 268435456 := by
  have h1 : toDouble (33333 : K) = 33333 := by
    rw [toDouble_eq_pos 33333 15 4581252636082176 (by norm_num) (by norm_num) (by norm_num)
      (by norm_num) (by norm_num)]
    norm_num
  have h2 : toDouble ((33333 / 1000000 : K)) = 600473945516563 / 18014398509481984 := by
    rw [toDouble_eq_pos (33333 / 1000000) (-5) 4803791564132504 (by norm_num) (by norm_num)
      (by norm_num) (by norm_num) (by norm_num)]
    norm_num
  have h3 : toFloat ((600473945516563 / 18014398509481984 : K)) = 8947759 / 268435456 := by
    rw [toFloat_eq_pos (600473945516563 / 18014398509481984) (-5) 8947759 (by norm_num)
      (by norm_num) (by norm_num) (by norm_num) (by norm_num)]
    norm_num
  have e : ((((33333 : Int)) : K)) = 33333 := by norm_num
  have e2 : (33333 : K) / 1000000 = 33333 / 1000000 := by norm_num
  rw [elapsed_eq, h, e, h1, e2, h2, h3]

/-- One eighth of a second is a `float`. -/
lemma elapsed_of_sub_eq_125000 (h : mp.timestamp_ - s.previous_timestamp_ = 125000) :
    s.elapsed mp = 1 / 8 := by
  have h1 : toDouble (125000 : K) = 125000 := by
    rw [toDouble_eq_pos 125000 16 8589934592000000 (by norm_num) (by norm_num) (by norm_num)
      (by norm_num) (by norm_num)]
    norm_num
  have h2 : toDouble ((1 / 8 : K)) = 1 / 8 := by
    rw [toDouble_eq_pos (1 / 8) (-3) 4503599627370496 (by norm_num) (by norm_num)
      (by norm_num) (by norm_num) (by norm_num)]
    norm_num
  have h3 : toFloat ((1 / 8 : K)) = 1 / 8 := by
    rw [toFloat_eq_pos (1 / 8) (-3) 8388608 (by norm_num)
      (by norm_num) (by norm_num) (by norm_num) (by norm_num)]
    norm_num
  have e : ((((125000 : Int)) : K)) = 125000 := by norm_num
  have e2 : (125000 : K) / 1000000 = 1 / 8 := by norm_num
  rw [elapsed_eq, h, e, h1, e2, h2, h3]

/-- One second backwards. -/
lemma elapsed_of_sub_eq_neg_1000000 (h : mp.timestamp_ - s.previous_timestamp_ = -1000000) :
    s.elapsed mp = -1 := by
  have h1 : toDouble (-1000000 : K) = -1000000 := by
    rw [toDouble_eq_neg (-1000000) 19 (-8589934592000000) (by norm_num) (by norm_num) (by norm_num)
      (by norm_num) (by norm_num)]
    norm_num
  have h2 : toDouble ((-1 : K)) = -1 := by
    rw [toDouble_eq_neg (-1) 0 (-4503599627370496) (by norm_num) (by norm_num)
      (by norm_num) (by norm_num) (by norm_num)]
    norm_num
  have h3 : toFloat ((-1 : K)) = -1 := by
    rw [toFloat_eq_neg (-1) 0 (-8388608) (by norm_num)
      (by norm_num) (by norm_num) (by norm_num) (by norm_num)]
    norm_num
  have e : ((((-1000000 : Int)) : K)) = -1000000 := by norm_num
  have e2 : (-1000000 : K) / 1000000 = -1 := by norm_num
  rw [elapsed_eq, h, e, h1, e2, h2, h3]

/-- An earlier timestamp gives a negative elapsed time. -/
lemma elapsed_neg (h : mp.timestamp_ < s.previous_timestamp_) : s.elapsed mp < 0 := by
  have hd : ((mp.timestamp_ - s.previous_timestamp_ : Int) : K) ≤ -((2 : K) ^ (0 : Int)) := by
    have h1 : mp.timestamp_ - s.previous_timestamp_ ≤ -1 := by omega
    have h2 : ((mp.timestamp_ - s.previous_timestamp_ : Int) : K) ≤ ((-1 : Int) : K) :=
      Int.cast_le.mpr h1
    simpa using h2
  have h1 := roundBinary_le_neg_zpow 53 (by norm_num) (-1022)
    ((mp.timestamp_ - s.previous_timestamp_ : Int) : K) 0 (by norm_num) hd
  have hq : toDouble ((mp.timestamp_ - s.previous_timestamp_ : Int) : K) / 1000000
      ≤ -((2 : K) ^ (-20 : Int)) := by
    have h1b : toDouble ((mp.timestamp_ - s.previous_timestamp_ : Int) : K) ≤ -1 := by
      simpa [toDouble] using h1
    rw [div_le_iff₀ (by norm_num)]
    have : -((2 : K) ^ (-20 : Int)) * 1000000 = -(1000000 / 1048576) := by norm_num
    rw [this]
    have : -((1000000 : K) / 1048576) ≥ -1 := by norm_num
    linarith
  have h2 := roundBinary_le_neg_zpow 53 (by norm_num) (-1022) _ (-20) (by norm_num) hq
  have h3 := roundBinary_le_neg_zpow 24 (by norm_num) (-126) _ (-20) (by norm_num) h2
  rw [elapsed_eq]
  have hpos : (0 : K) < (2 : K) ^ (-20 : Int) := zpow_pos (by norm_num) _
  have h4 : toFloat (toDouble
      (toDouble ((mp.timestamp_ - s.previous_timestamp_ : Int) : K) / 1000000))
      ≤ -((2 : K) ^ (-20 : Int)) := h3
  linarith

/-- The process noise at `dt = 0.1f`, evaluated in binary32 as lines 122–130 do. -/
lemma beforePredict_Q_of_elapsed_tenth (h : s.elapsed mp = 13421773 / 134217728) :
    (s.beforePredict mp).ekf_.Q_
      = !![15461883 / 68719476736, 0, 9663677 / 2147483648, 0;
           0, 15461883 / 68719476736, 0, 9663677 / 2147483648;
           9663677 / 2147483648, 0, 3019899 / 33554432, 0;
           0, 9663677 / 2147483648, 0, 3019899 / 33554432] := by
  have h2 : toFloat ((13421773 / 134217728 : K) * (13421773 / 134217728)) = 10737419 / 1073741824 := by
    rw [toFloat_eq_pos ((13421773 / 134217728 : K) * (13421773 / 134217728)) (-7) 10737419
      (by norm_num) (by norm_num) (by norm_num)
      (by norm_num) (by norm_num)]
    norm_num
  have h3 : toFloat ((10737419 / 1073741824 : K) * (13421773 / 134217728)) = 8589935 / 8589934592 := by
    rw [toFloat_eq_pos ((10737419 / 1073741824 : K) * (13421773 / 134217728)) (-10) 8589935
      (by norm_num) (by norm_num) (by norm_num)
      (by norm_num) (by norm_num)]
    norm_num
  have h4 : toFloat ((8589935 / 8589934592 : K) * (13421773 / 134217728)) = 1717987 / 17179869184 := by
    rw [toFloat_eq_pos ((8589935 / 8589934592 : K) * (13421773 / 134217728)) (-14) 13743896
      (by norm_num) (by norm_num) (by norm_num)
      (by norm_num) (by norm_num)]
    norm_num
  have h5 : toFloat ((1717987 / 17179869184 : K) / 4) = 1717987 / 68719476736 := by
    rw [toFloat_eq_pos ((1717987 / 17179869184 : K) / 4) (-16) 13743896
      (by norm_num) (by norm_num) (by norm_num)
      (by norm_num) (by norm_num)]
    norm_num
  have h6 : toFloat ((1717987 / 68719476736 : K) * 9) = 15461883 / 68719476736 := by
    rw [toFloat_eq_pos ((1717987 / 68719476736 : K) * 9) (-13) 15461883
      (by norm_num) (by norm_num) (by norm_num)
      (by norm_num) (by norm_num)]
    norm_num
  have h7 : toFloat ((8589935 / 8589934592 : K) / 2) = 8589935 / 17179869184 := by
    rw [toFloat_eq_pos ((8589935 / 8589934592 : K) / 2) (-11) 8589935
      (by norm_num) (by norm_num) (by norm_num)
      (by norm_num) (by norm_num)]
    norm_num
  have h8 : toFloat ((8589935 / 17179869184 : K) * 9) = 9663677 / 2147483648 := by
    rw [toFloat_eq_pos ((8589935 / 17179869184 : K) * 9) (-8) 9663677
      (by norm_num) (by norm_num) (by norm_num)
      (by norm_num) (by norm_num)]
    norm_num
  have h9 : toFloat ((10737419 / 1073741824 : K) * 9) = 3019899 / 33554432 := by
    rw [toFloat_eq_pos ((10737419 / 1073741824 : K) * 9) (-4) 12079596
      (by norm_num) (by norm_num) (by norm_num)
      (by norm_num) (by norm_num)]
    norm_num
  rw [beforePredict_Q, h]
  simp only [h2, h3, h4, h5, h6, h7, h8, h9]

/-- The process noise at the `dt` of 33,333 microseconds, evaluated in binary32
as lines 122–130 do; the last product of `Q[0][0]` is a tie, rounded to even. -/
lemma beforePredict_Q_of_elapsed_33333 (h : s.elapsed mp = 8947759 / 268435456) :
    (s.beforePredict mp).ekf_.Q_
      = !![3054077 / 1099511627776, 0, 11452903 / 68719476736, 0;
           0, 3054077 / 1099511627776, 0, 11452903 / 68719476736;
           11452903 / 68719476736, 0, 2684301 / 268435456, 0;
           0, 11452903 / 68719476736, 0, 2684301 / 268435456] := by
  have h2 : toFloat ((8947759 / 268435456 : K) * (8947759 / 268435456)) = 9544181 / 8589934592 := by
    rw [toFloat_eq_pos ((8947759 / 268435456 : K) * (8947759 / 268435456)) (-10) 9544181
      (by norm_num) (by norm_num) (by norm_num)
      (by norm_num) (by norm_num)]
    norm_num
  have h3 : toFloat ((9544181 / 8589934592 : K) * (8947759 / 268435456)) = 5090179 / 137438953472 := by
    rw [toFloat_eq_pos ((9544181 / 8589934592 : K) * (8947759 / 268435456)) (-15) 10180358
      (by norm_num) (by norm_num) (by norm_num)
      (by norm_num) (by norm_num)]
    norm_num
  have h4 : toFloat ((5090179 / 137438953472 : K) * (8947759 / 268435456)) = 2714735 / 2199023255552 := by
    rw [toFloat_eq_pos ((5090179 / 137438953472 : K) * (8947759 / 268435456)) (-20) 10858940
      (by norm_num) (by norm_num) (by norm_num)
      (by norm_num) (by norm_num)]
    norm_num
  have h5 : toFloat ((2714735 / 2199023255552 : K) / 4) = 2714735 / 8796093022208 := by
    rw [toFloat_eq_pos ((2714735 / 2199023255552 : K) / 4) (-22) 10858940
      (by norm_num) (by norm_num) (by norm_num)
      (by norm_num) (by norm_num)]
    norm_num
  have h6 : toFloat ((2714735 / 8796093022208 : K) * 9) = 3054077 / 1099511627776 := by
    rw [toFloat_eq_tie_odd ((2714735 / 8796093022208 : K) * 9) (-19) 12216307
      (by norm_num) (by norm_num) (by norm_num)
      (by norm_num) (by norm_num)]
    norm_num
  have h7 : toFloat ((5090179 / 137438953472 : K) / 2) = 5090179 / 274877906944 := by
    rw [toFloat_eq_pos ((5090179 / 137438953472 : K) / 2) (-16) 10180358
      (by norm_num) (by norm_num) (by norm_num)
      (by norm_num) (by norm_num)]
    norm_num
  have h8 : toFloat ((5090179 / 274877906944 : K) * 9) = 11452903 / 68719476736 := by
    rw [toFloat_eq_pos ((5090179 / 274877906944 : K) * 9) (-13) 11452903
      (by norm_num) (by norm_num) (by norm_num)
      (by norm_num) (by norm_num)]
    norm_num
  have h9 : toFloat ((9544181 / 8589934592 : K) * 9) = 2684301 / 268435456 := by
    rw [toFloat_eq_pos ((9544181 / 8589934592 : K) * 9) (-7) 10737204
      (by norm_num) (by norm_num) (by norm_num)
      (by norm_num) (by norm_num)]
    norm_num
  rw [beforePredict_Q, h]
  simp only [h2, h3, h4, h5, h6, h7, h8, h9]

end Frame

/-! ## Elapsed time -/

/-- C4 (amended): after each `ProcessMeasurement` call the stored previous
timestamp is that observation's timestamp (and the filter is RUNNING); at the
call that follows an observation `m0`, the elapsed time `dt` is the `float`
nearest to the `double` quotient `(timestamp − timestamp of m0) / 1,000,000`,
and this `dt` is what the call writes into `F_(0,2)` and `F_(1,3)`; timestamps
0 and 1,000,000 give `dt = 1`; an out-of-order timestamp gives a negative `dt`
and is processed all the same (its timestamp becomes the previous
timestamp). -/
theorem C4_previous_timestamp_and_elapsed_time (L : Libm K) (s : FusionEKF K)
    (m0 mp : MeasurementPackage K) :
    (s.ProcessMeasurement L m0).previous_timestamp_ = m0.timestamp_
    ∧ (s.ProcessMeasurement L m0).is_initialized_ = true
    ∧ (s.ProcessMeasurement L m0).elapsed mp
        = toFloat (toDouble (toDouble ((mp.timestamp_ - m0.timestamp_ : Int) : K) / 1000000))
    ∧ ((s.ProcessMeasurement L m0).ProcessMeasurement L mp).ekf_.F_ 0 2
        = toFloat (toDouble (toDouble ((mp.timestamp_ - m0.timestamp_ : Int) : K) / 1000000))
    ∧ ((s.ProcessMeasurement L m0).ProcessMeasurement L mp).ekf_.F_ 1 3
        = toFloat (toDouble (toDouble ((mp.timestamp_ - m0.timestamp_ : Int) : K) / 1000000))
    ∧ ((s.ProcessMeasurement L m0).ProcessMeasurement L mp).previous_timestamp_ = mp.timestamp_
    ∧ (m0.timestamp_ = 0 → mp.timestamp_ = 1000000 →
        (s.ProcessMeasurement L m0).elapsed mp = 1)
    ∧ (mp.timestamp_ < m0.timestamp_ → (s.ProcessMeasurement L m0).elapsed mp < 0) := by
  have hts := processMeasurement_previous_timestamp L s m0
  have hinit := processMeasurement_is_initialized L s m0
  have hdt : (s.ProcessMeasurement L m0).elapsed mp
      = toFloat (toDouble (toDouble ((mp.timestamp_ - m0.timestamp_ : Int) : K) / 1000000)) := by
    rw [elapsed_eq, hts]
  have hF : ∀ i j : Fin 4, ((s.ProcessMeasurement L m0).ProcessMeasurement L mp).ekf_.F_ i j
      = ((s.ProcessMeasurement L m0).beforePredict mp).ekf_.F_ i j := by
    intro i j
    rw [processMeasurement_of_initialized L _ mp hinit, update_F, prediction_F]
  refine ⟨hts, hinit, hdt, ?_, ?_, processMeasurement_previous_timestamp L _ mp, ?_, ?_⟩
  · rw [hF, beforePredict_F_apply, hdt]; simp
  · rw [hF, beforePredict_F_apply, hdt]; simp
  · intro h0 h1
    apply elapsed_of_sub_eq_1000000
    rw [hts, h0, h1]; norm_num
  · intro hlt
    apply elapsed_neg
    rw [hts]; exact hlt

/-- C4 as stated fails: after a lidar observation at `t = 0`, the observation
at `t = 50,000` is processed with `dt = 13421773 / 2^28 = 0.0500000007450…`
(the `float` nearest to the quotient), which is written to `F_(0,2)` and is
not `50,000 / 1,000,000`. -/
theorem C4_elapsed_time_counterexample :
    ((FusionEKF.new (⟨0, 0, 0, 0, 0, 0, 0⟩ : KalmanFilter ℝ) ⟨1 / 10000, 0⟩ 0).ProcessMeasurement
        ⟨Real.pi, Real.cos, Real.sin, Real.sqrt, fun y x => (Complex.mk x y).arg⟩
        (laser 0 1 1)).elapsed (laser 50000 1 1) = 13421773 / 268435456
    ∧ (((FusionEKF.new (⟨0, 0, 0, 0, 0, 0, 0⟩ : KalmanFilter ℝ) ⟨1 / 10000, 0⟩ 0).ProcessMeasurement
        ⟨Real.pi, Real.cos, Real.sin, Real.sqrt, fun y x => (Complex.mk x y).arg⟩
        (laser 0 1 1)).ProcessMeasurement
        ⟨Real.pi, Real.cos, Real.sin, Real.sqrt, fun y x => (Complex.mk x y).arg⟩
        (laser 50000 1 1)).ekf_.F_ 0 2 = 13421773 / 268435456
    ∧ ((FusionEKF.new (⟨0, 0, 0, 0, 0, 0, 0⟩ : KalmanFilter ℝ) ⟨1 / 10000, 0⟩ 0).ProcessMeasurement
        ⟨Real.pi, Real.cos, Real.sin, Real.sqrt, fun y x => (Complex.mk x y).arg⟩
        (laser 0 1 1)).elapsed (laser 50000 1 1)
      ≠ (((50000 : Int) - (0 : Int) : Int) : ℝ) / 1000000 := by
  have hdt : ((FusionEKF.new (⟨0, 0, 0, 0, 0, 0, 0⟩ : KalmanFilter ℝ) ⟨1 / 10000, 0⟩ 0).ProcessMeasurement
        ⟨Real.pi, Real.cos, Real.sin, Real.sqrt, fun y x => (Complex.mk x y).arg⟩
        (laser 0 1 1)).elapsed (laser 50000 1 1) = 13421773 / 268435456 :=
    elapsed_of_sub_eq_50000 _ _ (by rw [processMeasurement_previous_timestamp]; norm_num [laser])
  refine ⟨hdt, ?_, ?_⟩
  · rw [processMeasurement_of_initialized _ _ _ (processMeasurement_is_initialized _ _ _),
      update_F, prediction_F, beforePredict_F_apply, if_pos (by decide), hdt]
  · rw [hdt]; norm_num

/-! ## Process noise -/

/-- C5 (amended): on a RUNNING step with elapsed time `dt`, the prediction is
run on a filter whose process-noise covariance is the binary32 evaluation of
the constant-acceleration formulas: with `dt_2`, `dt_3`, `dt_4` the `float`
products of lines 122–124, `Q[0][0] = Q[1][1]` is `dt_4 / 4 * 9`,
`Q[0][2] = Q[2][0] = Q[1][3] = Q[3][1]` is `dt_3 / 2 * 9` and
`Q[2][2] = Q[3][3]` is `dt_2 * 9`, each operation rounded to `float`, and
every entry coupling the x axis with the y axis is 0; the filter still holds
this `Q_` when the call returns; two steps with the same `dt` get the same
matrix, whatever the earlier `Q_`, the sensor type and the raw values; where
no operation rounds (as at `dt = 1`, which gives `9/4`, `9/2` and `9`) the
entries are exactly `9·dt⁴/4`, `9·dt³/2` and `9·dt²`. -/
theorem C5_process_noise_from_elapsed_time (L : Libm K) (s : FusionEKF K)
    (mp : MeasurementPackage K) (h : s.is_initialized_ = true) :
    s.ProcessMeasurement L mp
      = FusionEKF.update L
          { s.beforePredict mp with ekf_ := (s.beforePredict mp).ekf_.Predict } mp
    ∧ (∃ dt_2 dt_3 dt_4 : K,
        dt_2 = toFloat (s.elapsed mp * s.elapsed mp)
        ∧ dt_3 = toFloat (dt_2 * s.elapsed mp)
        ∧ dt_4 = toFloat (dt_3 * s.elapsed mp)
        ∧ (s.beforePredict mp).ekf_.Q_
          = !![toFloat (toFloat (dt_4 / 4) * 9), 0, toFloat (toFloat (dt_3 / 2) * 9), 0;
               0, toFloat (toFloat (dt_4 / 4) * 9), 0, toFloat (toFloat (dt_3 / 2) * 9);
               toFloat (toFloat (dt_3 / 2) * 9), 0, toFloat (dt_2 * 9), 0;
               0, toFloat (toFloat (dt_3 / 2) * 9), 0, toFloat (dt_2 * 9)])
    ∧ (s.ProcessMeasurement L mp).ekf_.Q_ = (s.beforePredict mp).ekf_.Q_
    ∧ (∀ (s2 : FusionEKF K) (mp2 : MeasurementPackage K), s2.elapsed mp2 = s.elapsed mp →
        (s2.beforePredict mp2).ekf_.Q_ = (s.beforePredict mp).ekf_.Q_)
    ∧ (ExactNoise (s.elapsed mp) →
        (s.beforePredict mp).ekf_.Q_
          = !![9 * s.elapsed mp ^ 4 / 4, 0, 9 * s.elapsed mp ^ 3 / 2, 0;
               0, 9 * s.elapsed mp ^ 4 / 4, 0, 9 * s.elapsed mp ^ 3 / 2;
               9 * s.elapsed mp ^ 3 / 2, 0, 9 * s.elapsed mp ^ 2, 0;
               0, 9 * s.elapsed mp ^ 3 / 2, 0, 9 * s.elapsed mp ^ 2])
    ∧ (s.elapsed mp = 1 →
        (s.beforePredict mp).ekf_.Q_
          = !![9 / 4, 0, 9 / 2, 0; 0, 9 / 4, 0, 9 / 2; 9 / 2, 0, 9, 0; 0, 9 / 2, 0, 9]) := by
  refine ⟨processMeasurement_of_initialized L s mp h,
    ⟨_, _, _, rfl, rfl, rfl, beforePredict_Q s mp⟩, ?_, ?_, beforePredict_Q_of_exact s mp, ?_⟩
  · rw [processMeasurement_of_initialized L s mp h, update_Q, prediction_Q]
  · intro s2 mp2 hdt
    rw [beforePredict_Q, beforePredict_Q, hdt]
  · intro h1
    rw [beforePredict_Q_of_exact s mp (h1 ▸ exactNoise_one), h1]
    norm_num

/-- C5 at a concrete input: a lidar observation at `t = 0` initializes the
filter; the lidar observation at `t = 1,000,000` is then a RUNNING step with
`dt = 1`, and the filter leaves it with `Q_` made of `9/4`, `9/2` and `9`. -/
theorem C5_process_noise_from_elapsed_time_witness :
    ((FusionEKF.new (⟨0, 0, 0, 0, 0, 0, 0⟩ : KalmanFilter ℝ) ⟨1 / 10000, 0⟩ 0).ProcessMeasurement
        ⟨Real.pi, Real.cos, Real.sin, Real.sqrt, fun y x => (Complex.mk x y).arg⟩
        (laser 0 1 1)).is_initialized_ = true
    ∧ (((FusionEKF.new (⟨0, 0, 0, 0, 0, 0, 0⟩ : KalmanFilter ℝ) ⟨1 / 10000, 0⟩ 0).ProcessMeasurement
        ⟨Real.pi, Real.cos, Real.sin, Real.sqrt, fun y x => (Complex.mk x y).arg⟩
        (laser 0 1 1)).ProcessMeasurement
        ⟨Real.pi, Real.cos, Real.sin, Real.sqrt, fun y x => (Complex.mk x y).arg⟩
        (laser 1000000 2 1)).ekf_.Q_
      = !![9 / 4, 0, 9 / 2, 0; 0, 9 / 4, 0, 9 / 2; 9 / 2, 0, 9, 0; 0, 9 / 2, 0, 9] := by
  refine ⟨rfl, ?_⟩
  have h := C5_process_noise_from_elapsed_time
    ⟨Real.pi, Real.cos, Real.sin, Real.sqrt, fun y x => (Complex.mk x y).arg⟩
    ((FusionEKF.new (⟨0, 0, 0, 0, 0, 0, 0⟩ : KalmanFilter ℝ) ⟨1 / 10000, 0⟩ 0).ProcessMeasurement
        ⟨Real.pi, Real.cos, Real.sin, Real.sqrt, fun y x => (Complex.mk x y).arg⟩
        (laser 0 1 1))
    (laser 1000000 2 1) rfl
  rw [h.2.2.1]
  apply h.2.2.2.2.2
  apply elapsed_of_sub_eq_1000000
  rw [processMeasurement_previous_timestamp]
  norm_num [laser]

/-- C5 as stated fails: after a lidar observation at `t = 0`, the observation
at `t = 100,000` is processed with the `float` `dt = 13421773 / 2^27` and with
`Q[0][0] = 15461883 / 2^36 = 0.000225000010686…`, `Q[0][2] = 9663677 / 2^31`
and `Q[2][2] = 3019899 / 2^25`; `Q[0][0]` is neither `9·dt⁴/4` for that `dt`
nor `9·(1/10)⁴/4`. -/
theorem C5_process_noise_counterexample :
    ((FusionEKF.new (⟨0, 0, 0, 0, 0, 0, 0⟩ : KalmanFilter ℝ) ⟨1 / 10000, 0⟩ 0).ProcessMeasurement
        ⟨Real.pi, Real.cos, Real.sin, Real.sqrt, fun y x => (Complex.mk x y).arg⟩
        (laser 0 1 1)).elapsed (laser 100000 1 1) = 13421773 / 134217728
    ∧ (((FusionEKF.new (⟨0, 0, 0, 0, 0, 0, 0⟩ : KalmanFilter ℝ) ⟨1 / 10000, 0⟩ 0).ProcessMeasurement
        ⟨Real.pi, Real.cos, Real.sin, Real.sqrt, fun y x => (Complex.mk x y).arg⟩
        (laser 0 1 1)).ProcessMeasurement
        ⟨Real.pi, Real.cos, Real.sin, Real.sqrt, fun y x => (Complex.mk x y).arg⟩
        (laser 100000 1 1)).ekf_.Q_
      = !![15461883 / 68719476736, 0, 9663677 / 2147483648, 0;
           0, 15461883 / 68719476736, 0, 9663677 / 2147483648;
           9663677 / 2147483648, 0, 3019899 / 33554432, 0;
           0, 9663677 / 2147483648, 0, 3019899 / 33554432]
    ∧ (((FusionEKF.new (⟨0, 0, 0, 0, 0, 0, 0⟩ : KalmanFilter ℝ) ⟨1 / 10000, 0⟩ 0).ProcessMeasurement
        ⟨Real.pi, Real.cos, Real.sin, Real.sqrt, fun y x => (Complex.mk x y).arg⟩
        (laser 0 1 1)).ProcessMeasurement
        ⟨Real.pi, Real.cos, Real.sin, Real.sqrt, fun y x => (Complex.mk x y).arg⟩
        (laser 100000 1 1)).ekf_.Q_ 0 0
      ≠ 9 * (((FusionEKF.new (⟨0, 0, 0, 0, 0, 0, 0⟩ : KalmanFilter ℝ) ⟨1 / 10000, 0⟩ 0).ProcessMeasurement
        ⟨Real.pi, Real.cos, Real.sin, Real.sqrt, fun y x => (Complex.mk x y).arg⟩
        (laser 0 1 1)).elapsed (laser 100000 1 1)) ^ 4 / 4
    ∧ (((FusionEKF.new (⟨0, 0, 0, 0, 0, 0, 0⟩ : KalmanFilter ℝ) ⟨1 / 10000, 0⟩ 0).ProcessMeasurement
        ⟨Real.pi, Real.cos, Real.sin, Real.sqrt, fun y x => (Complex.mk x y).arg⟩
        (laser 0 1 1)).ProcessMeasurement
        ⟨Real.pi, Real.cos, Real.sin, Real.sqrt, fun y x => (Complex.mk x y).arg⟩
        (laser 100000 1 1)).ekf_.Q_ 0 0
      ≠ 9 * (1 / 10) ^ 4 / 4 := by
  have hdt := elapsed_of_sub_eq_100000
    ((FusionEKF.new (⟨0, 0, 0, 0, 0, 0, 0⟩ : KalmanFilter ℝ) ⟨1 / 10000, 0⟩ 0).ProcessMeasurement
        ⟨Real.pi, Real.cos, Real.sin, Real.sqrt, fun y x => (Complex.mk x y).arg⟩
        (laser 0 1 1))
    (laser 100000 1 1) (by rw [processMeasurement_previous_timestamp]; norm_num [laser])
  have hQ := beforePredict_Q_of_elapsed_tenth _ _ hdt
  have hQ2 : (((FusionEKF.new (⟨0, 0, 0, 0, 0, 0, 0⟩ : KalmanFilter ℝ) ⟨1 / 10000, 0⟩ 0).ProcessMeasurement
        ⟨Real.pi, Real.cos, Real.sin, Real.sqrt, fun y x => (Complex.mk x y).arg⟩
        (laser 0 1 1)).ProcessMeasurement
        ⟨Real.pi, Real.cos, Real.sin, Real.sqrt, fun y x => (Complex.mk x y).arg⟩
        (laser 100000 1 1)).ekf_.Q_
      = !![15461883 / 68719476736, 0, 9663677 / 2147483648, 0;
           0, 15461883 / 68719476736, 0, 9663677 / 2147483648;
           9663677 / 2147483648, 0, 3019899 / 33554432, 0;
           0, 9663677 / 2147483648, 0, 3019899 / 33554432] := by
    rw [processMeasurement_of_initialized _ _ _ (processMeasurement_is_initialized _ _ _),
      update_Q, prediction_Q, hQ]
  refine ⟨hdt, hQ2, ?_, ?_⟩
  · rw [hQ2, hdt]; norm_num
  · rw [hQ2]; norm_num

/-! ## State-transition matrix -/

lemma transitionShape_new_F (ekf0 : KalmanFilter K) (tools0 : Tools K)
    (Hj0 : Matrix (Fin 3) (Fin 4) K) : TransitionShape (FusionEKF.new ekf0 tools0 Hj0).F_ := by
  rw [new_F, TransitionShape, one_fin_four]
  intro i j
  fin_cases i <;> fin_cases j <;> simp

/-- A matrix of the transition shape, once its two free entries are `dt`. -/
lemma transitionShape_eq {F : Matrix (Fin 4) (Fin 4) K} (hF : TransitionShape F) (dt : K)
    (h02 : F 0 2 = dt) (h13 : F 1 3 = dt) :
    F = !![1, 0, dt, 0; 0, 1, 0, dt; 0, 0, 1, 0; 0, 0, 0, 1] := by
  have e : ∀ i j : Fin 4, F i j = if (i = 0 ∧ j = 2) ∨ (i = 1 ∧ j = 3) then dt
      else (1 : Matrix (Fin 4) (Fin 4) K) i j := by
    intro i j
    split_ifs with hij
    · rcases hij with ⟨rfl, rfl⟩ | ⟨rfl, rfl⟩
      · exact h02
      · exact h13
    · exact hF i j hij
  ext i j
  rw [e, one_fin_four]
  fin_cases i <;> fin_cases j <;> simp

section Reach

variable (L : Libm K)

/-- What every call establishes or keeps: the orchestrator's own `F_`, `P_`,
`Q_` and per-sensor constants are untouched. -/
lemma processMeasurement_members (s : FusionEKF K) (mp : MeasurementPackage K) :
    (s.ProcessMeasurement L mp).F_ = s.F_ ∧ (s.ProcessMeasurement L mp).P_ = s.P_
    ∧ (s.ProcessMeasurement L mp).Q_ = s.Q_
    ∧ (s.ProcessMeasurement L mp).R_laser_ = s.R_laser_
    ∧ (s.ProcessMeasurement L mp).R_radar_ = s.R_radar_
    ∧ (s.ProcessMeasurement L mp).H_laser_ = s.H_laser_
    ∧ (s.ProcessMeasurement L mp).tools = s.tools := by
  cases h : s.is_initialized_
  · rw [processMeasurement_of_not_initialized L s mp h]
    unfold FusionEKF.initialization
    cases mp.sensor_type_ <;> simp
  · rw [processMeasurement_of_initialized L s mp h]
    unfold FusionEKF.update
    split <;> simp [FusionEKF.prediction, FusionEKF.beforePredict]

/-- A RUNNING step keeps the transition shape of the filter's `F_`. -/
lemma transitionShape_step (s : FusionEKF K) (mp : MeasurementPackage K)
    (h : s.is_initialized_ = true) (hF : TransitionShape s.ekf_.F_) :
    TransitionShape (s.ProcessMeasurement L mp).ekf_.F_ := by
  intro i j hij
  rw [processMeasurement_of_initialized L s mp h, update_F, prediction_F,
    beforePredict_F_apply, if_neg hij]
  exact hF i j hij

lemma sessionInv_new (ekf0 : KalmanFilter K) (tools0 : Tools K)
    (Hj0 : Matrix (Fin 3) (Fin 4) K) : SessionInv (FusionEKF.new ekf0 tools0 Hj0) :=
  ⟨transitionShape_new_F ekf0 tools0 Hj0, fun h => by simp [FusionEKF.new] at h⟩

lemma sessionInv_step (s : FusionEKF K) (mp : MeasurementPackage K) (hs : SessionInv s) :
    SessionInv (s.ProcessMeasurement L mp) := by
  refine ⟨by rw [(processMeasurement_members L s mp).1]; exact hs.1, fun _ => ?_⟩
  cases h : s.is_initialized_
  · rw [processMeasurement_of_not_initialized L s mp h,
      (initialization_fields L s mp).2.2.2.1]
    exact hs.1
  · exact transitionShape_step L s mp h (hs.2 h)

lemma sessionInv_run (ms : List (MeasurementPackage K)) (s : FusionEKF K) (hs : SessionInv s) :
    SessionInv (s.run L ms) := by
  induction ms generalizing s with
  | nil => exact hs
  | cons m ms ih => exact ih _ (sessionInv_step L s m hs)

lemma run_is_initialized (ms : List (MeasurementPackage K)) (s : FusionEKF K)
    (hs : s.is_initialized_ = true) : (s.run L ms).is_initialized_ = true := by
  induction ms generalizing s with
  | nil => exact hs
  | cons m ms ih => exact ih _ (processMeasurement_is_initialized L s m)

/-- After at least one observation a session from a fresh filter is RUNNING
and its filter's `F_` has the transition shape. -/
lemma run_new_cons (ekf0 : KalmanFilter K) (tools0 : Tools K) (Hj0 : Matrix (Fin 3) (Fin 4) K)
    (m0 : MeasurementPackage K) (ms : List (MeasurementPackage K)) :
    ((FusionEKF.new ekf0 tools0 Hj0).run L (m0 :: ms)).is_initialized_ = true
    ∧ TransitionShape ((FusionEKF.new ekf0 tools0 Hj0).run L (m0 :: ms)).ekf_.F_ := by
  have h1 : ((FusionEKF.new ekf0 tools0 Hj0).run L (m0 :: ms)).is_initialized_ = true :=
    run_is_initialized L ms _ (processMeasurement_is_initialized L _ m0)
  exact ⟨h1, (sessionInv_run L (m0 :: ms) _ (sessionInv_new ekf0 tools0 Hj0)).2 h1⟩

end Reach

/-- The matrix that the prediction of a RUNNING step uses, when the filter's
`F_` had the transition shape before the step. -/
lemma beforePredict_F_eq (s : FusionEKF K) (mp : MeasurementPackage K)
    (hF : TransitionShape s.ekf_.F_) :
    (s.beforePredict mp).ekf_.F_
      = !![1, 0, s.elapsed mp, 0; 0, 1, 0, s.elapsed mp; 0, 0, 1, 0; 0, 0, 0, 1] := by
  apply transitionShape_eq
  · intro i j hij
    rw [beforePredict_F_apply, if_neg hij]
    exact hF i j hij
  · rw [beforePredict_F_apply]; simp
  · rw [beforePredict_F_apply]; simp

/-- C6: a RUNNING step changes the filter's state-transition matrix only in
its entries (row 0, col 2) and (row 1, col 3), both set to `dt`; the other 14
entries are as before, in the matrix the prediction uses and in the one the
call leaves behind. Consequently, in every session started on a fresh filter,
the matrix used by the prediction of every RUNNING step is
`[[1,0,dt,0],[0,1,0,dt],[0,0,1,0],[0,0,0,1]]` with that step's `dt`. -/
theorem C6_transition_matrix_frame (L : Libm K) (s : FusionEKF K) (mp : MeasurementPackage K)
    (h : s.is_initialized_ = true)
    (ekf0 : KalmanFilter K) (tools0 : Tools K) (Hj0 : Matrix (Fin 3) (Fin 4) K)
    (m0 : MeasurementPackage K) (ms : List (MeasurementPackage K)) :
    (∀ i j : Fin 4, (s.beforePredict mp).ekf_.F_ i j
        = if (i = 0 ∧ j = 2) ∨ (i = 1 ∧ j = 3) then s.elapsed mp else s.ekf_.F_ i j)
    ∧ (∀ i j : Fin 4, (s.ProcessMeasurement L mp).ekf_.F_ i j
        = if (i = 0 ∧ j = 2) ∨ (i = 1 ∧ j = 3) then s.elapsed mp else s.ekf_.F_ i j)
    ∧ ((FusionEKF.new ekf0 tools0 Hj0).run L (m0 :: ms)).is_initialized_ = true
    ∧ (((FusionEKF.new ekf0 tools0 Hj0).run L (m0 :: ms)).beforePredict mp).ekf_.F_
        = !![1, 0, ((FusionEKF.new ekf0 tools0 Hj0).run L (m0 :: ms)).elapsed mp, 0;
             0, 1, 0, ((FusionEKF.new ekf0 tools0 Hj0).run L (m0 :: ms)).elapsed mp;
             0, 0, 1, 0;
             0, 0, 0, 1] := by
  refine ⟨beforePredict_F_apply s mp, fun i j => ?_, (run_new_cons L ekf0 tools0 Hj0 m0 ms).1,
    beforePredict_F_eq _ mp (run_new_cons L ekf0 tools0 Hj0 m0 ms).2⟩
  rw [processMeasurement_of_initialized L s mp h, update_F, prediction_F, beforePredict_F_apply]

/-- C6 at a concrete input: after a lidar observation at `t = 0` the filter is
RUNNING; the lidar observation at `t = 1,000,000` leaves `F_(0,2) = dt = 1`
and the diagonal entry `F_(0,0) = 1` untouched. -/
theorem C6_transition_matrix_frame_witness :
    ((FusionEKF.new (⟨0, 0, 0, 0, 0, 0, 0⟩ : KalmanFilter ℝ) ⟨1 / 10000, 0⟩ 0).ProcessMeasurement
        ⟨Real.pi, Real.cos, Real.sin, Real.sqrt, fun y x => (Complex.mk x y).arg⟩
        (laser 0 1 1)).is_initialized_ = true
    ∧ (((FusionEKF.new (⟨0, 0, 0, 0, 0, 0, 0⟩ : KalmanFilter ℝ) ⟨1 / 10000, 0⟩ 0).ProcessMeasurement
        ⟨Real.pi, Real.cos, Real.sin, Real.sqrt, fun y x => (Complex.mk x y).arg⟩
        (laser 0 1 1)).ProcessMeasurement
        ⟨Real.pi, Real.cos, Real.sin, Real.sqrt, fun y x => (Complex.mk x y).arg⟩
        (laser 1000000 2 1)).ekf_.F_ 0 2 = 1
    ∧ (((FusionEKF.new (⟨0, 0, 0, 0, 0, 0, 0⟩ : KalmanFilter ℝ) ⟨1 / 10000, 0⟩ 0).ProcessMeasurement
        ⟨Real.pi, Real.cos, Real.sin, Real.sqrt, fun y x => (Complex.mk x y).arg⟩
        (laser 0 1 1)).ProcessMeasurement
        ⟨Real.pi, Real.cos, Real.sin, Real.sqrt, fun y x => (Complex.mk x y).arg⟩
        (laser 1000000 2 1)).ekf_.F_ 0 0 = 1 := by
  have h := C6_transition_matrix_frame
    ⟨Real.pi, Real.cos, Real.sin, Real.sqrt, fun y x => (Complex.mk x y).arg⟩
    ((FusionEKF.new (⟨0, 0, 0, 0, 0, 0, 0⟩ : KalmanFilter ℝ) ⟨1 / 10000, 0⟩ 0).ProcessMeasurement
        ⟨Real.pi, Real.cos, Real.sin, Real.sqrt, fun y x => (Complex.mk x y).arg⟩
        (laser 0 1 1))
    (laser 1000000 2 1) rfl ⟨0, 0, 0, 0, 0, 0, 0⟩ ⟨1 / 10000, 0⟩ 0 (laser 0 1 1) []
  refine ⟨rfl, ?_, ?_⟩
  · rw [h.2.1, if_pos (by decide)]
    apply elapsed_of_sub_eq_1000000
    rw [processMeasurement_previous_timestamp]
    norm_num [laser]
  · rw [h.2.1, if_neg (by decide), processMeasurement_new]
    norm_num [FusionEKF.initialization, laser, KalmanFilter.Init, FusionEKF.new]

/-! ## Prediction of the state -/

/-- The product `F·x` for a transition matrix with time entries `dt`. -/
lemma transition_mulVec (dt : K) (x : Fin 4 → K) :
    (!![1, 0, dt, 0; 0, 1, 0, dt; 0, 0, 1, 0; 0, 0, 0, 1] : Matrix (Fin 4) (Fin 4) K).mulVec x
      = ![x 0 + dt * x 2, x 1 + dt * x 3, x 2, x 3] := by
  ext i
  fin_cases i <;> simp [Matrix.mulVec, Matrix.dotProduct, Fin.sum_univ_four]

/-- The predicted state of a RUNNING step whose filter has an `F_` of the
transition shape. -/
lemma prediction_x (s : FusionEKF K) (mp : MeasurementPackage K)
    (hF : TransitionShape s.ekf_.F_) :
    (s.prediction mp).ekf_.x_
      = ![s.ekf_.x_ 0 + s.elapsed mp * s.ekf_.x_ 2, s.ekf_.x_ 1 + s.elapsed mp * s.ekf_.x_ 3,
          s.ekf_.x_ 2, s.ekf_.x_ 3] := by
  have h : (s.prediction mp).ekf_.x_
      = (s.beforePredict mp).ekf_.F_.mulVec (s.beforePredict mp).ekf_.x_ := rfl
  rw [h, beforePredict_F_eq s mp hF, transition_mulVec]
  rfl

/-- C7: on a RUNNING step with elapsed time `dt` and pre-step state
`(px, py, vx, vy)`, the prediction `x ← F·x` with the orchestrator's `F` yields
`(px + dt·vx, py + dt·vy, vx, vy)`: for every filter whose `F_` has the
transition shape, and so for every RUNNING state of a session started on a
fresh filter. -/
theorem C7_prediction_constant_velocity (L : Libm K) (s : FusionEKF K)
    (mp : MeasurementPackage K) (h : s.is_initialized_ = true)
    (hF : TransitionShape s.ekf_.F_)
    (ekf0 : KalmanFilter K) (tools0 : Tools K) (Hj0 : Matrix (Fin 3) (Fin 4) K)
    (m0 : MeasurementPackage K) (ms : List (MeasurementPackage K)) :
    s.ProcessMeasurement L mp = (s.prediction mp).update L mp
    ∧ (s.prediction mp).ekf_.x_
      = ![s.ekf_.x_ 0 + s.elapsed mp * s.ekf_.x_ 2, s.ekf_.x_ 1 + s.elapsed mp * s.ekf_.x_ 3,
          s.ekf_.x_ 2, s.ekf_.x_ 3]
    ∧ (((FusionEKF.new ekf0 tools0 Hj0).run L (m0 :: ms)).prediction mp).ekf_.x_
      = ![((FusionEKF.new ekf0 tools0 Hj0).run L (m0 :: ms)).ekf_.x_ 0
            + ((FusionEKF.new ekf0 tools0 Hj0).run L (m0 :: ms)).elapsed mp
              * ((FusionEKF.new ekf0 tools0 Hj0).run L (m0 :: ms)).ekf_.x_ 2,
          ((FusionEKF.new ekf0 tools0 Hj0).run L (m0 :: ms)).ekf_.x_ 1
            + ((FusionEKF.new ekf0 tools0 Hj0).run L (m0 :: ms)).elapsed mp
              * ((FusionEKF.new ekf0 tools0 Hj0).run L (m0 :: ms)).ekf_.x_ 3,
          ((FusionEKF.new ekf0 tools0 Hj0).run L (m0 :: ms)).ekf_.x_ 2,
          ((FusionEKF.new ekf0 tools0 Hj0).run L (m0 :: ms)).ekf_.x_ 3] :=
  ⟨processMeasurement_of_initialized L s mp h, prediction_x s mp hF,
    prediction_x _ mp (run_new_cons L ekf0 tools0 Hj0 m0 ms).2⟩

/-- C7 at a concrete input: a RUNNING filter holding the state `(0, 0, 1, 1)`
and the constructor's `F_`, with previous timestamp 0, predicts `(1, 1, 1, 1)`
for an observation at `t = 1,000,000` (`dt = 1`). -/
theorem C7_prediction_constant_velocity_witness :
    ({ FusionEKF.new
          (⟨![0, 0, 1, 1], 1, !![1, 0, 1, 0; 0, 1, 0, 1; 0, 0, 1, 0; 0, 0, 0, 1], 0, 0, 0, 0⟩ :
            KalmanFilter ℚ) ⟨1 / 10000, 0⟩ 0 with is_initialized_ := true }
        : FusionEKF ℚ).is_initialized_ = true
    ∧ TransitionShape (!![1, 0, 1, 0; 0, 1, 0, 1; 0, 0, 1, 0; 0, 0, 0, 1] : Matrix (Fin 4) (Fin 4) ℚ)
    ∧ (({ FusionEKF.new
          (⟨![0, 0, 1, 1], 1, !![1, 0, 1, 0; 0, 1, 0, 1; 0, 0, 1, 0; 0, 0, 0, 1], 0, 0, 0, 0⟩ :
            KalmanFilter ℚ) ⟨1 / 10000, 0⟩ 0 with is_initialized_ := true }
        : FusionEKF ℚ).prediction (laser 1000000 2 1)).ekf_.x_ = ![1, 1, 1, 1] := by
  have hF : TransitionShape
      (!![1, 0, 1, 0; 0, 1, 0, 1; 0, 0, 1, 0; 0, 0, 0, 1] : Matrix (Fin 4) (Fin 4) ℚ) := by
    unfold TransitionShape
    decide
  have h := C7_prediction_constant_velocity
    (⟨0, fun _ => 0, fun _ => 0, fun _ => 0, fun _ _ => 0⟩ : Libm ℚ)
    ({ FusionEKF.new
          (⟨![0, 0, 1, 1], 1, !![1, 0, 1, 0; 0, 1, 0, 1; 0, 0, 1, 0; 0, 0, 0, 1], 0, 0, 0, 0⟩ :
            KalmanFilter ℚ) ⟨1 / 10000, 0⟩ 0 with is_initialized_ := true })
    (laser 1000000 2 1) rfl hF ⟨0, 0, 0, 0, 0, 0, 0⟩ ⟨1 / 10000, 0⟩ 0 (laser 0 1 1) []
  refine ⟨rfl, hF, ?_⟩
  rw [h.2.1]
  have hdt : ({ FusionEKF.new
          (⟨![0, 0, 1, 1], 1, !![1, 0, 1, 0; 0, 1, 0, 1; 0, 0, 1, 0; 0, 0, 0, 1], 0, 0, 0, 0⟩ :
            KalmanFilter ℚ) ⟨1 / 10000, 0⟩ 0 with is_initialized_ := true }
        : FusionEKF ℚ).elapsed (laser 1000000 2 1) = 1 := by
    apply elapsed_of_sub_eq_1000000
    norm_num [FusionEKF.new, laser]
  rw [hdt]
  norm_num [FusionEKF.new]

/-! ## Dispatch of the update -/

/-- Over a whole session the orchestrator's per-sensor constants and its
`tools` stay what they were at the start. -/
lemma run_members (L : Libm K) (ms : List (MeasurementPackage K)) (s : FusionEKF K) :
    (s.run L ms).R_laser_ = s.R_laser_ ∧ (s.run L ms).R_radar_ = s.R_radar_
    ∧ (s.run L ms).H_laser_ = s.H_laser_ ∧ (s.run L ms).tools = s.tools := by
  induction ms generalizing s with
  | nil => exact ⟨rfl, rfl, rfl, rfl⟩
  | cons m ms ih =>
    obtain ⟨-, -, -, h1, h2, h3, h4⟩ := processMeasurement_members L s m
    obtain ⟨i1, i2, i3, i4⟩ := ih (s.ProcessMeasurement L m)
    exact ⟨i1.trans h1, i2.trans h2, i3.trans h3, i4.trans h4⟩

/-- The update section on a RADAR observation. -/
lemma update_radar (L : Libm K) (s : FusionEKF K) (t : Int) (z : List K) :
    (s.update L ⟨t, SensorType.RADAR, z⟩).ekf_
      = KalmanFilter.UpdateEKF L
          { s.ekf_ with m := 3, H_ := s.tools.CalculateJacobian L s.ekf_.x_, R_ := s.R_radar_ } z := by
  simp [FusionEKF.update]

/-- The update section on a LASER observation. -/
lemma update_laser (L : Libm K) (s : FusionEKF K) (t : Int) (z : List K) :
    (s.update L ⟨t, SensorType.LASER, z⟩).ekf_
      = KalmanFilter.Update { s.ekf_ with m := 2, H_ := s.H_laser_, R_ := s.R_laser_ } z := by
  simp [FusionEKF.update]

/-- C8: in a session started on a fresh filter, whatever the first observation
`m0` and the further observations `ms` were, a RUNNING step first runs the
prediction and then picks the measurement model by the current tag alone: on a
RADAR observation the nonlinear update runs with `H_` the Jacobian computed at
the just-predicted state and `R_ = diag(0.09, 0.0009, 0.09)`; on a LASER
observation the linear update runs with `H_ = [[1,0,0,0],[0,1,0,0]]` and
`R_ = diag(0.0225, 0.0225)`. -/
theorem C8_measurement_model_by_sensor_tag (L : Libm K) (ekf0 : KalmanFilter K)
    (tools0 : Tools K) (Hj0 : Matrix (Fin 3) (Fin 4) K)
    (m0 : MeasurementPackage K) (ms : List (MeasurementPackage K)) (t : Int) (z : List K) :
    (((FusionEKF.new ekf0 tools0 Hj0).run L (m0 :: ms)).ProcessMeasurement L
        ⟨t, SensorType.RADAR, z⟩).ekf_
      = KalmanFilter.UpdateEKF L
          { (((FusionEKF.new ekf0 tools0 Hj0).run L (m0 :: ms)).beforePredict
                ⟨t, SensorType.RADAR, z⟩).ekf_.Predict with
            m := 3
            H_ := tools0.CalculateJacobian L
              (((FusionEKF.new ekf0 tools0 Hj0).run L (m0 :: ms)).beforePredict
                ⟨t, SensorType.RADAR, z⟩).ekf_.Predict.x_
            R_ := !![0.09, 0, 0; 0, 0.0009, 0; 0, 0, 0.09] } z
    ∧ (((FusionEKF.new ekf0 tools0 Hj0).run L (m0 :: ms)).ProcessMeasurement L
        ⟨t, SensorType.LASER, z⟩).ekf_
      = KalmanFilter.Update
          { (((FusionEKF.new ekf0 tools0 Hj0).run L (m0 :: ms)).beforePredict
                ⟨t, SensorType.LASER, z⟩).ekf_.Predict with
            m := 2
            H_ := !![1, 0, 0, 0; 0, 1, 0, 0]
            R_ := !![0.0225, 0; 0, 0.0225] } z := by
  obtain ⟨hRl, hRr, hHl, htools⟩ := run_members L (m0 :: ms) (FusionEKF.new ekf0 tools0 Hj0)
  have hinit := (run_new_cons L ekf0 tools0 Hj0 m0 ms).1
  have hH : (FusionEKF.new ekf0 tools0 Hj0).H_laser_ = !![1, 0, 0, 0; 0, 1, 0, 0] := by
    ext i j; fin_cases i <;> fin_cases j <;> norm_num [FusionEKF.new]
  constructor
  · rw [processMeasurement_of_initialized L _ _ hinit, update_radar]
    have e1 : (((FusionEKF.new ekf0 tools0 Hj0).run L (m0 :: ms)).prediction
        ⟨t, SensorType.RADAR, z⟩).tools = tools0 := htools
    have e2 : (((FusionEKF.new ekf0 tools0 Hj0).run L (m0 :: ms)).prediction
        ⟨t, SensorType.RADAR, z⟩).R_radar_ = !![0.09, 0, 0; 0, 0.0009, 0; 0, 0, 0.09] := hRr
    rw [e1, e2]
    rfl
  · rw [processMeasurement_of_initialized L _ _ hinit, update_laser]
    have e1 : (((FusionEKF.new ekf0 tools0 Hj0).run L (m0 :: ms)).prediction
        ⟨t, SensorType.LASER, z⟩).H_laser_ = !![1, 0, 0, 0; 0, 1, 0, 0] := hHl.trans hH
    have e2 : (((FusionEKF.new ekf0 tools0 Hj0).run L (m0 :: ms)).prediction
        ⟨t, SensorType.LASER, z⟩).R_laser_ = !![0.0225, 0; 0, 0.0225] := hRl
    rw [e1, e2]
    rfl

/-! ## End-to-end scenario: two lidar observations one second apart -/

section Scenario
variable (L : Libm K) (ekf0 : KalmanFilter K) (tools0 : Tools K) (Hj0 : Matrix (Fin 3) (Fin 4) K)

/-- The filter after the first observation `LASER t=0 (1, 1)`. -/
lemma scenario_init :
    ((FusionEKF.new ekf0 tools0 Hj0).ProcessMeasurement L (laser 0 1 1)).ekf_
      = ⟨![1, 1, 0, 0], 1, !![1, 0, 1, 0; 0, 1, 0, 1; 0, 0, 1, 0; 0, 0, 0, 1], 0, 2,
          !![1, 0, 0, 0; 0, 1, 0, 0], !![0.0225, 0; 0, 0.0225]⟩ := by
  rw [processMeasurement_new]
  simp only [FusionEKF.initialization, laser, KalmanFilter.Init, coeff]
  rw [new_P, new_F, new_Q]
  norm_num [FusionEKF.new]

/-- The filter after the prediction of the second step (`dt = 1`). -/
lemma scenario_pred :
    (((FusionEKF.new ekf0 tools0 Hj0).ProcessMeasurement L (laser 0 1 1)).prediction
        (laser 1000000 2 1)).ekf_
      = ⟨![1, 1, 0, 0], !![17/4, 0, 11/2, 0; 0, 17/4, 0, 11/2; 11/2, 0, 10, 0; 0, 11/2, 0, 10],
          !![1, 0, 1, 0; 0, 1, 0, 1; 0, 0, 1, 0; 0, 0, 0, 1],
          !![9/4, 0, 9/2, 0; 0, 9/4, 0, 9/2; 9/2, 0, 9, 0; 0, 9/2, 0, 9], 2,
          !![1, 0, 0, 0; 0, 1, 0, 0], !![0.0225, 0; 0, 0.0225]⟩ := by
  have hs := scenario_init L ekf0 tools0 Hj0
  have hdt : ((FusionEKF.new ekf0 tools0 Hj0).ProcessMeasurement L (laser 0 1 1)).elapsed
      (laser 1000000 2 1) = 1 := by
    apply elapsed_of_sub_eq_1000000
    rw [processMeasurement_previous_timestamp]
    norm_num [laser]
  have hF := beforePredict_F_eq
    ((FusionEKF.new ekf0 tools0 Hj0).ProcessMeasurement L (laser 0 1 1)) (laser 1000000 2 1)
    ((sessionInv_step L _ _ (sessionInv_new ekf0 tools0 Hj0)).2
      (processMeasurement_is_initialized L _ _))
  have hQ := beforePredict_Q_of_exact
    ((FusionEKF.new ekf0 tools0 Hj0).ProcessMeasurement L (laser 0 1 1)) (laser 1000000 2 1)
    (by rw [hdt]; exact exactNoise_one)
  rw [hdt] at hF hQ
  have e : ∀ s : FusionEKF K, ∀ mp, (s.prediction mp).ekf_
      = { s.ekf_ with
          x_ := (s.beforePredict mp).ekf_.F_.mulVec s.ekf_.x_
          P_ := (s.beforePredict mp).ekf_.F_ * s.ekf_.P_ * (s.beforePredict mp).ekf_.F_.transpose
                  + (s.beforePredict mp).ekf_.Q_
          F_ := (s.beforePredict mp).ekf_.F_
          Q_ := (s.beforePredict mp).ekf_.Q_ } := fun s mp => rfl
  rw [e, hF, hQ, hs]
  have hx : (!![1, 0, 1, 0; 0, 1, 0, 1; 0, 0, 1, 0; 0, 0, 0, 1] : Matrix (Fin 4) (Fin 4) K).mulVec
      ![1, 1, 0, 0] = ![1, 1, 0, 0] := by
    rw [transition_mulVec]; simp
  have hP : (!![1, 0, 1, 0; 0, 1, 0, 1; 0, 0, 1, 0; 0, 0, 0, 1] : Matrix (Fin 4) (Fin 4) K) * 1
        * (!![1, 0, 1, 0; 0, 1, 0, 1; 0, 0, 1, 0; 0, 0, 0, 1] : Matrix (Fin 4) (Fin 4) K).transpose
        + !![9 * 1 ^ 4 / 4, 0, 9 * 1 ^ 3 / 2, 0; 0, 9 * 1 ^ 4 / 4, 0, 9 * 1 ^ 3 / 2;
             9 * 1 ^ 3 / 2, 0, 9 * 1 ^ 2, 0; 0, 9 * 1 ^ 3 / 2, 0, 9 * 1 ^ 2]
      = !![17/4, 0, 11/2, 0; 0, 17/4, 0, 11/2; 11/2, 0, 10, 0; 0, 11/2, 0, 10] := by
    rw [mul_one]
    ext i j
    simp only [Matrix.mul_apply, Matrix.transpose_apply, Fin.sum_univ_four, Matrix.add_apply]
    fin_cases i <;> fin_cases j <;> simp [Matrix.vecHead, Matrix.vecTail] <;> norm_num
  simp only [hx, hP]
  norm_num

/-- The state after a linear update, written out. -/
lemma update_x (kf : KalmanFilter K) (z : List K) :
    (kf.Update z).x_
      = kf.x_ + (kf.P_ * kf.H_.transpose * inverse (kf.H_ * kf.P_ * kf.H_.transpose + kf.R_)).mulVec
          (fun i => coeff z i.val - kf.H_.mulVec kf.x_ i) := rfl

/-- The Kalman gain of the second step. -/
lemma scenario_gain :
    (!![17/4, 0, 11/2, 0; 0, 17/4, 0, 11/2; 11/2, 0, 10, 0; 0, 11/2, 0, 10] : Matrix (Fin 4) (Fin 4) K)
        * (!![1, 0, 0, 0; 0, 1, 0, 0] : Matrix (Fin 2) (Fin 4) K).transpose
        * inverse ((!![1, 0, 0, 0; 0, 1, 0, 0] : Matrix (Fin 2) (Fin 4) K)
            * (!![17/4, 0, 11/2, 0; 0, 17/4, 0, 11/2; 11/2, 0, 10, 0; 0, 11/2, 0, 10] :
                Matrix (Fin 4) (Fin 4) K)
            * (!![1, 0, 0, 0; 0, 1, 0, 0] : Matrix (Fin 2) (Fin 4) K).transpose
            + (!![0.0225, 0; 0, 0.0225] : Matrix (Fin 2) (Fin 2) K))
      = (!![1700/1709, 0; 0, 1700/1709; 2200/1709, 0; 0, 2200/1709] : Matrix (Fin 4) (Fin 2) K) := by
  have hPHt : (!![17/4, 0, 11/2, 0; 0, 17/4, 0, 11/2; 11/2, 0, 10, 0; 0, 11/2, 0, 10] :
        Matrix (Fin 4) (Fin 4) K) * (!![1, 0, 0, 0; 0, 1, 0, 0] : Matrix (Fin 2) (Fin 4) K).transpose
      = (!![17/4, 0; 0, 17/4; 11/2, 0; 0, 11/2] : Matrix (Fin 4) (Fin 2) K) := by
    ext i j
    simp only [Matrix.mul_apply, Matrix.transpose_apply, Fin.sum_univ_four]
    fin_cases i <;> fin_cases j <;> simp [Matrix.vecHead, Matrix.vecTail]
  have hS : (!![1, 0, 0, 0; 0, 1, 0, 0] : Matrix (Fin 2) (Fin 4) K)
        * (!![17/4, 0, 11/2, 0; 0, 17/4, 0, 11/2; 11/2, 0, 10, 0; 0, 11/2, 0, 10] :
            Matrix (Fin 4) (Fin 4) K)
        * (!![1, 0, 0, 0; 0, 1, 0, 0] : Matrix (Fin 2) (Fin 4) K).transpose
        + (!![0.0225, 0; 0, 0.0225] : Matrix (Fin 2) (Fin 2) K)
      = (!![1709/400, 0; 0, 1709/400] : Matrix (Fin 2) (Fin 2) K) := by
    rw [Matrix.mul_assoc, hPHt]
    ext i j
    simp only [Matrix.mul_apply, Matrix.add_apply, Fin.sum_univ_four]
    fin_cases i <;> fin_cases j <;> simp [Matrix.vecHead, Matrix.vecTail] <;> norm_num
  have hinv : inverse (!![1709/400, 0; 0, 1709/400] : Matrix (Fin 2) (Fin 2) K)
      = (!![400/1709, 0; 0, 400/1709] : Matrix (Fin 2) (Fin 2) K) := by
    unfold inverse
    rw [Matrix.det_fin_two_of, Matrix.adjugate_fin_two_of]
    ext i j
    fin_cases i <;> fin_cases j <;> simp [Matrix.vecHead, Matrix.vecTail] <;> norm_num
  rw [hS, hinv, hPHt]
  ext i j
  simp only [Matrix.mul_apply, Fin.sum_univ_two]
  fin_cases i <;> fin_cases j <;> simp [Matrix.vecHead, Matrix.vecTail] <;> norm_num

/-- The state after the second observation `LASER t=1,000,000 (2, 1)`. -/
lemma scenario_final_x :
    ((FusionEKF.new ekf0 tools0 Hj0).run L [laser 0 1 1, laser 1000000 2 1]).ekf_.x_
      = ![3409/1709, 1, 2200/1709, 0] := by
  have hrun : (FusionEKF.new ekf0 tools0 Hj0).run L [laser 0 1 1, laser 1000000 2 1]
      = (((FusionEKF.new ekf0 tools0 Hj0).ProcessMeasurement L (laser 0 1 1)).prediction
          (laser 1000000 2 1)).update L ⟨1000000, SensorType.LASER, [2, 1]⟩ := by
    rw [show (FusionEKF.new ekf0 tools0 Hj0).run L [laser 0 1 1, laser 1000000 2 1]
      = ((FusionEKF.new ekf0 tools0 Hj0).ProcessMeasurement L (laser 0 1 1)).ProcessMeasurement L
          (laser 1000000 2 1) from rfl]
    exact processMeasurement_of_initialized L _ _ (processMeasurement_is_initialized L _ _)
  obtain ⟨-, -, -, hRl, -, hHl, -⟩ :=
    processMeasurement_members L (FusionEKF.new ekf0 tools0 Hj0) (laser 0 1 1)
  have hH : (((FusionEKF.new ekf0 tools0 Hj0).ProcessMeasurement L (laser 0 1 1)).prediction
      (laser 1000000 2 1)).H_laser_ = !![1, 0, 0, 0; 0, 1, 0, 0] := by
    refine Eq.trans hHl ?_
    ext i j; fin_cases i <;> fin_cases j <;> norm_num [FusionEKF.new]
  have hR : (((FusionEKF.new ekf0 tools0 Hj0).ProcessMeasurement L (laser 0 1 1)).prediction
      (laser 1000000 2 1)).R_laser_ = !![0.0225, 0; 0, 0.0225] := hRl
  rw [hrun, update_laser, scenario_pred, hH, hR, update_x]
  simp only []
  rw [scenario_gain]
  ext i
  simp only [Matrix.mulVec, Matrix.dotProduct, Fin.sum_univ_two, Fin.sum_univ_four, Pi.add_apply]
  fin_cases i <;> simp [Matrix.vecHead, Matrix.vecTail, coeff] <;> norm_num

end Scenario

/-- C10: from a fresh filter, `[LASER t=0 (1, 1)]` then
`[LASER t=1,000,000 (2, 1)]`: the second step has `dt = 1` and predicts with
`F_` and `Q_` built from `dt = 1`; the constant-velocity prediction of the
x-position is 1; the resulting x-position is `3409/1709`, strictly between the
prediction 1 and the measurement 2 and strictly closer to the measurement; the
y-position is 1. -/
theorem C10_two_lidar_observations (L : Libm K) (ekf0 : KalmanFilter K) (tools0 : Tools K)
    (Hj0 : Matrix (Fin 3) (Fin 4) K) :
    ((FusionEKF.new ekf0 tools0 Hj0).ProcessMeasurement L (laser 0 1 1)).elapsed
        (laser 1000000 2 1) = 1
    ∧ (((FusionEKF.new ekf0 tools0 Hj0).ProcessMeasurement L (laser 0 1 1)).beforePredict
        (laser 1000000 2 1)).ekf_.F_ = !![1, 0, 1, 0; 0, 1, 0, 1; 0, 0, 1, 0; 0, 0, 0, 1]
    ∧ (((FusionEKF.new ekf0 tools0 Hj0).ProcessMeasurement L (laser 0 1 1)).beforePredict
        (laser 1000000 2 1)).ekf_.Q_
        = !![9/4, 0, 9/2, 0; 0, 9/4, 0, 9/2; 9/2, 0, 9, 0; 0, 9/2, 0, 9]
    ∧ (((FusionEKF.new ekf0 tools0 Hj0).ProcessMeasurement L (laser 0 1 1)).prediction
        (laser 1000000 2 1)).ekf_.x_ 0 = 1
    ∧ ((FusionEKF.new ekf0 tools0 Hj0).run L [laser 0 1 1, laser 1000000 2 1]).ekf_.x_ 0
        = 3409 / 1709
    ∧ 1 < ((FusionEKF.new ekf0 tools0 Hj0).run L [laser 0 1 1, laser 1000000 2 1]).ekf_.x_ 0
    ∧ ((FusionEKF.new ekf0 tools0 Hj0).run L [laser 0 1 1, laser 1000000 2 1]).ekf_.x_ 0 < 2
    ∧ |2 - ((FusionEKF.new ekf0 tools0 Hj0).run L [laser 0 1 1, laser 1000000 2 1]).ekf_.x_ 0|
        < |((FusionEKF.new ekf0 tools0 Hj0).run L [laser 0 1 1, laser 1000000 2 1]).ekf_.x_ 0 - 1|
    ∧ ((FusionEKF.new ekf0 tools0 Hj0).run L [laser 0 1 1, laser 1000000 2 1]).ekf_.x_ 1 = 1 := by
  have hdt : ((FusionEKF.new ekf0 tools0 Hj0).ProcessMeasurement L (laser 0 1 1)).elapsed
      (laser 1000000 2 1) = 1 := by
    apply elapsed_of_sub_eq_1000000
    rw [processMeasurement_previous_timestamp]
    norm_num [laser]
  have hp := scenario_pred L ekf0 tools0 Hj0
  have hF : (((FusionEKF.new ekf0 tools0 Hj0).ProcessMeasurement L (laser 0 1 1)).prediction
      (laser 1000000 2 1)).ekf_.F_ = !![1, 0, 1, 0; 0, 1, 0, 1; 0, 0, 1, 0; 0, 0, 0, 1] := by
    rw [hp]
  have hQ : (((FusionEKF.new ekf0 tools0 Hj0).ProcessMeasurement L (laser 0 1 1)).prediction
      (laser 1000000 2 1)).ekf_.Q_
      = !![9/4, 0, 9/2, 0; 0, 9/4, 0, 9/2; 9/2, 0, 9, 0; 0, 9/2, 0, 9] := by
    rw [hp]
  have hx := scenario_final_x L ekf0 tools0 Hj0
  have h0 : ((FusionEKF.new ekf0 tools0 Hj0).run L [laser 0 1 1, laser 1000000 2 1]).ekf_.x_ 0
      = 3409 / 1709 := by rw [hx]; rfl
  have h1 : ((FusionEKF.new ekf0 tools0 Hj0).run L [laser 0 1 1, laser 1000000 2 1]).ekf_.x_ 1
      = 1 := by rw [hx]; rfl
  refine ⟨hdt, hF, hQ, by rw [hp]; rfl, h0, ?_, ?_, ?_, h1⟩
  · rw [h0]; norm_num
  · rw [h0]; norm_num
  · rw [h0, abs_of_pos (by norm_num), abs_of_pos (by norm_num)]; norm_num

/-! ## The state machine and the per-sensor constants -/

/-- C14: the initialization flag is false after construction and true after
the first `ProcessMeasurement` call, which runs the initialization section;
after any call from any state it is true, so for every sequence of further
calls it stays true, and each of those calls runs the prediction and update
sections, not the initialization section. -/
theorem C14_uninitialized_then_running (L : Libm K) (ekf0 : KalmanFilter K) (tools0 : Tools K)
    (Hj0 : Matrix (Fin 3) (Fin 4) K) (m0 : MeasurementPackage K)
    (ms : List (MeasurementPackage K)) (mp : MeasurementPackage K) (s : FusionEKF K) :
    (FusionEKF.new ekf0 tools0 Hj0).is_initialized_ = false
    ∧ (FusionEKF.new ekf0 tools0 Hj0).ProcessMeasurement L m0
        = (FusionEKF.new ekf0 tools0 Hj0).initialization L m0
    ∧ ((FusionEKF.new ekf0 tools0 Hj0).ProcessMeasurement L m0).is_initialized_ = true
    ∧ (s.ProcessMeasurement L mp).is_initialized_ = true
    ∧ ((FusionEKF.new ekf0 tools0 Hj0).run L (m0 :: ms)).is_initialized_ = true
    ∧ ((FusionEKF.new ekf0 tools0 Hj0).run L (m0 :: ms)).ProcessMeasurement L mp
        = (((FusionEKF.new ekf0 tools0 Hj0).run L (m0 :: ms)).prediction mp).update L mp :=
  ⟨rfl, processMeasurement_new L m0 ekf0 tools0 Hj0,
    processMeasurement_is_initialized L _ m0, processMeasurement_is_initialized L s mp,
    (run_new_cons L ekf0 tools0 Hj0 m0 ms).1,
    processMeasurement_of_initialized L _ mp (run_new_cons L ekf0 tools0 Hj0 m0 ms).1⟩

/-- C15: after any sequence of `ProcessMeasurement` calls on a fresh filter,
the lidar noise covariance, the radar noise covariance and the lidar
measurement-transform are the values set at construction:
`diag(0.0225, 0.0225)`, `diag(0.09, 0.0009, 0.09)` and
`[[1,0,0,0],[0,1,0,0]]`. -/
theorem C15_sensor_constants_never_mutated (L : Libm K) (ekf0 : KalmanFilter K)
    (tools0 : Tools K) (Hj0 : Matrix (Fin 3) (Fin 4) K) (ms : List (MeasurementPackage K)) :
    ((FusionEKF.new ekf0 tools0 Hj0).run L ms).R_laser_ = !![0.0225, 0; 0, 0.0225]
    ∧ ((FusionEKF.new ekf0 tools0 Hj0).run L ms).R_radar_
        = !![0.09, 0, 0; 0, 0.0009, 0; 0, 0, 0.09]
    ∧ ((FusionEKF.new ekf0 tools0 Hj0).run L ms).H_laser_ = !![1, 0, 0, 0; 0, 1, 0, 0] := by
  obtain ⟨hRl, hRr, hHl, -⟩ := run_members L ms (FusionEKF.new ekf0 tools0 Hj0)
  refine ⟨hRl, hRr, hHl.trans ?_⟩
  ext i j; fin_cases i <;> fin_cases j <;> norm_num [FusionEKF.new]

/-! ## A repeated timestamp -/

/-- The filter after the prediction section, field by field. -/
lemma prediction_ekf (s : FusionEKF K) (mp : MeasurementPackage K) :
    (s.prediction mp).ekf_
      = { s.ekf_ with
          x_ := (s.beforePredict mp).ekf_.F_.mulVec s.ekf_.x_
          P_ := (s.beforePredict mp).ekf_.F_ * s.ekf_.P_ * (s.beforePredict mp).ekf_.F_.transpose
                  + (s.beforePredict mp).ekf_.Q_
          F_ := (s.beforePredict mp).ekf_.F_
          Q_ := (s.beforePredict mp).ekf_.Q_ } := rfl

/-- With `dt = 0` the recomputed process noise is the zero matrix. -/
lemma beforePredict_Q_of_elapsed_zero (s : FusionEKF K) (mp : MeasurementPackage K)
    (hdt : s.elapsed mp = 0) : (s.beforePredict mp).ekf_.Q_ = 0 := by
  rw [beforePredict_Q_of_exact s mp (by rw [hdt]; exact exactNoise_zero), hdt]
  ext i j
  fin_cases i <;> fin_cases j <;> simp [Matrix.vecHead, Matrix.vecTail]

/-- With `dt = 0` the state-transition matrix of a session is the identity. -/
lemma beforePredict_F_of_elapsed_zero (s : FusionEKF K) (mp : MeasurementPackage K)
    (hF : TransitionShape s.ekf_.F_) (hdt : s.elapsed mp = 0) :
    (s.beforePredict mp).ekf_.F_ = 1 := by
  rw [beforePredict_F_eq s mp hF, hdt, one_fin_four]

/-- C17: when a RUNNING-state observation carries the previous timestamp
(`dt = 0`), the step sets the state-transition matrix to the 4×4 identity and
the process noise to zero, the prediction leaves the state and the covariance
unchanged, and the update is run on the prior with only `F_` and `Q_`
replaced. The two premises on the filter hold in every RUNNING state of a
session started on a fresh filter. -/
theorem C17_repeated_timestamp_prediction_is_identity (L : Libm K) (s : FusionEKF K)
    (mp : MeasurementPackage K) (h : s.is_initialized_ = true)
    (hF : TransitionShape s.ekf_.F_) (hts : mp.timestamp_ = s.previous_timestamp_)
    (ekf0 : KalmanFilter K) (tools0 : Tools K) (Hj0 : Matrix (Fin 3) (Fin 4) K)
    (m0 : MeasurementPackage K) (ms : List (MeasurementPackage K)) :
    s.elapsed mp = 0
    ∧ (s.beforePredict mp).ekf_.F_ = 1
    ∧ (s.beforePredict mp).ekf_.Q_ = 0
    ∧ (s.prediction mp).ekf_.x_ = s.ekf_.x_
    ∧ (s.prediction mp).ekf_.P_ = s.ekf_.P_
    ∧ s.ProcessMeasurement L mp
        = FusionEKF.update L { s with ekf_ := { s.ekf_ with F_ := 1, Q_ := 0 } } mp
    ∧ ((FusionEKF.new ekf0 tools0 Hj0).run L (m0 :: ms)).is_initialized_ = true
    ∧ TransitionShape ((FusionEKF.new ekf0 tools0 Hj0).run L (m0 :: ms)).ekf_.F_ := by
  have hdt : s.elapsed mp = 0 :=
    elapsed_of_sub_eq_zero s mp (by rw [hts, sub_self])
  have hF1 := beforePredict_F_of_elapsed_zero s mp hF hdt
  have hQ0 := beforePredict_Q_of_elapsed_zero s mp hdt
  have hx : (s.prediction mp).ekf_.x_ = s.ekf_.x_ := by
    rw [prediction_ekf, hF1]; simp
  have hP : (s.prediction mp).ekf_.P_ = s.ekf_.P_ := by
    rw [prediction_ekf, hF1, hQ0]; simp
  have hpred : s.prediction mp = { s with ekf_ := { s.ekf_ with F_ := 1, Q_ := 0 } } := by
    have e : s.prediction mp
        = { s with
            previous_timestamp_ := mp.timestamp_
            ekf_ := (s.prediction mp).ekf_ } := rfl
    rw [e, prediction_ekf, hF1, hQ0, hts]
    simp
  refine ⟨hdt, hF1, hQ0, hx, hP, ?_, run_new_cons L ekf0 tools0 Hj0 m0 ms⟩
  rw [processMeasurement_of_initialized L s mp h, hpred]

/-- C17 at a concrete input: after `[LASER t=0 (1, 1)]` the filter is RUNNING
with `F_` of the transition shape; a second lidar observation at `t = 0` has
`dt = 0` and its prediction leaves the state `(1, 1, 0, 0)` and the identity
covariance as they were. -/
theorem C17_repeated_timestamp_prediction_is_identity_witness :
    ((FusionEKF.new (⟨0, 0, 0, 0, 0, 0, 0⟩ : KalmanFilter ℝ) ⟨1 / 10000, 0⟩ 0).ProcessMeasurement
        ⟨Real.pi, Real.cos, Real.sin, Real.sqrt, fun y x => (Complex.mk x y).arg⟩
        (laser 0 1 1)).is_initialized_ = true
    ∧ (laser 0 2 1 : MeasurementPackage ℝ).timestamp_
        = ((FusionEKF.new (⟨0, 0, 0, 0, 0, 0, 0⟩ : KalmanFilter ℝ) ⟨1 / 10000, 0⟩ 0).ProcessMeasurement
          ⟨Real.pi, Real.cos, Real.sin, Real.sqrt, fun y x => (Complex.mk x y).arg⟩
          (laser 0 1 1)).previous_timestamp_
    ∧ (((FusionEKF.new (⟨0, 0, 0, 0, 0, 0, 0⟩ : KalmanFilter ℝ) ⟨1 / 10000, 0⟩ 0).ProcessMeasurement
        ⟨Real.pi, Real.cos, Real.sin, Real.sqrt, fun y x => (Complex.mk x y).arg⟩
        (laser 0 1 1)).prediction (laser 0 2 1)).ekf_.x_ = ![1, 1, 0, 0]
    ∧ (((FusionEKF.new (⟨0, 0, 0, 0, 0, 0, 0⟩ : KalmanFilter ℝ) ⟨1 / 10000, 0⟩ 0).ProcessMeasurement
        ⟨Real.pi, Real.cos, Real.sin, Real.sqrt, fun y x => (Complex.mk x y).arg⟩
        (laser 0 1 1)).prediction (laser 0 2 1)).ekf_.P_ = 1 := by
  have hs := scenario_init
    ⟨Real.pi, Real.cos, Real.sin, Real.sqrt, fun y x => (Complex.mk x y).arg⟩
    (⟨0, 0, 0, 0, 0, 0, 0⟩ : KalmanFilter ℝ) ⟨1 / 10000, 0⟩ 0
  have h := C17_repeated_timestamp_prediction_is_identity
    ⟨Real.pi, Real.cos, Real.sin, Real.sqrt, fun y x => (Complex.mk x y).arg⟩
    ((FusionEKF.new (⟨0, 0, 0, 0, 0, 0, 0⟩ : KalmanFilter ℝ) ⟨1 / 10000, 0⟩ 0).ProcessMeasurement
        ⟨Real.pi, Real.cos, Real.sin, Real.sqrt, fun y x => (Complex.mk x y).arg⟩
        (laser 0 1 1))
    (laser 0 2 1) rfl
    (run_new_cons ⟨Real.pi, Real.cos, Real.sin, Real.sqrt, fun y x => (Complex.mk x y).arg⟩
      ⟨0, 0, 0, 0, 0, 0, 0⟩ ⟨1 / 10000, 0⟩ 0 (laser 0 1 1) []).2
    rfl ⟨0, 0, 0, 0, 0, 0, 0⟩ ⟨1 / 10000, 0⟩ 0 (laser 0 1 1) []
  refine ⟨rfl, rfl, ?_, ?_⟩
  · rw [h.2.2.2.1, hs]
  · rw [h.2.2.2.2.1, hs]

/-! ## The process noise: symmetric, and semidefinite where no operation rounds -/

/-- The quadratic form of the process-noise matrix for `dt` is nine times a
sum of two squares. -/
lemma processNoise_quadratic (dt : ℝ) (x : Fin 4 → ℝ) :
    star x ⬝ᵥ (!![9 * dt ^ 4 / 4, 0, 9 * dt ^ 3 / 2, 0;
                  0, 9 * dt ^ 4 / 4, 0, 9 * dt ^ 3 / 2;
                  9 * dt ^ 3 / 2, 0, 9 * dt ^ 2, 0;
                  0, 9 * dt ^ 3 / 2, 0, 9 * dt ^ 2] : Matrix (Fin 4) (Fin 4) ℝ) *ᵥ x
      = 9 * (dt ^ 2 / 2 * x 0 + dt * x 2) ^ 2 + 9 * (dt ^ 2 / 2 * x 1 + dt * x 3) ^ 2 := by
  simp [Matrix.mulVec, Matrix.dotProduct, Fin.sum_univ_four, Matrix.vecHead, Matrix.vecTail]
  ring

/-- The process-noise matrix for `dt` is symmetric. -/
lemma processNoise_isSymm (dt : ℝ) :
    (!![9 * dt ^ 4 / 4, 0, 9 * dt ^ 3 / 2, 0;
        0, 9 * dt ^ 4 / 4, 0, 9 * dt ^ 3 / 2;
        9 * dt ^ 3 / 2, 0, 9 * dt ^ 2, 0;
        0, 9 * dt ^ 3 / 2, 0, 9 * dt ^ 2] : Matrix (Fin 4) (Fin 4) ℝ).IsSymm := by
  ext i j
  fin_cases i <;> fin_cases j <;> rfl

/-- The process-noise matrix for `dt` is positive-semidefinite. -/
lemma processNoise_posSemidef (dt : ℝ) :
    (!![9 * dt ^ 4 / 4, 0, 9 * dt ^ 3 / 2, 0;
        0, 9 * dt ^ 4 / 4, 0, 9 * dt ^ 3 / 2;
        9 * dt ^ 3 / 2, 0, 9 * dt ^ 2, 0;
        0, 9 * dt ^ 3 / 2, 0, 9 * dt ^ 2] : Matrix (Fin 4) (Fin 4) ℝ).PosSemidef := by
  refine ⟨?_, fun x => ?_⟩
  · rw [Matrix.IsHermitian, Matrix.conjTranspose_eq_transpose_of_trivial]
    exact processNoise_isSymm dt
  · rw [processNoise_quadratic]
    positivity

/-- The process-noise matrix for `dt` is not positive-definite: its quadratic
form vanishes at `(1, 0, −dt/2, 0)`. -/
lemma processNoise_not_posDef (dt : ℝ) :
    ¬ (!![9 * dt ^ 4 / 4, 0, 9 * dt ^ 3 / 2, 0;
          0, 9 * dt ^ 4 / 4, 0, 9 * dt ^ 3 / 2;
          9 * dt ^ 3 / 2, 0, 9 * dt ^ 2, 0;
          0, 9 * dt ^ 3 / 2, 0, 9 * dt ^ 2] : Matrix (Fin 4) (Fin 4) ℝ).PosDef := by
  intro h
  have hne : (![1, 0, -(dt / 2), 0] : Fin 4 → ℝ) ≠ 0 := by
    intro h0
    have := congrFun h0 0
    simp at this
  have hpos := h.2 _ hne
  rw [processNoise_quadratic] at hpos
  have hz : (9 : ℝ) * (dt ^ 2 / 2 * (![1, 0, -(dt / 2), 0] : Fin 4 → ℝ) 0
      + dt * (![1, 0, -(dt / 2), 0] : Fin 4 → ℝ) 2) ^ 2
      + 9 * (dt ^ 2 / 2 * (![1, 0, -(dt / 2), 0] : Fin 4 → ℝ) 1
      + dt * (![1, 0, -(dt / 2), 0] : Fin 4 → ℝ) 3) ^ 2 = 0 := by
    simp [Matrix.vecHead, Matrix.vecTail]
    ring
  rw [hz] at hpos
  exact lt_irrefl 0 hpos

/-- The quadratic form of a matrix with the per-axis block `[[a, b], [b, c]]`
on both axes. -/
lemma blockNoise_quadratic (a b c : ℝ) (x : Fin 4 → ℝ) :
    star x ⬝ᵥ (!![a, 0, b, 0; 0, a, 0, b; b, 0, c, 0; 0, b, 0, c] : Matrix (Fin 4) (Fin 4) ℝ) *ᵥ x
      = a * x 0 ^ 2 + 2 * b * (x 0 * x 2) + c * x 2 ^ 2
        + (a * x 1 ^ 2 + 2 * b * (x 1 * x 3) + c * x 3 ^ 2) := by
  simp [Matrix.mulVec, Matrix.dotProduct, Fin.sum_univ_four, Matrix.vecHead, Matrix.vecTail]
  ring

/-- A block with negative determinant makes the matrix indefinite: the
quadratic form is negative at `(c, 0, −b, 0)`. -/
lemma blockNoise_not_posSemidef (a b c : ℝ) (hc : 0 < c) (hd : a * c - b * b < 0) :
    ¬ (!![a, 0, b, 0; 0, a, 0, b; b, 0, c, 0; 0, b, 0, c] : Matrix (Fin 4) (Fin 4) ℝ).PosSemidef := by
  intro h
  have h1 := h.2 ![c, 0, -b, 0]
  rw [blockNoise_quadratic] at h1
  have e : a * (![c, 0, -b, 0] : Fin 4 → ℝ) 0 ^ 2
      + 2 * b * ((![c, 0, -b, 0] : Fin 4 → ℝ) 0 * (![c, 0, -b, 0] : Fin 4 → ℝ) 2)
      + c * (![c, 0, -b, 0] : Fin 4 → ℝ) 2 ^ 2
      + (a * (![c, 0, -b, 0] : Fin 4 → ℝ) 1 ^ 2
        + 2 * b * ((![c, 0, -b, 0] : Fin 4 → ℝ) 1 * (![c, 0, -b, 0] : Fin 4 → ℝ) 3)
        + c * (![c, 0, -b, 0] : Fin 4 → ℝ) 3 ^ 2)
      = c * (a * c - b * b) := by
    simp [Matrix.vecHead, Matrix.vecTail]
    ring
  rw [e] at h1
  have h2 : c * (a * c - b * b) < 0 := mul_neg_of_pos_of_neg hc hd
  exact absurd h1 (not_le.mpr h2)

/-- A block with positive corner and positive determinant makes the matrix
positive-definite. -/
lemma blockNoise_posDef (a b c : ℝ) (ha : 0 < a) (hd : 0 < a * c - b * b) :
    (!![a, 0, b, 0; 0, a, 0, b; b, 0, c, 0; 0, b, 0, c] : Matrix (Fin 4) (Fin 4) ℝ).PosDef := by
  refine ⟨?_, fun x hx => ?_⟩
  · rw [Matrix.IsHermitian, Matrix.conjTranspose_eq_transpose_of_trivial]
    ext i j
    fin_cases i <;> fin_cases j <;> rfl
  · rw [blockNoise_quadratic]
    have key : a * (a * x 0 ^ 2 + 2 * b * (x 0 * x 2) + c * x 2 ^ 2
          + (a * x 1 ^ 2 + 2 * b * (x 1 * x 3) + c * x 3 ^ 2))
        = (a * x 0 + b * x 2) ^ 2 + (a * c - b * b) * x 2 ^ 2
          + ((a * x 1 + b * x 3) ^ 2 + (a * c - b * b) * x 3 ^ 2) := by ring
    have n1 := sq_nonneg (a * x 0 + b * x 2)
    have n2 : 0 ≤ (a * c - b * b) * x 2 ^ 2 := mul_nonneg hd.le (sq_nonneg _)
    have n3 := sq_nonneg (a * x 1 + b * x 3)
    have n4 : 0 ≤ (a * c - b * b) * x 3 ^ 2 := mul_nonneg hd.le (sq_nonneg _)
    have hpos : 0 < (a * x 0 + b * x 2) ^ 2 + (a * c - b * b) * x 2 ^ 2
          + ((a * x 1 + b * x 3) ^ 2 + (a * c - b * b) * x 3 ^ 2) := by
      by_contra hneg
      push_neg at hneg
      have z1 : (a * x 0 + b * x 2) ^ 2 = 0 := by linarith
      have z2 : (a * c - b * b) * x 2 ^ 2 = 0 := by linarith
      have z3 : (a * x 1 + b * x 3) ^ 2 = 0 := by linarith
      have z4 : (a * c - b * b) * x 3 ^ 2 = 0 := by linarith
      have x2 : x 2 = 0 := by
        rcases mul_eq_zero.mp z2 with h | h
        · exact absurd h hd.ne'
        · exact pow_eq_zero_iff (by norm_num) |>.mp h
      have x3 : x 3 = 0 := by
        rcases mul_eq_zero.mp z4 with h | h
        · exact absurd h hd.ne'
        · exact pow_eq_zero_iff (by norm_num) |>.mp h
      have x0 : x 0 = 0 := by
        have h := pow_eq_zero_iff (by norm_num) |>.mp z1
        rw [x2, mul_zero, add_zero] at h
        rcases mul_eq_zero.mp h with h | h
        · exact absurd h ha.ne'
        · exact h
      have x1 : x 1 = 0 := by
        have h := pow_eq_zero_iff (by norm_num) |>.mp z3
        rw [x3, mul_zero, add_zero] at h
        rcases mul_eq_zero.mp h with h | h
        · exact absurd h ha.ne'
        · exact h
      apply hx
      ext i
      fin_cases i
      · exact x0
      · exact x1
      · exact x2
      · exact x3
    rw [← key] at hpos
    by_contra hf
    push_neg at hf
    have := mul_nonpos_of_nonneg_of_nonpos ha.le hf
    linarith

/-- The recomputed process noise is symmetric. -/
lemma beforePredict_Q_isSymm (s : FusionEKF K) (mp : MeasurementPackage K) :
    (s.beforePredict mp).ekf_.Q_.IsSymm := by
  rw [beforePredict_Q]
  ext i j
  fin_cases i <;> fin_cases j <;> rfl

/-- The diagonal of the recomputed process noise is non-negative. -/
lemma beforePredict_Q_diag_nonneg (s : FusionEKF K) (mp : MeasurementPackage K) (i : Fin 4) :
    0 ≤ (s.beforePredict mp).ekf_.Q_ i i := by
  rw [beforePredict_Q]
  generalize s.elapsed mp = dt
  have h2 : 0 ≤ toFloat (dt * dt) := toFloat_nonneg _ (mul_self_nonneg _)
  have h4 : 0 ≤ toFloat (toFloat (toFloat (dt * dt) * dt) * dt) := by
    apply toFloat_nonneg
    rcases le_total 0 dt with hd | hd
    · exact mul_nonneg (toFloat_nonneg _ (mul_nonneg h2 hd)) hd
    · have h3 : toFloat (toFloat (dt * dt) * dt) ≤ 0 :=
        toFloat_nonpos _ (mul_nonpos_of_nonneg_of_nonpos h2 hd)
      nlinarith
  have hA : 0 ≤ toFloat (toFloat (toFloat (toFloat (toFloat (dt * dt) * dt) * dt) / 4) * 9) :=
    toFloat_nonneg _ (mul_nonneg (toFloat_nonneg _ (div_nonneg h4 (by norm_num))) (by norm_num))
  have hC : 0 ≤ toFloat (toFloat (dt * dt) * 9) :=
    toFloat_nonneg _ (mul_nonneg h2 (by norm_num))
  fin_cases i
  · exact hA
  · exact hA
  · exact hC
  · exact hC

/-- Where no operation rounds, the recomputed process noise is
positive-semidefinite. -/
lemma beforePredict_Q_posSemidef_of_exact (s : FusionEKF ℝ) (mp : MeasurementPackage ℝ)
    (h : ExactNoise (s.elapsed mp)) : (s.beforePredict mp).ekf_.Q_.PosSemidef := by
  rw [beforePredict_Q_of_exact s mp h]
  exact processNoise_posSemidef _

/-- C16 (amended): for every RUNNING step, whatever the sign of its elapsed
time `dt`, the process-noise matrix computed before the prediction is
symmetric, has a non-negative diagonal, zero entries between the two axes and
the same 2×2 block on both axes. Where no `float` operation of lines 122–130
rounds — as for steps of exactly 0, 1 or −1 second — the matrix is
positive-semidefinite, each per-axis block is
`[[9·dt⁴/4, 9·dt³/2],[9·dt³/2, 9·dt²]]` with determinant 0, and the matrix is
not positive-definite. -/
theorem C16_process_noise_symmetric_semidefinite_when_exact (s : FusionEKF ℝ)
    (mp : MeasurementPackage ℝ) :
    (s.beforePredict mp).ekf_.Q_.IsSymm
    ∧ (∀ i : Fin 4, 0 ≤ (s.beforePredict mp).ekf_.Q_ i i)
    ∧ ((s.beforePredict mp).ekf_.Q_ 0 1 = 0 ∧ (s.beforePredict mp).ekf_.Q_ 0 3 = 0
        ∧ (s.beforePredict mp).ekf_.Q_ 2 1 = 0 ∧ (s.beforePredict mp).ekf_.Q_ 2 3 = 0)
    ∧ ((s.beforePredict mp).ekf_.Q_.submatrix ![0, 2] ![0, 2]
        = (s.beforePredict mp).ekf_.Q_.submatrix ![1, 3] ![1, 3])
    ∧ (ExactNoise (s.elapsed mp) →
        (s.beforePredict mp).ekf_.Q_.PosSemidef
        ∧ ((s.beforePredict mp).ekf_.Q_.submatrix ![0, 2] ![0, 2])
            = !![9 * s.elapsed mp ^ 4 / 4, 9 * s.elapsed mp ^ 3 / 2;
                 9 * s.elapsed mp ^ 3 / 2, 9 * s.elapsed mp ^ 2]
        ∧ ((s.beforePredict mp).ekf_.Q_.submatrix ![0, 2] ![0, 2]).det = 0
        ∧ ((s.beforePredict mp).ekf_.Q_.submatrix ![1, 3] ![1, 3]).det = 0
        ∧ ¬ (s.beforePredict mp).ekf_.Q_.PosDef)
    ∧ (mp.timestamp_ - s.previous_timestamp_ = 0
        ∨ mp.timestamp_ - s.previous_timestamp_ = 1000000
        ∨ mp.timestamp_ - s.previous_timestamp_ = -1000000 → ExactNoise (s.elapsed mp)) := by
  have hblk : (s.beforePredict mp).ekf_.Q_.submatrix ![0, 2] ![0, 2]
      = (s.beforePredict mp).ekf_.Q_.submatrix ![1, 3] ![1, 3] := by
    rw [beforePredict_Q]
    ext i j
    fin_cases i <;> fin_cases j <;> rfl
  refine ⟨beforePredict_Q_isSymm s mp, beforePredict_Q_diag_nonneg s mp, ?_, hblk, ?_, ?_⟩
  · rw [beforePredict_Q]
    exact ⟨rfl, rfl, rfl, rfl⟩
  · intro hex
    have hb1 : ((s.beforePredict mp).ekf_.Q_.submatrix ![0, 2] ![0, 2])
          = !![9 * s.elapsed mp ^ 4 / 4, 9 * s.elapsed mp ^ 3 / 2;
               9 * s.elapsed mp ^ 3 / 2, 9 * s.elapsed mp ^ 2] := by
      rw [beforePredict_Q_of_exact s mp hex]
      ext i j
      fin_cases i <;> fin_cases j <;> rfl
    have hdet : ((s.beforePredict mp).ekf_.Q_.submatrix ![0, 2] ![0, 2]).det = 0 := by
      rw [hb1, Matrix.det_fin_two_of]; ring
    refine ⟨beforePredict_Q_posSemidef_of_exact s mp hex, hb1, hdet, ?_, ?_⟩
    · rw [← hblk]; exact hdet
    · rw [beforePredict_Q_of_exact s mp hex]; exact processNoise_not_posDef _
  · rintro (h | h | h)
    · rw [elapsed_of_sub_eq_zero s mp h]; exact exactNoise_zero
    · rw [elapsed_of_sub_eq_1000000 s mp h]; exact exactNoise_one
    · rw [elapsed_of_sub_eq_neg_1000000 s mp h]; exact exactNoise_neg_one

/-- C16 as stated fails. After a lidar observation at `t = 0`, the step to
`t = 100,000` (`dt = 0.1f`) computes the per-axis block
`[[15461883/2^36, 9663677/2^31], [9663677/2^31, 3019899/2^25]]`, whose
determinant is negative (about `−6.8·10⁻¹³`), so the process noise is not
positive-semidefinite; the step to `t = 33,333` computes a block with positive
determinant (about `8.5·10⁻¹⁶`), so there the process noise is
positive-definite. -/
theorem C16_process_noise_counterexample :
    ((((FusionEKF.new (⟨0, 0, 0, 0, 0, 0, 0⟩ : KalmanFilter ℝ) ⟨1 / 10000, 0⟩ 0).ProcessMeasurement
        ⟨Real.pi, Real.cos, Real.sin, Real.sqrt, fun y x => (Complex.mk x y).arg⟩
        (laser 0 1 1)).beforePredict (laser 100000 1 1)).ekf_.Q_.submatrix ![0, 2] ![0, 2])
      = !![15461883 / 68719476736, 9663677 / 2147483648; 9663677 / 2147483648, 3019899 / 33554432]
    ∧ ((((FusionEKF.new (⟨0, 0, 0, 0, 0, 0, 0⟩ : KalmanFilter ℝ) ⟨1 / 10000, 0⟩ 0).ProcessMeasurement
        ⟨Real.pi, Real.cos, Real.sin, Real.sqrt, fun y x => (Complex.mk x y).arg⟩
        (laser 0 1 1)).beforePredict (laser 100000 1 1)).ekf_.Q_.submatrix ![0, 2] ![0, 2]).det < 0
    ∧ ¬ (((FusionEKF.new (⟨0, 0, 0, 0, 0, 0, 0⟩ : KalmanFilter ℝ) ⟨1 / 10000, 0⟩ 0).ProcessMeasurement
        ⟨Real.pi, Real.cos, Real.sin, Real.sqrt, fun y x => (Complex.mk x y).arg⟩
        (laser 0 1 1)).beforePredict (laser 100000 1 1)).ekf_.Q_.PosSemidef
    ∧ 0 < ((((FusionEKF.new (⟨0, 0, 0, 0, 0, 0, 0⟩ : KalmanFilter ℝ) ⟨1 / 10000, 0⟩ 0).ProcessMeasurement
        ⟨Real.pi, Real.cos, Real.sin, Real.sqrt, fun y x => (Complex.mk x y).arg⟩
        (laser 0 1 1)).beforePredict (laser 33333 1 1)).ekf_.Q_.submatrix ![0, 2] ![0, 2]).det
    ∧ (((FusionEKF.new (⟨0, 0, 0, 0, 0, 0, 0⟩ : KalmanFilter ℝ) ⟨1 / 10000, 0⟩ 0).ProcessMeasurement
        ⟨Real.pi, Real.cos, Real.sin, Real.sqrt, fun y x => (Complex.mk x y).arg⟩
        (laser 0 1 1)).beforePredict (laser 33333 1 1)).ekf_.Q_.PosDef := by
  have hQ1 := beforePredict_Q_of_elapsed_tenth _ _ (elapsed_of_sub_eq_100000
    ((FusionEKF.new (⟨0, 0, 0, 0, 0, 0, 0⟩ : KalmanFilter ℝ) ⟨1 / 10000, 0⟩ 0).ProcessMeasurement
        ⟨Real.pi, Real.cos, Real.sin, Real.sqrt, fun y x => (Complex.mk x y).arg⟩
        (laser 0 1 1))
    (laser 100000 1 1) (by rw [processMeasurement_previous_timestamp]; norm_num [laser]))
  have hQ3 := beforePredict_Q_of_elapsed_33333 _ _ (elapsed_of_sub_eq_33333
    ((FusionEKF.new (⟨0, 0, 0, 0, 0, 0, 0⟩ : KalmanFilter ℝ) ⟨1 / 10000, 0⟩ 0).ProcessMeasurement
        ⟨Real.pi, Real.cos, Real.sin, Real.sqrt, fun y x => (Complex.mk x y).arg⟩
        (laser 0 1 1))
    (laser 33333 1 1) (by rw [processMeasurement_previous_timestamp]; norm_num [laser]))
  have hb1 : ((((FusionEKF.new (⟨0, 0, 0, 0, 0, 0, 0⟩ : KalmanFilter ℝ) ⟨1 / 10000, 0⟩ 0).ProcessMeasurement
        ⟨Real.pi, Real.cos, Real.sin, Real.sqrt, fun y x => (Complex.mk x y).arg⟩
        (laser 0 1 1)).beforePredict (laser 100000 1 1)).ekf_.Q_.submatrix ![0, 2] ![0, 2])
      = !![15461883 / 68719476736, 9663677 / 2147483648; 9663677 / 2147483648, 3019899 / 33554432] := by
    rw [hQ1]
    ext i j
    fin_cases i <;> fin_cases j <;> rfl
  have hb3 : ((((FusionEKF.new (⟨0, 0, 0, 0, 0, 0, 0⟩ : KalmanFilter ℝ) ⟨1 / 10000, 0⟩ 0).ProcessMeasurement
        ⟨Real.pi, Real.cos, Real.sin, Real.sqrt, fun y x => (Complex.mk x y).arg⟩
        (laser 0 1 1)).beforePredict (laser 33333 1 1)).ekf_.Q_.submatrix ![0, 2] ![0, 2])
      = !![3054077 / 1099511627776, 11452903 / 68719476736; 11452903 / 68719476736, 2684301 / 268435456] := by
    rw [hQ3]
    ext i j
    fin_cases i <;> fin_cases j <;> rfl
  refine ⟨hb1, ?_, ?_, ?_, ?_⟩
  · rw [hb1, Matrix.det_fin_two_of]; norm_num
  · rw [hQ1]
    exact blockNoise_not_posSemidef _ _ _ (by norm_num) (by norm_num)
  · rw [hb3, Matrix.det_fin_two_of]; norm_num
  · rw [hQ3]
    exact blockNoise_posDef _ _ _ (by norm_num) (by norm_num)

/-! ## Trace of the predicted covariance -/

/-- The trace of `F·P·Fᵀ` for the transition matrix with time entries `dt`. -/
lemma transition_conj_trace (dt : ℝ) (P : Matrix (Fin 4) (Fin 4) ℝ) :
    ((!![1, 0, dt, 0; 0, 1, 0, dt; 0, 0, 1, 0; 0, 0, 0, 1] : Matrix (Fin 4) (Fin 4) ℝ) * P
        * (!![1, 0, dt, 0; 0, 1, 0, dt; 0, 0, 1, 0; 0, 0, 0, 1] :
            Matrix (Fin 4) (Fin 4) ℝ).transpose).trace
      = P.trace + dt * (P 0 2 + P 2 0 + P 1 3 + P 3 1) + dt ^ 2 * (P 2 2 + P 3 3) := by
  simp only [Matrix.trace, Matrix.diag_apply, Fin.sum_univ_four, Matrix.mul_apply,
    Matrix.transpose_apply]
  simp [Matrix.vecHead, Matrix.vecTail]
  ring

/-- The trace of the covariance after the prediction section, for a filter
whose `F_` has the transition shape: the trace of `F·P·Fᵀ` plus the trace of
the step's process noise. -/
lemma prediction_trace (s : FusionEKF ℝ) (mp : MeasurementPackage ℝ)
    (hF : TransitionShape s.ekf_.F_) :
    (s.prediction mp).ekf_.P_.trace
      = s.ekf_.P_.trace
        + s.elapsed mp * (s.ekf_.P_ 0 2 + s.ekf_.P_ 2 0 + s.ekf_.P_ 1 3 + s.ekf_.P_ 3 1)
        + s.elapsed mp ^ 2 * (s.ekf_.P_ 2 2 + s.ekf_.P_ 3 3)
        + (s.beforePredict mp).ekf_.Q_.trace := by
  have e : (s.prediction mp).ekf_.P_
      = (s.beforePredict mp).ekf_.F_ * s.ekf_.P_ * (s.beforePredict mp).ekf_.F_.transpose
          + (s.beforePredict mp).ekf_.Q_ := rfl
  rw [e, beforePredict_F_eq s mp hF, Matrix.trace_add, transition_conj_trace]

/-- The trace of the recomputed process noise is non-negative. -/
lemma beforePredict_Q_trace_nonneg (s : FusionEKF ℝ) (mp : MeasurementPackage ℝ) :
    0 ≤ (s.beforePredict mp).ekf_.Q_.trace :=
  Finset.sum_nonneg fun i _ => beforePredict_Q_diag_nonneg s mp i

/-- The diagonal of a positive-semidefinite real matrix is non-negative. -/
lemma posSemidef_diag_nonneg {n : Nat} {P : Matrix (Fin n) (Fin n) ℝ} (hP : P.PosSemidef)
    (i : Fin n) : 0 ≤ P i i := by
  have h := hP.2 (Pi.single i 1)
  simpa [Matrix.mulVec_single, Matrix.dotProduct, Pi.single_apply] using h

/-- A positive-semidefinite real matrix is symmetric, entry by entry. -/
lemma posSemidef_apply_comm {n : Nat} {P : Matrix (Fin n) (Fin n) ℝ} (hP : P.PosSemidef)
    (i j : Fin n) : P i j = P j i := by
  have h := hP.1.apply j i
  simpa using h

/-- A covariance with fully anti-correlated x-position and x-velocity is
symmetric positive-semidefinite: its quadratic form is `100·(x₀ − x₂)²`. -/
lemma anticorrelated_posSemidef :
    (!![100, 0, -100, 0; 0, 0, 0, 0; -100, 0, 100, 0; 0, 0, 0, 0] :
      Matrix (Fin 4) (Fin 4) ℝ).PosSemidef := by
  refine ⟨?_, fun x => ?_⟩
  · rw [Matrix.IsHermitian, Matrix.conjTranspose_eq_transpose_of_trivial]
    ext i j
    fin_cases i <;> fin_cases j <;> rfl
  · have e : star x ⬝ᵥ (!![100, 0, -100, 0; 0, 0, 0, 0; -100, 0, 100, 0; 0, 0, 0, 0] :
        Matrix (Fin 4) (Fin 4) ℝ) *ᵥ x = 100 * (x 0 - x 2) ^ 2 := by
      simp [Matrix.mulVec, Matrix.dotProduct, Fin.sum_univ_four, Matrix.vecHead, Matrix.vecTail]
      ring
    rw [e]
    positivity

/-- C13 (amended): on a RUNNING step with the noise intensities (9, 9), for
every symmetric positive-semidefinite prior covariance `P`, the trace of the
predicted covariance `F·P·Fᵀ + Q` (with the step's own `dt` and `Q`) is the
trace of `P` plus `2·dt·(P[0][2] + P[1][3]) + dt²·(P[2][2] + P[3][3])` plus the
trace of `Q`; the last two terms are non-negative; so the trace is not less
than the trace of `P` whenever `dt ≥ 0` and the position–velocity covariances
satisfy `P[0][2] + P[1][3] ≥ 0`. -/
theorem C13_prediction_trace (L : Libm ℝ) (s : FusionEKF ℝ)
    (mp : MeasurementPackage ℝ) (h : s.is_initialized_ = true)
    (hF : TransitionShape s.ekf_.F_) (hP : s.ekf_.P_.PosSemidef) :
    s.ProcessMeasurement L mp = (s.prediction mp).update L mp
    ∧ (s.prediction mp).ekf_.P_.trace
        = s.ekf_.P_.trace + 2 * s.elapsed mp * (s.ekf_.P_ 0 2 + s.ekf_.P_ 1 3)
          + s.elapsed mp ^ 2 * (s.ekf_.P_ 2 2 + s.ekf_.P_ 3 3)
          + (s.beforePredict mp).ekf_.Q_.trace
    ∧ 0 ≤ s.elapsed mp ^ 2 * (s.ekf_.P_ 2 2 + s.ekf_.P_ 3 3)
    ∧ 0 ≤ (s.beforePredict mp).ekf_.Q_.trace
    ∧ (0 ≤ s.elapsed mp → 0 ≤ s.ekf_.P_ 0 2 + s.ekf_.P_ 1 3 →
        s.ekf_.P_.trace ≤ (s.prediction mp).ekf_.P_.trace) := by
  have htr : (s.prediction mp).ekf_.P_.trace
        = s.ekf_.P_.trace + 2 * s.elapsed mp * (s.ekf_.P_ 0 2 + s.ekf_.P_ 1 3)
          + s.elapsed mp ^ 2 * (s.ekf_.P_ 2 2 + s.ekf_.P_ 3 3)
          + (s.beforePredict mp).ekf_.Q_.trace := by
    rw [prediction_trace s mp hF, posSemidef_apply_comm hP 2 0, posSemidef_apply_comm hP 3 1]
    ring
  have h22 := posSemidef_diag_nonneg hP 2
  have h33 := posSemidef_diag_nonneg hP 3
  have e2 : 0 ≤ s.elapsed mp ^ 2 * (s.ekf_.P_ 2 2 + s.ekf_.P_ 3 3) := by positivity
  have e3 := beforePredict_Q_trace_nonneg s mp
  refine ⟨processMeasurement_of_initialized L s mp h, htr, e2, e3, ?_⟩
  intro hdt hcov
  rw [htr]
  have e1 : 0 ≤ 2 * s.elapsed mp * (s.ekf_.P_ 0 2 + s.ekf_.P_ 1 3) := by positivity
  linarith

/-- C13 (amended) at a concrete input, the one of the counterexample: a RUNNING
filter with the constructor's `F_`, previous timestamp 0 and the covariance
`[[100,0,−100,0],[0,0,0,0],[−100,0,100,0],[0,0,0,0]]` receives an observation
at `t = 125,000`; the trace of the predicted covariance is given by the
formula. -/
theorem C13_prediction_trace_witness :
    ({ FusionEKF.new
          (⟨0, !![100, 0, -100, 0; 0, 0, 0, 0; -100, 0, 100, 0; 0, 0, 0, 0],
            !![1, 0, 1, 0; 0, 1, 0, 1; 0, 0, 1, 0; 0, 0, 0, 1], 0, 0, 0, 0⟩ : KalmanFilter ℝ)
          ⟨1 / 10000, 0⟩ 0 with is_initialized_ := true } : FusionEKF ℝ).is_initialized_ = true
    ∧ TransitionShape ({ FusionEKF.new
          (⟨0, !![100, 0, -100, 0; 0, 0, 0, 0; -100, 0, 100, 0; 0, 0, 0, 0],
            !![1, 0, 1, 0; 0, 1, 0, 1; 0, 0, 1, 0; 0, 0, 0, 1], 0, 0, 0, 0⟩ : KalmanFilter ℝ)
          ⟨1 / 10000, 0⟩ 0 with is_initialized_ := true } : FusionEKF ℝ).ekf_.F_
    ∧ ({ FusionEKF.new
          (⟨0, !![100, 0, -100, 0; 0, 0, 0, 0; -100, 0, 100, 0; 0, 0, 0, 0],
            !![1, 0, 1, 0; 0, 1, 0, 1; 0, 0, 1, 0; 0, 0, 0, 1], 0, 0, 0, 0⟩ : KalmanFilter ℝ)
          ⟨1 / 10000, 0⟩ 0 with is_initialized_ := true } : FusionEKF ℝ).ekf_.P_.PosSemidef
    ∧ (({ FusionEKF.new
          (⟨0, !![100, 0, -100, 0; 0, 0, 0, 0; -100, 0, 100, 0; 0, 0, 0, 0],
            !![1, 0, 1, 0; 0, 1, 0, 1; 0, 0, 1, 0; 0, 0, 0, 1], 0, 0, 0, 0⟩ : KalmanFilter ℝ)
          ⟨1 / 10000, 0⟩ 0 with is_initialized_ := true } : FusionEKF ℝ).prediction
        (laser 125000 0 0)).ekf_.P_.trace
      = ({ FusionEKF.new
          (⟨0, !![100, 0, -100, 0; 0, 0, 0, 0; -100, 0, 100, 0; 0, 0, 0, 0],
            !![1, 0, 1, 0; 0, 1, 0, 1; 0, 0, 1, 0; 0, 0, 0, 1], 0, 0, 0, 0⟩ : KalmanFilter ℝ)
          ⟨1 / 10000, 0⟩ 0 with is_initialized_ := true } : FusionEKF ℝ).ekf_.P_.trace
        + 2 * ({ FusionEKF.new
          (⟨0, !![100, 0, -100, 0; 0, 0, 0, 0; -100, 0, 100, 0; 0, 0, 0, 0],
            !![1, 0, 1, 0; 0, 1, 0, 1; 0, 0, 1, 0; 0, 0, 0, 1], 0, 0, 0, 0⟩ : KalmanFilter ℝ)
          ⟨1 / 10000, 0⟩ 0 with is_initialized_ := true } : FusionEKF ℝ).elapsed (laser 125000 0 0)
          * (({ FusionEKF.new
          (⟨0, !![100, 0, -100, 0; 0, 0, 0, 0; -100, 0, 100, 0; 0, 0, 0, 0],
            !![1, 0, 1, 0; 0, 1, 0, 1; 0, 0, 1, 0; 0, 0, 0, 1], 0, 0, 0, 0⟩ : KalmanFilter ℝ)
          ⟨1 / 10000, 0⟩ 0 with is_initialized_ := true } : FusionEKF ℝ).ekf_.P_ 0 2
            + ({ FusionEKF.new
          (⟨0, !![100, 0, -100, 0; 0, 0, 0, 0; -100, 0, 100, 0; 0, 0, 0, 0],
            !![1, 0, 1, 0; 0, 1, 0, 1; 0, 0, 1, 0; 0, 0, 0, 1], 0, 0, 0, 0⟩ : KalmanFilter ℝ)
          ⟨1 / 10000, 0⟩ 0 with is_initialized_ := true } : FusionEKF ℝ).ekf_.P_ 1 3)
        + ({ FusionEKF.new
          (⟨0, !![100, 0, -100, 0; 0, 0, 0, 0; -100, 0, 100, 0; 0, 0, 0, 0],
            !![1, 0, 1, 0; 0, 1, 0, 1; 0, 0, 1, 0; 0, 0, 0, 1], 0, 0, 0, 0⟩ : KalmanFilter ℝ)
          ⟨1 / 10000, 0⟩ 0 with is_initialized_ := true } : FusionEKF ℝ).elapsed (laser 125000 0 0) ^ 2
          * (({ FusionEKF.new
          (⟨0, !![100, 0, -100, 0; 0, 0, 0, 0; -100, 0, 100, 0; 0, 0, 0, 0],
            !![1, 0, 1, 0; 0, 1, 0, 1; 0, 0, 1, 0; 0, 0, 0, 1], 0, 0, 0, 0⟩ : KalmanFilter ℝ)
          ⟨1 / 10000, 0⟩ 0 with is_initialized_ := true } : FusionEKF ℝ).ekf_.P_ 2 2
            + ({ FusionEKF.new
          (⟨0, !![100, 0, -100, 0; 0, 0, 0, 0; -100, 0, 100, 0; 0, 0, 0, 0],
            !![1, 0, 1, 0; 0, 1, 0, 1; 0, 0, 1, 0; 0, 0, 0, 1], 0, 0, 0, 0⟩ : KalmanFilter ℝ)
          ⟨1 / 10000, 0⟩ 0 with is_initialized_ := true } : FusionEKF ℝ).ekf_.P_ 3 3)
        + (({ FusionEKF.new
          (⟨0, !![100, 0, -100, 0; 0, 0, 0, 0; -100, 0, 100, 0; 0, 0, 0, 0],
            !![1, 0, 1, 0; 0, 1, 0, 1; 0, 0, 1, 0; 0, 0, 0, 1], 0, 0, 0, 0⟩ : KalmanFilter ℝ)
          ⟨1 / 10000, 0⟩ 0 with is_initialized_ := true } : FusionEKF ℝ).beforePredict
            (laser 125000 0 0)).ekf_.Q_.trace := by
  have hF : TransitionShape ({ FusionEKF.new
          (⟨0, !![100, 0, -100, 0; 0, 0, 0, 0; -100, 0, 100, 0; 0, 0, 0, 0],
            !![1, 0, 1, 0; 0, 1, 0, 1; 0, 0, 1, 0; 0, 0, 0, 1], 0, 0, 0, 0⟩ : KalmanFilter ℝ)
          ⟨1 / 10000, 0⟩ 0 with is_initialized_ := true } : FusionEKF ℝ).ekf_.F_ := by
    have h := transitionShape_new_F (⟨0, 0, 0, 0, 0, 0, 0⟩ : KalmanFilter ℝ) ⟨1 / 10000, 0⟩ 0
    rw [new_F] at h
    exact h
  have h := C13_prediction_trace
    ⟨Real.pi, Real.cos, Real.sin, Real.sqrt, fun y x => (Complex.mk x y).arg⟩
    ({ FusionEKF.new
          (⟨0, !![100, 0, -100, 0; 0, 0, 0, 0; -100, 0, 100, 0; 0, 0, 0, 0],
            !![1, 0, 1, 0; 0, 1, 0, 1; 0, 0, 1, 0; 0, 0, 0, 1], 0, 0, 0, 0⟩ : KalmanFilter ℝ)
          ⟨1 / 10000, 0⟩ 0 with is_initialized_ := true } : FusionEKF ℝ)
    (laser 125000 0 0) rfl hF anticorrelated_posSemidef
  exact ⟨rfl, hF, anticorrelated_posSemidef, h.2.1⟩

/-- C13, as stated, fails: a RUNNING filter with the constructor's `F_`,
previous timestamp 0 and the symmetric positive-semidefinite covariance
`[[100,0,−100,0],[0,0,0,0],[−100,0,100,0],[0,0,0,0]]` (trace 200) receives an
observation at `t = 125,000` (`dt = 0.125 ≥ 0`, a `float`); the predicted
covariance `F·P·Fᵀ + Q` has trace `1448713/8192 = 176.8448… < 200`. -/
theorem C13_prediction_trace_counterexample :
    ({ FusionEKF.new
          (⟨0, !![100, 0, -100, 0; 0, 0, 0, 0; -100, 0, 100, 0; 0, 0, 0, 0],
            !![1, 0, 1, 0; 0, 1, 0, 1; 0, 0, 1, 0; 0, 0, 0, 1], 0, 0, 0, 0⟩ : KalmanFilter ℝ)
          ⟨1 / 10000, 0⟩ 0 with is_initialized_ := true } : FusionEKF ℝ).is_initialized_ = true
    ∧ ({ FusionEKF.new
          (⟨0, !![100, 0, -100, 0; 0, 0, 0, 0; -100, 0, 100, 0; 0, 0, 0, 0],
            !![1, 0, 1, 0; 0, 1, 0, 1; 0, 0, 1, 0; 0, 0, 0, 1], 0, 0, 0, 0⟩ : KalmanFilter ℝ)
          ⟨1 / 10000, 0⟩ 0 with is_initialized_ := true } : FusionEKF ℝ).ekf_.P_.PosSemidef
    ∧ ({ FusionEKF.new
          (⟨0, !![100, 0, -100, 0; 0, 0, 0, 0; -100, 0, 100, 0; 0, 0, 0, 0],
            !![1, 0, 1, 0; 0, 1, 0, 1; 0, 0, 1, 0; 0, 0, 0, 1], 0, 0, 0, 0⟩ : KalmanFilter ℝ)
          ⟨1 / 10000, 0⟩ 0 with is_initialized_ := true } : FusionEKF ℝ).elapsed
        (laser 125000 0 0) = 1 / 8
    ∧ ({ FusionEKF.new
          (⟨0, !![100, 0, -100, 0; 0, 0, 0, 0; -100, 0, 100, 0; 0, 0, 0, 0],
            !![1, 0, 1, 0; 0, 1, 0, 1; 0, 0, 1, 0; 0, 0, 0, 1], 0, 0, 0, 0⟩ : KalmanFilter ℝ)
          ⟨1 / 10000, 0⟩ 0 with is_initialized_ := true } : FusionEKF ℝ).ekf_.P_.trace = 200
    ∧ (({ FusionEKF.new
          (⟨0, !![100, 0, -100, 0; 0, 0, 0, 0; -100, 0, 100, 0; 0, 0, 0, 0],
            !![1, 0, 1, 0; 0, 1, 0, 1; 0, 0, 1, 0; 0, 0, 0, 1], 0, 0, 0, 0⟩ : KalmanFilter ℝ)
          ⟨1 / 10000, 0⟩ 0 with is_initialized_ := true } : FusionEKF ℝ).prediction
        (laser 125000 0 0)).ekf_.P_.trace = 1448713 / 8192
    ∧ (({ FusionEKF.new
          (⟨0, !![100, 0, -100, 0; 0, 0, 0, 0; -100, 0, 100, 0; 0, 0, 0, 0],
            !![1, 0, 1, 0; 0, 1, 0, 1; 0, 0, 1, 0; 0, 0, 0, 1], 0, 0, 0, 0⟩ : KalmanFilter ℝ)
          ⟨1 / 10000, 0⟩ 0 with is_initialized_ := true } : FusionEKF ℝ).prediction
        (laser 125000 0 0)).ekf_.P_.trace
      < ({ FusionEKF.new
          (⟨0, !![100, 0, -100, 0; 0, 0, 0, 0; -100, 0, 100, 0; 0, 0, 0, 0],
            !![1, 0, 1, 0; 0, 1, 0, 1; 0, 0, 1, 0; 0, 0, 0, 1], 0, 0, 0, 0⟩ : KalmanFilter ℝ)
          ⟨1 / 10000, 0⟩ 0 with is_initialized_ := true } : FusionEKF ℝ).ekf_.P_.trace := by
  have hF : TransitionShape
      (!![1, 0, 1, 0; 0, 1, 0, 1; 0, 0, 1, 0; 0, 0, 0, 1] : Matrix (Fin 4) (Fin 4) ℝ) := by
    have h := transitionShape_new_F (⟨0, 0, 0, 0, 0, 0, 0⟩ : KalmanFilter ℝ) ⟨1 / 10000, 0⟩ 0
    rwa [new_F] at h
  have hdt : ({ FusionEKF.new
          (⟨0, !![100, 0, -100, 0; 0, 0, 0, 0; -100, 0, 100, 0; 0, 0, 0, 0],
            !![1, 0, 1, 0; 0, 1, 0, 1; 0, 0, 1, 0; 0, 0, 0, 1], 0, 0, 0, 0⟩ : KalmanFilter ℝ)
          ⟨1 / 10000, 0⟩ 0 with is_initialized_ := true } : FusionEKF ℝ).elapsed
        (laser 125000 0 0) = 1 / 8 := by
    apply elapsed_of_sub_eq_125000
    norm_num [FusionEKF.new, laser]
  have hQ : (({ FusionEKF.new
          (⟨0, !![100, 0, -100, 0; 0, 0, 0, 0; -100, 0, 100, 0; 0, 0, 0, 0],
            !![1, 0, 1, 0; 0, 1, 0, 1; 0, 0, 1, 0; 0, 0, 0, 1], 0, 0, 0, 0⟩ : KalmanFilter ℝ)
          ⟨1 / 10000, 0⟩ 0 with is_initialized_ := true } : FusionEKF ℝ).beforePredict
        (laser 125000 0 0)).ekf_.Q_.trace = 2313 / 8192 := by
    rw [beforePredict_Q_of_exact _ _ (by rw [hdt]; exact exactNoise_eighth), hdt]
    simp [Matrix.trace, Fin.sum_univ_four, Matrix.vecHead, Matrix.vecTail]
    norm_num
  have h0 : ({ FusionEKF.new
          (⟨0, !![100, 0, -100, 0; 0, 0, 0, 0; -100, 0, 100, 0; 0, 0, 0, 0],
            !![1, 0, 1, 0; 0, 1, 0, 1; 0, 0, 1, 0; 0, 0, 0, 1], 0, 0, 0, 0⟩ : KalmanFilter ℝ)
          ⟨1 / 10000, 0⟩ 0 with is_initialized_ := true } : FusionEKF ℝ).ekf_.P_.trace = 200 := by
    simp [FusionEKF.new, Matrix.trace, Fin.sum_univ_four, Matrix.vecHead, Matrix.vecTail]
    norm_num
  have h1 : (({ FusionEKF.new
          (⟨0, !![100, 0, -100, 0; 0, 0, 0, 0; -100, 0, 100, 0; 0, 0, 0, 0],
            !![1, 0, 1, 0; 0, 1, 0, 1; 0, 0, 1, 0; 0, 0, 0, 1], 0, 0, 0, 0⟩ : KalmanFilter ℝ)
          ⟨1 / 10000, 0⟩ 0 with is_initialized_ := true } : FusionEKF ℝ).prediction
        (laser 125000 0 0)).ekf_.P_.trace = 1448713 / 8192 := by
    rw [prediction_trace _ _ hF, hQ, hdt, h0]
    simp [FusionEKF.new, Matrix.vecHead, Matrix.vecTail]
    norm_num
  refine ⟨rfl, anticorrelated_posSemidef, hdt, h0, h1, ?_⟩
  rw [h1, h0]
  norm_num

/-! ## The linear update on a positive-semidefinite covariance -/

section UpdateAlgebra

variable {n : Nat}

/-- On real matrices the adjugate-over-determinant inverse is the matrix
inverse. -/
lemma inverse_eq_inv (S : Matrix (Fin n) (Fin n) ℝ) : inverse S = S⁻¹ := by
  rw [inverse, Matrix.inv_def, Ring.inverse_eq_inv']

/-- The innovation covariance `H·P·Hᵀ + R` is positive-definite when `P` is
positive-semidefinite and `R` positive-definite. -/
lemma innovationCov_posDef {P : Matrix (Fin 4) (Fin 4) ℝ} (H : Matrix (Fin n) (Fin 4) ℝ)
    {R : Matrix (Fin n) (Fin n) ℝ} (hP : P.PosSemidef) (hR : R.PosDef) :
    (H * P * H.transpose + R).PosDef := by
  have h := hP.mul_mul_conjTranspose_same H
  rw [Matrix.conjTranspose_eq_transpose_of_trivial] at h
  exact Matrix.PosDef.posSemidef_add h hR

/-- The gain times the innovation covariance is `P·Hᵀ`. -/
lemma gain_mul_innovationCov {P : Matrix (Fin 4) (Fin 4) ℝ} (H : Matrix (Fin n) (Fin 4) ℝ)
    {R : Matrix (Fin n) (Fin n) ℝ} (hP : P.PosSemidef) (hR : R.PosDef) :
    P * H.transpose * inverse (H * P * H.transpose + R) * (H * P * H.transpose + R)
      = P * H.transpose := by
  rw [inverse_eq_inv]
  exact Matrix.nonsing_inv_mul_cancel_right _ _ (innovationCov_posDef H hP hR).det_pos.ne'.isUnit

/-- The posterior covariance `(I − K·H)·P` in Joseph form. -/
lemma joseph_form {P : Matrix (Fin 4) (Fin 4) ℝ} (H : Matrix (Fin n) (Fin 4) ℝ)
    {R : Matrix (Fin n) (Fin n) ℝ} (hP : P.PosSemidef) (hR : R.PosDef) :
    (1 - P * H.transpose * inverse (H * P * H.transpose + R) * H) * P
      = (1 - P * H.transpose * inverse (H * P * H.transpose + R) * H) * P
          * (1 - P * H.transpose * inverse (H * P * H.transpose + R) * H).transpose
        + P * H.transpose * inverse (H * P * H.transpose + R) * R
          * (P * H.transpose * inverse (H * P * H.transpose + R)).transpose := by
  have hK := gain_mul_innovationCov H hP hR
  generalize P * H.transpose * inverse (H * P * H.transpose + R) = Kg at hK ⊢
  have hKR : Kg * R = (1 - Kg * H) * P * H.transpose := by
    have e : Kg * (H * P * H.transpose + R) = Kg * H * P * H.transpose + Kg * R := by
      rw [Matrix.mul_add]; simp only [Matrix.mul_assoc]
    rw [e] at hK
    rw [Matrix.sub_mul, Matrix.sub_mul, Matrix.one_mul, ← hK]
    abel
  rw [hKR, Matrix.transpose_sub, Matrix.transpose_one, Matrix.transpose_mul, Matrix.mul_sub,
    Matrix.mul_one]
  simp only [Matrix.mul_assoc]
  abel

/-- The linear update keeps the covariance positive-semidefinite. -/
lemma applyInnovation_posSemidef (kf : KalmanFilter ℝ) (y : Fin kf.m → ℝ)
    (hP : kf.P_.PosSemidef) (hR : kf.R_.PosDef) : (kf.applyInnovation y).P_.PosSemidef := by
  have e : (kf.applyInnovation y).P_
      = (1 - kf.P_ * kf.H_.transpose * inverse (kf.H_ * kf.P_ * kf.H_.transpose + kf.R_) * kf.H_)
          * kf.P_ := rfl
  rw [e, joseph_form kf.H_ hP hR]
  have h1 := hP.mul_mul_conjTranspose_same
    (1 - kf.P_ * kf.H_.transpose * inverse (kf.H_ * kf.P_ * kf.H_.transpose + kf.R_) * kf.H_)
  have h2 := hR.posSemidef.mul_mul_conjTranspose_same
    (kf.P_ * kf.H_.transpose * inverse (kf.H_ * kf.P_ * kf.H_.transpose + kf.R_))
  rw [Matrix.conjTranspose_eq_transpose_of_trivial] at h1 h2
  exact h1.add h2

/-- The trace of a positive-semidefinite real matrix is non-negative. -/
lemma posSemidef_trace_nonneg {P : Matrix (Fin n) (Fin n) ℝ} (hP : P.PosSemidef) :
    0 ≤ P.trace :=
  Finset.sum_nonneg fun i _ => posSemidef_diag_nonneg hP i

/-- The linear update does not raise the trace of the covariance. -/
lemma applyInnovation_trace_le (kf : KalmanFilter ℝ) (y : Fin kf.m → ℝ)
    (hP : kf.P_.PosSemidef) (hR : kf.R_.PosDef) :
    (kf.applyInnovation y).P_.trace ≤ kf.P_.trace := by
  have e : (kf.applyInnovation y).P_
      = kf.P_ - (kf.H_ * kf.P_).transpose
          * inverse (kf.H_ * kf.P_ * kf.H_.transpose + kf.R_) * (kf.H_ * kf.P_) := by
    have hPt : kf.P_.transpose = kf.P_ := by
      have h := hP.1
      rwa [Matrix.IsHermitian, Matrix.conjTranspose_eq_transpose_of_trivial] at h
    have e0 : (kf.applyInnovation y).P_
        = (1 - kf.P_ * kf.H_.transpose * inverse (kf.H_ * kf.P_ * kf.H_.transpose + kf.R_) * kf.H_)
            * kf.P_ := rfl
    rw [e0, Matrix.sub_mul, Matrix.one_mul, Matrix.transpose_mul, hPt]
    simp only [Matrix.mul_assoc]
  have hS := (innovationCov_posDef kf.H_ hP hR).inv.posSemidef
  have h := hS.conjTranspose_mul_mul_same (kf.H_ * kf.P_)
  rw [Matrix.conjTranspose_eq_transpose_of_trivial, ← inverse_eq_inv] at h
  have ht := posSemidef_trace_nonneg h
  rw [e, Matrix.trace_sub]
  linarith

/-- The lidar noise covariance `diag(0.0225, 0.0225)` is positive-definite. -/
lemma R_laser_posDef :
    (!![0.0225, 0; 0, 0.0225] : Matrix (Fin 2) (Fin 2) ℝ).PosDef := by
  refine ⟨?_, fun x hx => ?_⟩
  · rw [Matrix.IsHermitian, Matrix.conjTranspose_eq_transpose_of_trivial]
    ext i j
    fin_cases i <;> fin_cases j <;> rfl
  · have e : star x ⬝ᵥ (!![0.0225, 0; 0, 0.0225] : Matrix (Fin 2) (Fin 2) ℝ) *ᵥ x
        = 0.0225 * (x 0 ^ 2 + x 1 ^ 2) := by
      simp [Matrix.mulVec, Matrix.dotProduct, Fin.sum_univ_two, Matrix.vecHead, Matrix.vecTail]
      ring
    rw [e]
    have hne : x 0 ≠ 0 ∨ x 1 ≠ 0 := by
      by_contra hcon
      push_neg at hcon
      apply hx
      ext i
      fin_cases i
      · exact hcon.1
      · exact hcon.2
    rcases hne with h0 | h1
    · have h2 := sq_nonneg (x 1)
      have h3 := sq_pos_of_ne_zero h0
      nlinarith
    · have h2 := sq_nonneg (x 0)
      have h3 := sq_pos_of_ne_zero h1
      nlinarith

end UpdateAlgebra

/-- A positive-semidefinite real matrix is symmetric. -/
lemma posSemidef_isSymm {n : Nat} {P : Matrix (Fin n) (Fin n) ℝ} (hP : P.PosSemidef) :
    P.IsSymm := by
  have h := hP.1
  rwa [Matrix.IsHermitian, Matrix.conjTranspose_eq_transpose_of_trivial] at h

/-- The update section on an observation tagged LASER. -/
lemma update_of_laser (L : Libm K) (s : FusionEKF K) (mp : MeasurementPackage K)
    (hl : mp.sensor_type_ = SensorType.LASER) :
    (s.update L mp).ekf_
      = KalmanFilter.Update { s.ekf_ with m := 2, H_ := s.H_laser_, R_ := s.R_laser_ }
          mp.raw_measurements_ := by
  simp [FusionEKF.update, hl]

/-- The prediction section keeps the covariance positive-semidefinite when
the step's process noise is positive-semidefinite. -/
lemma prediction_posSemidef (s : FusionEKF ℝ) (mp : MeasurementPackage ℝ)
    (hP : s.ekf_.P_.PosSemidef) (hQ : (s.beforePredict mp).ekf_.Q_.PosSemidef) :
    (s.prediction mp).ekf_.P_.PosSemidef := by
  have e : (s.prediction mp).ekf_.P_
      = (s.beforePredict mp).ekf_.F_ * s.ekf_.P_ * (s.beforePredict mp).ekf_.F_.transpose
          + (s.beforePredict mp).ekf_.Q_ := rfl
  have h1 := hP.mul_mul_conjTranspose_same (s.beforePredict mp).ekf_.F_
  rw [Matrix.conjTranspose_eq_transpose_of_trivial] at h1
  rw [e]
  exact h1.add hQ

/-- The update section on a LASER observation keeps the covariance
positive-semidefinite and does not raise its trace. -/
lemma update_laser_posSemidef (L : Libm ℝ) (s : FusionEKF ℝ) (mp : MeasurementPackage ℝ)
    (hl : mp.sensor_type_ = SensorType.LASER) (hP : s.ekf_.P_.PosSemidef)
    (hR : s.R_laser_.PosDef) :
    (s.update L mp).ekf_.P_.PosSemidef ∧ (s.update L mp).ekf_.P_.trace ≤ s.ekf_.P_.trace := by
  rw [update_of_laser L s mp hl]
  exact ⟨applyInnovation_posSemidef
      ({ s.ekf_ with m := 2, H_ := s.H_laser_, R_ := s.R_laser_ } : KalmanFilter ℝ) _ hP hR,
    applyInnovation_trace_le
      ({ s.ekf_ with m := 2, H_ := s.H_laser_, R_ := s.R_laser_ } : KalmanFilter ℝ) _ hP hR⟩

/-- A RUNNING LASER step keeps the covariance positive-semidefinite when its
process noise is positive-semidefinite. -/
lemma laserStep_posSemidef (L : Libm ℝ) (s : FusionEKF ℝ) (mp : MeasurementPackage ℝ)
    (h : s.is_initialized_ = true) (hl : mp.sensor_type_ = SensorType.LASER)
    (hP : s.ekf_.P_.PosSemidef) (hR : s.R_laser_.PosDef)
    (hQ : (s.beforePredict mp).ekf_.Q_.PosSemidef) :
    (s.ProcessMeasurement L mp).ekf_.P_.PosSemidef := by
  rw [processMeasurement_of_initialized L s mp h]
  exact (update_laser_posSemidef L (s.prediction mp) mp hl
    (prediction_posSemidef s mp hP hQ) hR).1

/-- A run of LASER observations from a RUNNING state keeps the covariance
positive-semidefinite when the process noise of every step is
positive-semidefinite. -/
lemma laserRun_posSemidef (L : Libm ℝ) (ms : List (MeasurementPackage ℝ)) (s : FusionEKF ℝ)
    (h : s.is_initialized_ = true) (hP : s.ekf_.P_.PosSemidef) (hR : s.R_laser_.PosDef)
    (hl : ∀ mp ∈ ms, mp.sensor_type_ = SensorType.LASER)
    (hQ : ∀ (pre : List (MeasurementPackage ℝ)) (m : MeasurementPackage ℝ)
      (post : List (MeasurementPackage ℝ)), ms = pre ++ m :: post →
        ((s.run L pre).beforePredict m).ekf_.Q_.PosSemidef) :
    (s.run L ms).ekf_.P_.PosSemidef := by
  induction ms generalizing s with
  | nil => exact hP
  | cons mp ms ih =>
    refine ih (s.ProcessMeasurement L mp) (processMeasurement_is_initialized L s mp)
      (laserStep_posSemidef L s mp h (hl mp (List.mem_cons_self _ _)) hP hR
        (hQ [] mp ms rfl)) ?_
      (fun q hq => hl q (List.mem_cons_of_mem _ hq)) ?_
    · rw [(processMeasurement_members L s mp).2.2.2.1]
      exact hR
    · intro pre m post hms
      exact hQ (mp :: pre) m post (by rw [hms]; rfl)

/-- A lidar-only session from a fresh filter has a positive-semidefinite
covariance after every call, when the process noise of every step is
positive-semidefinite. -/
lemma laserSession_posSemidef (L : Libm ℝ) (ekf0 : KalmanFilter ℝ) (tools0 : Tools ℝ)
    (Hj0 : Matrix (Fin 3) (Fin 4) ℝ) (m0 : MeasurementPackage ℝ)
    (ms : List (MeasurementPackage ℝ))
    (hl : ∀ mp ∈ m0 :: ms, mp.sensor_type_ = SensorType.LASER)
    (hQ : ∀ (pre : List (MeasurementPackage ℝ)) (m : MeasurementPackage ℝ)
      (post : List (MeasurementPackage ℝ)), ms = pre ++ m :: post →
        (((FusionEKF.new ekf0 tools0 Hj0).run L (m0 :: pre)).beforePredict m).ekf_.Q_.PosSemidef) :
    ((FusionEKF.new ekf0 tools0 Hj0).run L (m0 :: ms)).ekf_.P_.PosSemidef := by
  have hR : ((FusionEKF.new ekf0 tools0 Hj0).ProcessMeasurement L m0).R_laser_.PosDef := by
    rw [(processMeasurement_members L _ m0).2.2.2.1]
    exact R_laser_posDef
  have hP : ((FusionEKF.new ekf0 tools0 Hj0).ProcessMeasurement L m0).ekf_.P_.PosSemidef := by
    rw [processMeasurement_new, (initialization_fields L _ m0).2.2.1, new_P]
    exact Matrix.PosSemidef.one
  exact laserRun_posSemidef L ms _ (processMeasurement_is_initialized L _ m0) hP hR
    (fun q hq => hl q (List.mem_cons_of_mem _ hq)) hQ

/-- The adjugate-over-determinant inverse of a symmetric matrix is
symmetric. -/
lemma inverse_isSymm {n : Nat} (S : Matrix (Fin n) (Fin n) K) (hS : S.IsSymm) :
    (inverse S).IsSymm := by
  unfold inverse
  rw [Matrix.IsSymm, Matrix.transpose_smul, Matrix.adjugate_transpose, hS.eq]

/-- The update recursion keeps a symmetric covariance symmetric, whatever the
gain's denominator. -/
lemma applyInnovation_isSymm (kf : KalmanFilter K) (y : Fin kf.m → K)
    (hP : kf.P_.IsSymm) (hR : kf.R_.IsSymm) : (kf.applyInnovation y).P_.IsSymm := by
  have e : (kf.applyInnovation y).P_
      = (1 - kf.P_ * kf.H_.transpose * inverse (kf.H_ * kf.P_ * kf.H_.transpose + kf.R_) * kf.H_)
          * kf.P_ := rfl
  have hS : (kf.H_ * kf.P_ * kf.H_.transpose + kf.R_).IsSymm := by
    rw [Matrix.IsSymm, Matrix.transpose_add, Matrix.transpose_mul, Matrix.transpose_mul,
      Matrix.transpose_transpose, hP.eq, hR.eq, Matrix.mul_assoc]
  have hi := inverse_isSymm _ hS
  rw [e, Matrix.IsSymm, Matrix.transpose_mul, Matrix.transpose_sub, Matrix.transpose_one,
    Matrix.transpose_mul, Matrix.transpose_mul, Matrix.transpose_mul, Matrix.transpose_transpose,
    hP.eq, hi.eq, Matrix.mul_sub, Matrix.sub_mul, Matrix.mul_one, Matrix.one_mul]
  simp only [Matrix.mul_assoc]

/-- The prediction section keeps a symmetric covariance symmetric, for every
elapsed time. -/
lemma prediction_isSymm (s : FusionEKF K) (mp : MeasurementPackage K)
    (hP : s.ekf_.P_.IsSymm) : (s.prediction mp).ekf_.P_.IsSymm := by
  have e : (s.prediction mp).ekf_.P_
      = (s.beforePredict mp).ekf_.F_ * s.ekf_.P_ * (s.beforePredict mp).ekf_.F_.transpose
          + (s.beforePredict mp).ekf_.Q_ := rfl
  have h1 : ((s.beforePredict mp).ekf_.F_ * s.ekf_.P_
      * (s.beforePredict mp).ekf_.F_.transpose).IsSymm := by
    rw [Matrix.IsSymm, Matrix.transpose_mul, Matrix.transpose_mul, Matrix.transpose_transpose,
      hP.eq, Matrix.mul_assoc]
  rw [e]
  exact h1.add (beforePredict_Q_isSymm s mp)

/-- A RUNNING LASER step keeps a symmetric covariance symmetric, for every
elapsed time. -/
lemma laserStep_isSymm (L : Libm K) (s : FusionEKF K) (mp : MeasurementPackage K)
    (h : s.is_initialized_ = true) (hl : mp.sensor_type_ = SensorType.LASER)
    (hP : s.ekf_.P_.IsSymm) (hR : s.R_laser_.IsSymm) :
    (s.ProcessMeasurement L mp).ekf_.P_.IsSymm := by
  rw [processMeasurement_of_initialized L s mp h, update_of_laser L _ mp hl]
  exact applyInnovation_isSymm
    ({ (s.prediction mp).ekf_ with
        m := 2
        H_ := (s.prediction mp).H_laser_
        R_ := (s.prediction mp).R_laser_ } : KalmanFilter K) _ (prediction_isSymm s mp hP) hR

/-- A run of LASER observations from a RUNNING state keeps a symmetric
covariance symmetric. -/
lemma laserRun_isSymm (L : Libm K) (ms : List (MeasurementPackage K)) (s : FusionEKF K)
    (h : s.is_initialized_ = true) (hP : s.ekf_.P_.IsSymm) (hR : s.R_laser_.IsSymm)
    (hl : ∀ mp ∈ ms, mp.sensor_type_ = SensorType.LASER) :
    (s.run L ms).ekf_.P_.IsSymm := by
  induction ms generalizing s with
  | nil => exact hP
  | cons mp ms ih =>
    refine ih (s.ProcessMeasurement L mp) (processMeasurement_is_initialized L s mp)
      (laserStep_isSymm L s mp h (hl mp (List.mem_cons_self _ _)) hP hR) ?_
      (fun q hq => hl q (List.mem_cons_of_mem _ hq))
    rw [(processMeasurement_members L s mp).2.2.2.1]
    exact hR

/-- A lidar-only session from a fresh filter has a symmetric covariance after
every call. -/
lemma laserSession_isSymm (L : Libm ℝ) (ekf0 : KalmanFilter ℝ) (tools0 : Tools ℝ)
    (Hj0 : Matrix (Fin 3) (Fin 4) ℝ) (m0 : MeasurementPackage ℝ)
    (ms : List (MeasurementPackage ℝ))
    (hl : ∀ mp ∈ m0 :: ms, mp.sensor_type_ = SensorType.LASER) :
    ((FusionEKF.new ekf0 tools0 Hj0).run L (m0 :: ms)).ekf_.P_.IsSymm := by
  have hR : ((FusionEKF.new ekf0 tools0 Hj0).ProcessMeasurement L m0).R_laser_.IsSymm := by
    rw [(processMeasurement_members L _ m0).2.2.2.1]
    exact posSemidef_isSymm R_laser_posDef.posSemidef
  have hP : ((FusionEKF.new ekf0 tools0 Hj0).ProcessMeasurement L m0).ekf_.P_.IsSymm := by
    rw [processMeasurement_new, (initialization_fields L _ m0).2.2.1, new_P]
    exact Matrix.isSymm_one
  exact laserRun_isSymm L ms _ (processMeasurement_is_initialized L _ m0) hP hR
    (fun q hq => hl q (List.mem_cons_of_mem _ hq))

/-- C11: for every symmetric positive-semidefinite prior covariance `P`, every
measurement-transform `H` (of full row rank or not) and every
positive-definite `R`, the posterior covariance of the linear update is
`(I − K·H)·P` with `K = P·Hᵀ·(H·P·Hᵀ + R)⁻¹`, and its trace is at most the trace
of `P`. In particular the update section of `ProcessMeasurement` on a LASER
observation, with the noise `diag(0.0225, 0.0225)` that the orchestrator
assigns, does not raise the trace of a positive-semidefinite covariance. -/
theorem C11_linear_update_trace_not_increased (kf : KalmanFilter ℝ) (z : List ℝ)
    (hP : kf.P_.PosSemidef) (hR : kf.R_.PosDef)
    (L : Libm ℝ) (s : FusionEKF ℝ) (t : Int) (zl : List ℝ)
    (hRl : s.R_laser_ = !![0.0225, 0; 0, 0.0225]) (hPs : s.ekf_.P_.PosSemidef) :
    (kf.Update z).P_
      = (1 - kf.P_ * kf.H_.transpose * (kf.H_ * kf.P_ * kf.H_.transpose + kf.R_)⁻¹ * kf.H_)
          * kf.P_
    ∧ (kf.Update z).P_.trace ≤ kf.P_.trace
    ∧ (s.update L ⟨t, SensorType.LASER, zl⟩).ekf_.P_.trace ≤ s.ekf_.P_.trace := by
  refine ⟨?_, applyInnovation_trace_le kf _ hP hR, ?_⟩
  · rw [← inverse_eq_inv]
    rfl
  · exact (update_laser_posSemidef L s ⟨t, SensorType.LASER, zl⟩ rfl hPs
      (by rw [hRl]; exact R_laser_posDef)).2

/-- C11 at a concrete input: the filter that a first observation
`LASER t=0 (1, 1)` leaves behind holds the identity covariance and the lidar
noise; a linear update with the measurement `(2, 1)` does not raise the trace,
neither directly nor through the update section of the orchestrator. -/
theorem C11_linear_update_trace_not_increased_witness :
    ((FusionEKF.new (⟨0, 0, 0, 0, 0, 0, 0⟩ : KalmanFilter ℝ) ⟨1 / 10000, 0⟩ 0).ProcessMeasurement
        ⟨Real.pi, Real.cos, Real.sin, Real.sqrt, fun y x => (Complex.mk x y).arg⟩
        (laser 0 1 1)).ekf_.P_.PosSemidef
    ∧ ((FusionEKF.new (⟨0, 0, 0, 0, 0, 0, 0⟩ : KalmanFilter ℝ) ⟨1 / 10000, 0⟩ 0).ProcessMeasurement
        ⟨Real.pi, Real.cos, Real.sin, Real.sqrt, fun y x => (Complex.mk x y).arg⟩
        (laser 0 1 1)).ekf_.R_.PosDef
    ∧ ((FusionEKF.new (⟨0, 0, 0, 0, 0, 0, 0⟩ : KalmanFilter ℝ) ⟨1 / 10000, 0⟩ 0).ProcessMeasurement
        ⟨Real.pi, Real.cos, Real.sin, Real.sqrt, fun y x => (Complex.mk x y).arg⟩
        (laser 0 1 1)).R_laser_ = !![0.0225, 0; 0, 0.0225]
    ∧ (((FusionEKF.new (⟨0, 0, 0, 0, 0, 0, 0⟩ : KalmanFilter ℝ) ⟨1 / 10000, 0⟩ 0).ProcessMeasurement
        ⟨Real.pi, Real.cos, Real.sin, Real.sqrt, fun y x => (Complex.mk x y).arg⟩
        (laser 0 1 1)).ekf_.Update [2, 1]).P_.trace
      ≤ ((FusionEKF.new (⟨0, 0, 0, 0, 0, 0, 0⟩ : KalmanFilter ℝ) ⟨1 / 10000, 0⟩ 0).ProcessMeasurement
        ⟨Real.pi, Real.cos, Real.sin, Real.sqrt, fun y x => (Complex.mk x y).arg⟩
        (laser 0 1 1)).ekf_.P_.trace
    ∧ (FusionEKF.update
        ⟨Real.pi, Real.cos, Real.sin, Real.sqrt, fun y x => (Complex.mk x y).arg⟩
        ((FusionEKF.new (⟨0, 0, 0, 0, 0, 0, 0⟩ : KalmanFilter ℝ) ⟨1 / 10000, 0⟩ 0).ProcessMeasurement
          ⟨Real.pi, Real.cos, Real.sin, Real.sqrt, fun y x => (Complex.mk x y).arg⟩
          (laser 0 1 1))
        ⟨0, SensorType.LASER, [2, 1]⟩).ekf_.P_.trace
      ≤ ((FusionEKF.new (⟨0, 0, 0, 0, 0, 0, 0⟩ : KalmanFilter ℝ) ⟨1 / 10000, 0⟩ 0).ProcessMeasurement
        ⟨Real.pi, Real.cos, Real.sin, Real.sqrt, fun y x => (Complex.mk x y).arg⟩
        (laser 0 1 1)).ekf_.P_.trace := by
  have hs := scenario_init
    ⟨Real.pi, Real.cos, Real.sin, Real.sqrt, fun y x => (Complex.mk x y).arg⟩
    (⟨0, 0, 0, 0, 0, 0, 0⟩ : KalmanFilter ℝ) ⟨1 / 10000, 0⟩ 0
  have hP : ((FusionEKF.new (⟨0, 0, 0, 0, 0, 0, 0⟩ : KalmanFilter ℝ)
      ⟨1 / 10000, 0⟩ 0).ProcessMeasurement
        ⟨Real.pi, Real.cos, Real.sin, Real.sqrt, fun y x => (Complex.mk x y).arg⟩
        (laser 0 1 1)).ekf_.P_.PosSemidef := by
    rw [hs]; exact Matrix.PosSemidef.one
  have hR : ((FusionEKF.new (⟨0, 0, 0, 0, 0, 0, 0⟩ : KalmanFilter ℝ)
      ⟨1 / 10000, 0⟩ 0).ProcessMeasurement
        ⟨Real.pi, Real.cos, Real.sin, Real.sqrt, fun y x => (Complex.mk x y).arg⟩
        (laser 0 1 1)).ekf_.R_.PosDef := by
    rw [hs]; exact R_laser_posDef
  have hRl : ((FusionEKF.new (⟨0, 0, 0, 0, 0, 0, 0⟩ : KalmanFilter ℝ)
      ⟨1 / 10000, 0⟩ 0).ProcessMeasurement
        ⟨Real.pi, Real.cos, Real.sin, Real.sqrt, fun y x => (Complex.mk x y).arg⟩
        (laser 0 1 1)).R_laser_ = !![0.0225, 0; 0, 0.0225] :=
    (processMeasurement_members _ _ _).2.2.2.1
  have h := C11_linear_update_trace_not_increased
    ((FusionEKF.new (⟨0, 0, 0, 0, 0, 0, 0⟩ : KalmanFilter ℝ) ⟨1 / 10000, 0⟩ 0).ProcessMeasurement
        ⟨Real.pi, Real.cos, Real.sin, Real.sqrt, fun y x => (Complex.mk x y).arg⟩
        (laser 0 1 1)).ekf_
    [2, 1] hP hR
    ⟨Real.pi, Real.cos, Real.sin, Real.sqrt, fun y x => (Complex.mk x y).arg⟩
    ((FusionEKF.new (⟨0, 0, 0, 0, 0, 0, 0⟩ : KalmanFilter ℝ) ⟨1 / 10000, 0⟩ 0).ProcessMeasurement
        ⟨Real.pi, Real.cos, Real.sin, Real.sqrt, fun y x => (Complex.mk x y).arg⟩
        (laser 0 1 1))
    0 [2, 1] hRl hP
  exact ⟨hP, hR, hRl, h.2.1, h.2.2⟩

/-- C12 (amended): on a RUNNING LASER step, for every symmetric
positive-semidefinite covariance `P` before the call and every elapsed time,
the covariance after the prediction (`F·P·Fᵀ + Q` with the orchestrator's `F`
and `Q`) and after the subsequent linear update (with the lidar `H` and `R`) is
again symmetric; it is again positive-semidefinite when the process noise `Q`
that the step recomputes is positive-semidefinite. Hence in a lidar-only
session started on a fresh filter (identity covariance) the covariance is
symmetric after every call, and positive-semidefinite after every call when
the process noise of every step is positive-semidefinite. The process noise
is positive-semidefinite wherever no `float` operation of lines 122–130
rounds. -/
theorem C12_covariance_stays_positive_semidefinite (L : Libm ℝ) (s : FusionEKF ℝ) (t : Int)
    (z : List ℝ) (h : s.is_initialized_ = true) (hP : s.ekf_.P_.PosSemidef)
    (hRl : s.R_laser_ = !![0.0225, 0; 0, 0.0225])
    (ekf0 : KalmanFilter ℝ) (tools0 : Tools ℝ) (Hj0 : Matrix (Fin 3) (Fin 4) ℝ)
    (m0 : MeasurementPackage ℝ) (ms : List (MeasurementPackage ℝ))
    (hl : ∀ mp ∈ m0 :: ms, mp.sensor_type_ = SensorType.LASER) :
    ((s.prediction ⟨t, SensorType.LASER, z⟩).ekf_.P_.IsSymm
      ∧ (s.ProcessMeasurement L ⟨t, SensorType.LASER, z⟩).ekf_.P_.IsSymm
      ∧ ((FusionEKF.new ekf0 tools0 Hj0).run L (m0 :: ms)).ekf_.P_.IsSymm)
    ∧ ((s.beforePredict ⟨t, SensorType.LASER, z⟩).ekf_.Q_.PosSemidef →
        (s.prediction ⟨t, SensorType.LASER, z⟩).ekf_.P_.PosSemidef
        ∧ (s.ProcessMeasurement L ⟨t, SensorType.LASER, z⟩).ekf_.P_.PosSemidef)
    ∧ ((∀ (pre : List (MeasurementPackage ℝ)) (m : MeasurementPackage ℝ)
          (post : List (MeasurementPackage ℝ)), ms = pre ++ m :: post →
          (((FusionEKF.new ekf0 tools0 Hj0).run L (m0 :: pre)).beforePredict m).ekf_.Q_.PosSemidef) →
        ((FusionEKF.new ekf0 tools0 Hj0).run L (m0 :: ms)).ekf_.P_.PosSemidef)
    ∧ (∀ (s2 : FusionEKF ℝ) (mp2 : MeasurementPackage ℝ), ExactNoise (s2.elapsed mp2) →
        (s2.beforePredict mp2).ekf_.Q_.PosSemidef) := by
  have hR : s.R_laser_.PosDef := by rw [hRl]; exact R_laser_posDef
  have hPs := posSemidef_isSymm hP
  refine ⟨⟨prediction_isSymm s _ hPs,
      laserStep_isSymm L s ⟨t, SensorType.LASER, z⟩ h rfl hPs (posSemidef_isSymm hR.posSemidef),
      laserSession_isSymm L ekf0 tools0 Hj0 m0 ms hl⟩, ?_, ?_,
    beforePredict_Q_posSemidef_of_exact⟩
  · intro hQ
    exact ⟨prediction_posSemidef s ⟨t, SensorType.LASER, z⟩ hP hQ,
      laserStep_posSemidef L s ⟨t, SensorType.LASER, z⟩ h rfl hP hR hQ⟩
  · intro hQs
    exact laserSession_posSemidef L ekf0 tools0 Hj0 m0 ms hl hQs

/-- C12 (amended) at a concrete input: the lidar-only session
`[LASER t=0 (1, 1)]`, `[LASER t=1,000,000 (2, 1)]` on a fresh filter: after the
first call the filter is RUNNING with the identity covariance and the lidar
noise, the process noise of the second step (`dt = 1`) is
positive-semidefinite, and the covariance after the second call is symmetric
positive-semidefinite. -/
theorem C12_covariance_stays_positive_semidefinite_witness :
    ((FusionEKF.new (⟨0, 0, 0, 0, 0, 0, 0⟩ : KalmanFilter ℝ) ⟨1 / 10000, 0⟩ 0).ProcessMeasurement
        ⟨Real.pi, Real.cos, Real.sin, Real.sqrt, fun y x => (Complex.mk x y).arg⟩
        (laser 0 1 1)).is_initialized_ = true
    ∧ ((FusionEKF.new (⟨0, 0, 0, 0, 0, 0, 0⟩ : KalmanFilter ℝ) ⟨1 / 10000, 0⟩ 0).ProcessMeasurement
        ⟨Real.pi, Real.cos, Real.sin, Real.sqrt, fun y x => (Complex.mk x y).arg⟩
        (laser 0 1 1)).ekf_.P_.PosSemidef
    ∧ ((FusionEKF.new (⟨0, 0, 0, 0, 0, 0, 0⟩ : KalmanFilter ℝ) ⟨1 / 10000, 0⟩ 0).ProcessMeasurement
        ⟨Real.pi, Real.cos, Real.sin, Real.sqrt, fun y x => (Complex.mk x y).arg⟩
        (laser 0 1 1)).R_laser_ = !![0.0225, 0; 0, 0.0225]
    ∧ (∀ mp ∈ [(laser 0 1 1 : MeasurementPackage ℝ), laser 1000000 2 1],
        mp.sensor_type_ = SensorType.LASER)
    ∧ (((FusionEKF.new (⟨0, 0, 0, 0, 0, 0, 0⟩ : KalmanFilter ℝ) ⟨1 / 10000, 0⟩ 0).ProcessMeasurement
        ⟨Real.pi, Real.cos, Real.sin, Real.sqrt, fun y x => (Complex.mk x y).arg⟩
        (laser 0 1 1)).beforePredict
        ⟨1000000, SensorType.LASER, [2, 1]⟩).ekf_.Q_.PosSemidef
    ∧ (((FusionEKF.new (⟨0, 0, 0, 0, 0, 0, 0⟩ : KalmanFilter ℝ) ⟨1 / 10000, 0⟩ 0).ProcessMeasurement
        ⟨Real.pi, Real.cos, Real.sin, Real.sqrt, fun y x => (Complex.mk x y).arg⟩
        (laser 0 1 1)).ProcessMeasurement
        ⟨Real.pi, Real.cos, Real.sin, Real.sqrt, fun y x => (Complex.mk x y).arg⟩
        ⟨1000000, SensorType.LASER, [2, 1]⟩).ekf_.P_.PosSemidef
    ∧ ((FusionEKF.new (⟨0, 0, 0, 0, 0, 0, 0⟩ : KalmanFilter ℝ) ⟨1 / 10000, 0⟩ 0).run
        ⟨Real.pi, Real.cos, Real.sin, Real.sqrt, fun y x => (Complex.mk x y).arg⟩
        [laser 0 1 1, laser 1000000 2 1]).ekf_.P_.IsSymm
    ∧ ((FusionEKF.new (⟨0, 0, 0, 0, 0, 0, 0⟩ : KalmanFilter ℝ) ⟨1 / 10000, 0⟩ 0).run
        ⟨Real.pi, Real.cos, Real.sin, Real.sqrt, fun y x => (Complex.mk x y).arg⟩
        [laser 0 1 1, laser 1000000 2 1]).ekf_.P_.PosSemidef := by
  have hs := scenario_init
    ⟨Real.pi, Real.cos, Real.sin, Real.sqrt, fun y x => (Complex.mk x y).arg⟩
    (⟨0, 0, 0, 0, 0, 0, 0⟩ : KalmanFilter ℝ) ⟨1 / 10000, 0⟩ 0
  have hP : ((FusionEKF.new (⟨0, 0, 0, 0, 0, 0, 0⟩ : KalmanFilter ℝ) ⟨1 / 10000, 0⟩ 0).ProcessMeasurement
        ⟨Real.pi, Real.cos, Real.sin, Real.sqrt, fun y x => (Complex.mk x y).arg⟩
        (laser 0 1 1)).ekf_.P_.PosSemidef := by
    rw [hs]; exact Matrix.PosSemidef.one
  have hRl : ((FusionEKF.new (⟨0, 0, 0, 0, 0, 0, 0⟩ : KalmanFilter ℝ) ⟨1 / 10000, 0⟩ 0).ProcessMeasurement
        ⟨Real.pi, Real.cos, Real.sin, Real.sqrt, fun y x => (Complex.mk x y).arg⟩
        (laser 0 1 1)).R_laser_ = !![0.0225, 0; 0, 0.0225] :=
    (processMeasurement_members _ _ _).2.2.2.1
  have hl : ∀ mp ∈ [(laser 0 1 1 : MeasurementPackage ℝ), laser 1000000 2 1],
      mp.sensor_type_ = SensorType.LASER := by
    intro mp hmp
    simp only [List.mem_cons, List.mem_singleton, List.not_mem_nil, or_false] at hmp
    rcases hmp with rfl | rfl <;> rfl
  have h := C12_covariance_stays_positive_semidefinite
    ⟨Real.pi, Real.cos, Real.sin, Real.sqrt, fun y x => (Complex.mk x y).arg⟩
    ((FusionEKF.new (⟨0, 0, 0, 0, 0, 0, 0⟩ : KalmanFilter ℝ) ⟨1 / 10000, 0⟩ 0).ProcessMeasurement
        ⟨Real.pi, Real.cos, Real.sin, Real.sqrt, fun y x => (Complex.mk x y).arg⟩
        (laser 0 1 1))
    1000000 [2, 1] rfl hP hRl ⟨0, 0, 0, 0, 0, 0, 0⟩ ⟨1 / 10000, 0⟩ 0
    (laser 0 1 1) [laser 1000000 2 1] hl
  have hQ : (((FusionEKF.new (⟨0, 0, 0, 0, 0, 0, 0⟩ : KalmanFilter ℝ) ⟨1 / 10000, 0⟩ 0).ProcessMeasurement
        ⟨Real.pi, Real.cos, Real.sin, Real.sqrt, fun y x => (Complex.mk x y).arg⟩
        (laser 0 1 1)).beforePredict
        ⟨1000000, SensorType.LASER, [2, 1]⟩).ekf_.Q_.PosSemidef := by
    apply h.2.2.2
    rw [elapsed_of_sub_eq_1000000 _ _
      (by rw [processMeasurement_previous_timestamp]; norm_num [laser])]
    exact exactNoise_one
  have hQs : ∀ (pre : List (MeasurementPackage ℝ)) (m : MeasurementPackage ℝ)
      (post : List (MeasurementPackage ℝ)), [(laser 1000000 2 1 : MeasurementPackage ℝ)]
        = pre ++ m :: post →
        (((FusionEKF.new (⟨0, 0, 0, 0, 0, 0, 0⟩ : KalmanFilter ℝ) ⟨1 / 10000, 0⟩ 0).run
          ⟨Real.pi, Real.cos, Real.sin, Real.sqrt, fun y x => (Complex.mk x y).arg⟩
          (laser 0 1 1 :: pre)).beforePredict m).ekf_.Q_.PosSemidef := by
    intro pre m post hms
    cases pre with
    | nil =>
      simp only [List.nil_append, List.cons.injEq] at hms
      rw [← hms.1]
      exact hQ
    | cons a pre =>
      simp only [List.cons_append, List.cons.injEq] at hms
      exact absurd hms.2 (by simp)
  exact ⟨rfl, hP, hRl, hl, hQ, (h.2.1 hQ).2, h.1.2.2, h.2.2.1 hQs⟩

/-- C12 as stated fails: a RUNNING filter with the constructor's `F_`, previous
timestamp 0 and the covariance `P = 0` (symmetric positive-semidefinite)
receives a lidar observation at `t = 100,000` (`dt = 0.1f`); the predicted
covariance `F·P·Fᵀ + Q` is the process noise of that step, which is not
positive-semidefinite. -/
theorem C12_covariance_counterexample :
    ({ FusionEKF.new
          (⟨0, 0, !![1, 0, 1, 0; 0, 1, 0, 1; 0, 0, 1, 0; 0, 0, 0, 1], 0, 0, 0, 0⟩ : KalmanFilter ℝ)
          ⟨1 / 10000, 0⟩ 0 with is_initialized_ := true } : FusionEKF ℝ).is_initialized_ = true
    ∧ ({ FusionEKF.new
          (⟨0, 0, !![1, 0, 1, 0; 0, 1, 0, 1; 0, 0, 1, 0; 0, 0, 0, 1], 0, 0, 0, 0⟩ : KalmanFilter ℝ)
          ⟨1 / 10000, 0⟩ 0 with is_initialized_ := true } : FusionEKF ℝ).ekf_.P_.IsSymm
    ∧ ({ FusionEKF.new
          (⟨0, 0, !![1, 0, 1, 0; 0, 1, 0, 1; 0, 0, 1, 0; 0, 0, 0, 1], 0, 0, 0, 0⟩ : KalmanFilter ℝ)
          ⟨1 / 10000, 0⟩ 0 with is_initialized_ := true } : FusionEKF ℝ).ekf_.P_.PosSemidef
    ∧ (({ FusionEKF.new
          (⟨0, 0, !![1, 0, 1, 0; 0, 1, 0, 1; 0, 0, 1, 0; 0, 0, 0, 1], 0, 0, 0, 0⟩ : KalmanFilter ℝ)
          ⟨1 / 10000, 0⟩ 0 with is_initialized_ := true } : FusionEKF ℝ).prediction
        (laser 100000 1 1)).ekf_.P_
      = !![15461883 / 68719476736, 0, 9663677 / 2147483648, 0;
           0, 15461883 / 68719476736, 0, 9663677 / 2147483648;
           9663677 / 2147483648, 0, 3019899 / 33554432, 0;
           0, 9663677 / 2147483648, 0, 3019899 / 33554432]
    ∧ ¬ (({ FusionEKF.new
          (⟨0, 0, !![1, 0, 1, 0; 0, 1, 0, 1; 0, 0, 1, 0; 0, 0, 0, 1], 0, 0, 0, 0⟩ : KalmanFilter ℝ)
          ⟨1 / 10000, 0⟩ 0 with is_initialized_ := true } : FusionEKF ℝ).prediction
        (laser 100000 1 1)).ekf_.P_.PosSemidef := by
  have hQ := beforePredict_Q_of_elapsed_tenth _ _ (elapsed_of_sub_eq_100000
    ({ FusionEKF.new
          (⟨0, 0, !![1, 0, 1, 0; 0, 1, 0, 1; 0, 0, 1, 0; 0, 0, 0, 1], 0, 0, 0, 0⟩ : KalmanFilter ℝ)
          ⟨1 / 10000, 0⟩ 0 with is_initialized_ := true } : FusionEKF ℝ)
    (laser 100000 1 1) (by norm_num [FusionEKF.new, laser]))
  have hPz : ({ FusionEKF.new
          (⟨0, 0, !![1, 0, 1, 0; 0, 1, 0, 1; 0, 0, 1, 0; 0, 0, 0, 1], 0, 0, 0, 0⟩ : KalmanFilter ℝ)
          ⟨1 / 10000, 0⟩ 0 with is_initialized_ := true } : FusionEKF ℝ).ekf_.P_ = 0 := rfl
  have hpred : (({ FusionEKF.new
          (⟨0, 0, !![1, 0, 1, 0; 0, 1, 0, 1; 0, 0, 1, 0; 0, 0, 0, 1], 0, 0, 0, 0⟩ : KalmanFilter ℝ)
          ⟨1 / 10000, 0⟩ 0 with is_initialized_ := true } : FusionEKF ℝ).prediction
        (laser 100000 1 1)).ekf_.P_
      = !![15461883 / 68719476736, 0, 9663677 / 2147483648, 0;
           0, 15461883 / 68719476736, 0, 9663677 / 2147483648;
           9663677 / 2147483648, 0, 3019899 / 33554432, 0;
           0, 9663677 / 2147483648, 0, 3019899 / 33554432] := by
    have e : (({ FusionEKF.new
          (⟨0, 0, !![1, 0, 1, 0; 0, 1, 0, 1; 0, 0, 1, 0; 0, 0, 0, 1], 0, 0, 0, 0⟩ : KalmanFilter ℝ)
          ⟨1 / 10000, 0⟩ 0 with is_initialized_ := true } : FusionEKF ℝ).prediction
        (laser 100000 1 1)).ekf_.P_
        = (({ FusionEKF.new
          (⟨0, 0, !![1, 0, 1, 0; 0, 1, 0, 1; 0, 0, 1, 0; 0, 0, 0, 1], 0, 0, 0, 0⟩ : KalmanFilter ℝ)
          ⟨1 / 10000, 0⟩ 0 with is_initialized_ := true } : FusionEKF ℝ).beforePredict
            (laser 100000 1 1)).ekf_.F_
          * ({ FusionEKF.new
          (⟨0, 0, !![1, 0, 1, 0; 0, 1, 0, 1; 0, 0, 1, 0; 0, 0, 0, 1], 0, 0, 0, 0⟩ : KalmanFilter ℝ)
          ⟨1 / 10000, 0⟩ 0 with is_initialized_ := true } : FusionEKF ℝ).ekf_.P_
          * (({ FusionEKF.new
          (⟨0, 0, !![1, 0, 1, 0; 0, 1, 0, 1; 0, 0, 1, 0; 0, 0, 0, 1], 0, 0, 0, 0⟩ : KalmanFilter ℝ)
          ⟨1 / 10000, 0⟩ 0 with is_initialized_ := true } : FusionEKF ℝ).beforePredict
            (laser 100000 1 1)).ekf_.F_.transpose
          + (({ FusionEKF.new
          (⟨0, 0, !![1, 0, 1, 0; 0, 1, 0, 1; 0, 0, 1, 0; 0, 0, 0, 1], 0, 0, 0, 0⟩ : KalmanFilter ℝ)
          ⟨1 / 10000, 0⟩ 0 with is_initialized_ := true } : FusionEKF ℝ).beforePredict
            (laser 100000 1 1)).ekf_.Q_ := rfl
    rw [e, hQ, hPz, Matrix.mul_zero, Matrix.zero_mul, zero_add]
  refine ⟨rfl, ?_, ?_, hpred, ?_⟩
  · rw [hPz]; exact Matrix.isSymm_zero
  · rw [hPz]; exact Matrix.PosSemidef.zero
  · rw [hpred]
    exact blockNoise_not_posSemidef _ _ _ (by norm_num) (by norm_num)

end FusionEKFModel
